import Mathlib

/-! Spring-damper body simulator: circle pair and rectangle quad.

A shallow embedding of the physics / state-machine core of `modern_opengl.c`
(two circles) and `rect_opengl.c` (four rectangles).

* C `float` values are exact rationals (`ℚ`); the literals are the decimal
  literals of the source.
* `sqrtf` comes from the C library and is not part of the repository: every
  function that calls it takes it as its first argument `sqrtf : ℚ → ℚ`.
* No function `ℚ → ℚ` is an exact square root. The rectangle physics step is therefore
  given a second time in `AnyField`, word for word over an arbitrary linearly ordered field
  `K`, so that the speed cap can be stated for every `K` and every `sqrtf : K → K` and
  evaluated with the real square root on `K = ℝ`; at `K = ℚ` it is the `ℚ` engine
  (`r_update_toField`).
* Global variables become fields of an explicit state record; a global that is
  initialised and never assigned again (`physicsActive`, `circleRadius`,
  `rectHalfX`, `rectHalfY`) is a constant.
* The window procedure is a function from a state and an event to a state; the
  client rectangle read by `GetClientRect` travels with the event.
-/

namespace Sdf

/-! ## C library helpers on exact rationals -/

/-- The C library `fabsf`. -/
def fabsf (x : ℚ) : ℚ := |x|

/-- The C library `fmaxf` (no NaN over the rationals). -/
def fmaxf (a b : ℚ) : ℚ := max a b

/-- The C library `fminf` (no NaN over the rationals). -/
def fminf (a b : ℚ) : ℚ := min a b

/-- A computable stand-in for `sqrtf` on rationals: `⌊√(num·den)⌋ / den`, which is the exact
root whenever the argument is the square of a rational. It instantiates the `sqrtf` argument
wherever a concrete evaluation is needed. -/
def sqrtQ (q : ℚ) : ℚ := (Nat.sqrt (q.num.toNat * q.den) : ℚ) / (q.den : ℚ)

/-! ## Pointer mapping shared by both window procedures -/

/-- The two pixel clamps `if (m < 0) m = 0; if (m > (int)size - 1) m = (int)size - 1;`. -/
def clampPixel (m size : Int) : Int :=
  let m1 := if m < 0 then 0 else m
  if m1 > size - 1 then size - 1 else m1

/-- Horizontal pixel to normalised device coordinate: `(mx) / width * 2.0f - 1.0f`. -/
def ndcX (mx width : Int) : ℚ := (mx : ℚ) / (width : ℚ) * 2.0 - 1.0

/-- Vertical pixel to normalised device coordinate: `1.0f - (my) / height * 2.0f`. -/
def ndcY (my height : Int) : ℚ := 1.0 - (my : ℚ) / (height : ℚ) * 2.0

/-! ## Circle engine (`modern_opengl.c`) -/

def initialCircle1X : ℚ := -0.5
def initialCircle1Y : ℚ := 0.0
def initialCircle2X : ℚ := 0.5
def initialCircle2Y : ℚ := 0.0
def circleRadius : ℚ := 0.28
def physicsActive : Bool := true
def springK : ℚ := 1.0
def damping : ℚ := 0.6
def pairSpringK : ℚ := 0.30
def pairDamping : ℚ := 0.10
def timeStep : ℚ := 0.016
def calmThreshold : ℚ := 0.5
def velocityEps : ℚ := 0.003

/-- The mutable globals of `modern_opengl.c` that the engine reads or writes. -/
structure CircleState where
  circle1X : ℚ
  circle1Y : ℚ
  circle2X : ℚ
  circle2Y : ℚ
  isDragging1 : Bool
  isDragging2 : Bool
  circle1VX : ℚ
  circle1VY : ℚ
  circle2VX : ℚ
  circle2VY : ℚ
  calmTimer : ℚ
  mergeKickArmed : Bool
  userInteracted : Bool
  deriving DecidableEq

/-- The values the globals are initialised with. -/
def circleInit : CircleState :=
  { circle1X := -0.5, circle1Y := 0.0, circle2X := 0.5, circle2Y := 0.0,
    isDragging1 := false, isDragging2 := false,
    circle1VX := 0.0, circle1VY := 0.0, circle2VX := 0.0, circle2VY := 0.0,
    calmTimer := 0.0, mergeKickArmed := true, userInteracted := false }

/-- Source `isAtCenter`. -/
def isAtCenter (x y : ℚ) : Bool := decide (fabsf x ≤ 0.01) && decide (fabsf y ≤ 0.01)

/-- Source `isPointInCircle`. -/
def isPointInCircle (x y cx cy r : ℚ) : Bool :=
  let dx := x - cx
  let dy := y - cy
  decide (dx * dx + dy * dy ≤ r * r)

/-- Lines 158-167 of `updateAnimation`: centre pull, Euler step and clamp of circle 1, or
zero velocity while it is dragged. -/
def integrateCircle1 (s : CircleState) : CircleState :=
  let targetX : ℚ := 0.0
  let targetY : ℚ := 0.0
  if !s.isDragging1 then
    let ax1 := -springK * (s.circle1X - targetX) - damping * s.circle1VX
    let ay1 := -springK * (s.circle1Y - targetY) - damping * s.circle1VY
    let vx := s.circle1VX + ax1 * timeStep
    let vy := s.circle1VY + ay1 * timeStep
    let x := s.circle1X + vx * timeStep
    let y := s.circle1Y + vy * timeStep
    { s with circle1VX := vx, circle1VY := vy,
             circle1X := fmaxf (-0.95) (fminf 0.95 x),
             circle1Y := fmaxf (-0.95) (fminf 0.95 y) }
  else
    { s with circle1VX := 0.0, circle1VY := 0.0 }

/-- Lines 169-178 of `updateAnimation`: the same for circle 2. -/
def integrateCircle2 (s : CircleState) : CircleState :=
  let targetX : ℚ := 0.0
  let targetY : ℚ := 0.0
  if !s.isDragging2 then
    let ax2 := -springK * (s.circle2X - targetX) - damping * s.circle2VX
    let ay2 := -springK * (s.circle2Y - targetY) - damping * s.circle2VY
    let vx := s.circle2VX + ax2 * timeStep
    let vy := s.circle2VY + ay2 * timeStep
    let x := s.circle2X + vx * timeStep
    let y := s.circle2Y + vy * timeStep
    { s with circle2VX := vx, circle2VY := vy,
             circle2X := fmaxf (-0.95) (fminf 0.95 x),
             circle2Y := fmaxf (-0.95) (fminf 0.95 y) }
  else
    { s with circle2VX := 0.0, circle2VY := 0.0 }

/-- Lines 181-190 of `updateAnimation`: the spring-damper between the two circles. -/
def pairCoupling (s : CircleState) : CircleState :=
  let dx := s.circle1X - s.circle2X
  let dy := s.circle1Y - s.circle2Y
  let dvx := s.circle1VX - s.circle2VX
  let dvy := s.circle1VY - s.circle2VY
  let axPair := -pairSpringK * dx - pairDamping * dvx
  let ayPair := -pairSpringK * dy - pairDamping * dvy
  { s with circle1VX := s.circle1VX + axPair * timeStep,
           circle1VY := s.circle1VY + ayPair * timeStep,
           circle2VX := s.circle2VX - axPair * timeStep,
           circle2VY := s.circle2VY - ayPair * timeStep }

/-- Lines 192-197 of `updateAnimation`: the merge kick. The Boolean records whether the
branch was taken. -/
def mergeKick (s : CircleState) : CircleState × Bool :=
  if s.mergeKickArmed && s.userInteracted && isAtCenter s.circle1X s.circle1Y
      && isAtCenter s.circle2X s.circle2Y then
    ({ s with circle1VY := s.circle1VY + 0.25, circle2VY := s.circle2VY - 0.25,
              mergeKickArmed := false, userInteracted := false }, true)
  else
    (s, false)

/-- Lines 180-198 of `updateAnimation`: coupling and merge kick, only when nothing is
dragged. -/
def pairBlock (s : CircleState) : CircleState × Bool :=
  if !s.isDragging1 && !s.isDragging2 then mergeKick (pairCoupling s) else (s, false)

/-- Lines 200-220 of `updateAnimation`: idle detection and reset. The Boolean records
whether the reset branch was taken. -/
def calmBlock (sqrtf : ℚ → ℚ) (s : CircleState) : CircleState × Bool :=
  if !s.isDragging1 && !s.isDragging2 then
    let speed1 := sqrtf (s.circle1VX * s.circle1VX + s.circle1VY * s.circle1VY)
    let speed2 := sqrtf (s.circle2VX * s.circle2VX + s.circle2VY * s.circle2VY)
    if isAtCenter s.circle1X s.circle1Y && isAtCenter s.circle2X s.circle2Y
        && decide (speed1 < velocityEps) && decide (speed2 < velocityEps) then
      let calm := s.calmTimer + timeStep
      if calm ≥ calmThreshold then
        ({ s with circle1X := initialCircle1X, circle1Y := initialCircle1Y,
                  circle2X := initialCircle2X, circle2Y := initialCircle2Y,
                  circle1VX := 0.0, circle1VY := 0.0,
                  circle2VX := 0.0, circle2VY := 0.0,
                  calmTimer := 0.0, mergeKickArmed := true }, true)
      else
        ({ s with calmTimer := calm }, false)
    else
      ({ s with calmTimer := 0.0 }, false)
  else
    ({ s with calmTimer := 0.0 }, false)

/-- The state at the idle check of `updateAnimation` (after line 198), with the record of
whether the merge kick branch was taken. -/
def beforeCalm (s : CircleState) : CircleState × Bool :=
  pairBlock (integrateCircle2 (integrateCircle1 s))

/-- Source `updateAnimation`, returning the new state together with two records: merge kick
branch taken, reset branch taken. -/
def updateAnimationTraced (sqrtf : ℚ → ℚ) (s : CircleState) : CircleState × Bool × Bool :=
  if !physicsActive then (s, false, false)
  else
    let mid := beforeCalm s
    let fin := calmBlock sqrtf mid.1
    (fin.1, mid.2, fin.2)

/-- Source `updateAnimation`. -/
def updateAnimation (sqrtf : ℚ → ℚ) (s : CircleState) : CircleState :=
  (updateAnimationTraced sqrtf s).1

/-- Whether this `updateAnimation` step takes the merge kick branch. -/
def mergeKickFired (sqrtf : ℚ → ℚ) (s : CircleState) : Bool :=
  (updateAnimationTraced sqrtf s).2.1

/-- Whether this `updateAnimation` step takes the reset branch. -/
def idleResetFired (sqrtf : ℚ → ℚ) (s : CircleState) : Bool :=
  (updateAnimationTraced sqrtf s).2.2

/-- Source `updateCirclePositions`, with the client size `width × height`. -/
def updateCirclePositions (width height : Int) (mouseX mouseY : Int) (s : CircleState) :
    CircleState :=
  let mx := clampPixel mouseX width
  let my := clampPixel mouseY height
  let nx := ndcX mx width
  let ny := ndcY my height
  let s1 :=
    if s.isDragging1 then
      { s with circle1X := fmaxf (-0.8) (fminf 0.8 nx), circle1Y := fmaxf (-0.8) (fminf 0.8 ny) }
    else s
  if s1.isDragging2 then
    { s1 with circle2X := fmaxf (-0.8) (fminf 0.8 nx), circle2Y := fmaxf (-0.8) (fminf 0.8 ny) }
  else s1

/-- The messages of `WindowProc` that touch the engine state. -/
inductive CircleEvent where
  | lButtonDown (width height mouseX mouseY : Int)
  | lButtonUp
  | mouseMove (width height mouseX mouseY : Int)
  | timer
  deriving DecidableEq

/-- Source `WindowProc`, restricted to the engine state. -/
def WindowProc (sqrtf : ℚ → ℚ) (s : CircleState) : CircleEvent → CircleState
  | .lButtonDown width height mouseX mouseY =>
    let mx := clampPixel mouseX width
    let my := clampPixel mouseY height
    let nx := ndcX mx width
    let ny := ndcY my height
    let s1 :=
      if isPointInCircle nx ny s.circle1X s.circle1Y circleRadius then
        { s with isDragging1 := true }
      else if isPointInCircle nx ny s.circle2X s.circle2Y circleRadius then
        { s with isDragging2 := true }
      else s
    { s1 with userInteracted := true }
  | .lButtonUp => { s with isDragging1 := false, isDragging2 := false }
  | .mouseMove width height mouseX mouseY =>
    if s.isDragging1 || s.isDragging2 then updateCirclePositions width height mouseX mouseY s
    else s
  | .timer => updateAnimation sqrtf s

/-- The test of lines 203-204 of `updateAnimation`: both circles at the centre and both speeds
below `velocityEps`. -/
def isSettled (sqrtf : ℚ → ℚ) (s : CircleState) : Bool :=
  isAtCenter s.circle1X s.circle1Y && isAtCenter s.circle2X s.circle2Y
    && decide (sqrtf (s.circle1VX * s.circle1VX + s.circle1VY * s.circle1VY) < velocityEps)
    && decide (sqrtf (s.circle2VX * s.circle2VX + s.circle2VY * s.circle2VY) < velocityEps)

/-- The value of `circle1X` after line 163 of `updateAnimation`, before the clamp. -/
def preClamp1X (s : CircleState) : ℚ := s.circle1X + (integrateCircle1 s).circle1VX * timeStep

/-- The value of `circle1Y` after line 164 of `updateAnimation`, before the clamp. -/
def preClamp1Y (s : CircleState) : ℚ := s.circle1Y + (integrateCircle1 s).circle1VY * timeStep

/-- The value of `circle2X` after line 174 of `updateAnimation`, before the clamp. -/
def preClamp2X (s : CircleState) : ℚ := s.circle2X + (integrateCircle2 s).circle2VX * timeStep

/-- The value of `circle2Y` after line 175 of `updateAnimation`, before the clamp. -/
def preClamp2Y (s : CircleState) : ℚ := s.circle2Y + (integrateCircle2 s).circle2VY * timeStep

/-- Whether the event is a pointer press (`WM_LBUTTONDOWN`). -/
def CircleEvent.isPress : CircleEvent → Bool
  | .lButtonDown _ _ _ _ => true
  | _ => false

/-- Whether handling the event in state `s` takes the merge kick branch; only a timer tick
runs `updateAnimation`. -/
def eventKicks (sqrtf : ℚ → ℚ) (s : CircleState) : CircleEvent → Bool
  | .timer => mergeKickFired sqrtf s
  | _ => false

/-- Number of events of the sequence, handled in order from `s`, in which the merge kick
branch is taken. -/
def kickCount (sqrtf : ℚ → ℚ) : CircleState → List CircleEvent → Nat
  | _, [] => 0
  | s, e :: es =>
    (if eventKicks sqrtf s e then 1 else 0) + kickCount sqrtf (WindowProc sqrtf s e) es

/-- The physics bound `[-0.95, 0.95] × [-0.95, 0.95]`. -/
def inPhysicsBound (x y : ℚ) : Prop := -0.95 ≤ x ∧ x ≤ 0.95 ∧ -0.95 ≤ y ∧ y ≤ 0.95

/-- Both circles lie in the physics bound. -/
def circlesInBound (s : CircleState) : Prop :=
  inPhysicsBound s.circle1X s.circle1Y ∧ inPhysicsBound s.circle2X s.circle2Y

/-! ## Rectangle engine (`rect_opengl.c`) -/

/-- Source `Body`. -/
structure Body where
  x : ℚ
  y : ℚ
  vx : ℚ
  vy : ℚ
  dragging : Bool
  deriving DecidableEq

def rectHalfX : ℚ := 0.18
def rectHalfY : ℚ := 0.12
def r_dt : ℚ := 0.016
def r_k : ℚ := 0.8
def r_c : ℚ := 1.5
def r_pairK : ℚ := 0.1
def r_pairC : ℚ := 0.3

/-- The mutable globals of `rect_opengl.c` that the engine reads or writes: the array
`R[4]` and `r_time`. -/
structure RectState where
  R : Fin 4 → Body
  r_time : ℚ

/-- The positions `run_rectangles_animation` starts from. -/
def rectInit : RectState :=
  { R := ![{ x := -0.7, y := -0.7, vx := 0, vy := 0, dragging := false },
           { x := 0.7, y := 0.7, vx := 0, vy := 0, dragging := false },
           { x := -0.7, y := 0.7, vx := 0, vy := 0, dragging := false },
           { x := 0.7, y := -0.7, vx := 0, vy := 0, dragging := false }],
    r_time := 0.0 }

/-- Source `r_pointInRect`. -/
def r_pointInRect (nx ny cx cy hx hy : ℚ) : Bool :=
  decide (fabsf (nx - cx) ≤ hx) && decide (fabsf (ny - cy) ≤ hy)

/-- Lines 106-126 of `r_update`: what rectangle `j` adds to the acceleration `a` of
rectangle `i`. The source also computes `dist = sqrtf(distSq)` and never reads it. -/
def r_pairTerm (sqrtf : ℚ → ℚ) (R : Fin 4 → Body) (i j : Fin 4) (a : ℚ × ℚ) : ℚ × ℚ :=
  if i ≠ j then
    let dx := (R i).x - (R j).x
    let dy := (R i).y - (R j).y
    let distSq := dx * dx + dy * dy
    if distSq < 0.05 then
      let _dist := sqrtf distSq
      let dvx := (R i).vx - (R j).vx
      let dvy := (R i).vy - (R j).vy
      let pairDamping := r_pairC * 3.0
      let pair_ax := -r_pairK * 0.1 * dx - pairDamping * dvx
      let pair_ay := -r_pairK * 0.1 * dy - pairDamping * dvy
      (a.1 + pair_ax * 0.2, a.2 + pair_ay * 0.2)
    else a
  else a

/-- Line 90 of `r_update`: distance of a rectangle from the origin. -/
def r_distFromCenter (sqrtf : ℚ → ℚ) (b : Body) : ℚ := sqrtf (b.x * b.x + b.y * b.y)

/-- Lines 93-128 of `r_update`: the acceleration `(ax, ay)` of rectangle `i`. -/
def r_accel (sqrtf : ℚ → ℚ) (any_dragging : Bool) (R : Fin 4 → Body) (i : Fin 4) : ℚ × ℚ :=
  let distFromCenter := r_distFromCenter sqrtf (R i)
  let dynamicDamping :=
    if distFromCenter < 0.7 then 3.0 + (0.7 - distFromCenter) * 7.0 else r_c
  let ax := -r_k * (R i).x - dynamicDamping * (R i).vx
  let ay := -r_k * (R i).y - dynamicDamping * (R i).vy
  if !any_dragging then
    ([0, 1, 2, 3] : List (Fin 4)).foldl (fun a j => r_pairTerm sqrtf R i j a) (ax, ay)
  else (ax, ay)

/-- Lines 131-134 of `r_update`: the Euler step of rectangle `i`. -/
def r_integrate (sqrtf : ℚ → ℚ) (any_dragging : Bool) (R : Fin 4 → Body) (i : Fin 4) : Body :=
  let a := r_accel sqrtf any_dragging R i
  let vx := (R i).vx + a.1 * r_dt
  let vy := (R i).vy + a.2 * r_dt
  { R i with vx := vx, vy := vy, x := (R i).x + vx * r_dt, y := (R i).y + vy * r_dt }

/-- Lines 138-141 of `r_update`: the speed cap for a rectangle at distance
`distFromCenter` from the origin. -/
def r_maxSpeed (distFromCenter : ℚ) : ℚ :=
  if distFromCenter < 0.3 then 0.3 + distFromCenter * 2.33 else 1.0

/-- Lines 137-145 of `r_update`: velocity limiting. -/
def r_limitSpeed (sqrtf : ℚ → ℚ) (distFromCenter : ℚ) (b : Body) : Body :=
  let speed := sqrtf (b.vx * b.vx + b.vy * b.vy)
  let maxSpeed := r_maxSpeed distFromCenter
  if speed > maxSpeed then
    { b with vx := b.vx / speed * maxSpeed, vy := b.vy / speed * maxSpeed }
  else b

/-- Lines 148-151 of `r_update`: the four boundary tests, in source order. -/
def r_keepInBounds (b : Body) : Body :=
  let b1 := if b.x < -0.95 then { b with x := -0.95, vx := -b.vx * 0.5 } else b
  let b2 := if b1.x > 0.95 then { b1 with x := 0.95, vx := -b1.vx * 0.5 } else b1
  let b3 := if b2.y < -0.95 then { b2 with y := -0.95, vy := -b2.vy * 0.5 } else b2
  if b3.y > 0.95 then { b3 with y := 0.95, vy := -b3.vy * 0.5 } else b3

/-- Lines 88-154 of `r_update`: the body of the physics loop for rectangle `i`, reading the
array as it stands when the loop reaches `i`. -/
def r_bodyStep (sqrtf : ℚ → ℚ) (any_dragging : Bool) (R : Fin 4 → Body) (i : Fin 4) : Body :=
  if !(R i).dragging then
    r_keepInBounds
      (r_limitSpeed sqrtf (r_distFromCenter sqrtf (R i)) (r_integrate sqrtf any_dragging R i))
  else
    { R i with vx := 0.0, vy := 0.0 }

/-- The array after the first `n` iterations of the physics loop (lines 87-155), which
updates `R[0]`, `R[1]`, ... in place. -/
def r_bodyLoop (sqrtf : ℚ → ℚ) (any_dragging : Bool) (R : Fin 4 → Body) : Nat → (Fin 4 → Body)
  | 0 => R
  | n + 1 =>
    let R1 := r_bodyLoop sqrtf any_dragging R n
    if h : n < 4 then Function.update R1 ⟨n, h⟩ (r_bodyStep sqrtf any_dragging R1 ⟨n, h⟩)
    else R1

/-- Line 84 of `r_update`: whether any rectangle is being dragged. -/
def r_anyDragging (s : RectState) : Bool :=
  (s.R 0).dragging || (s.R 1).dragging || (s.R 2).dragging || (s.R 3).dragging

/-- The array `R` as it stands when the physics loop of `r_update` reaches rectangle `i`. -/
def r_loopEntry (sqrtf : ℚ → ℚ) (s : RectState) (i : Fin 4) : Fin 4 → Body :=
  r_bodyLoop sqrtf (r_anyDragging s) s.R i.val

/-- Rectangle `i` after line 134 of `r_update` (integrated, before the speed cap). -/
def r_integrated (sqrtf : ℚ → ℚ) (s : RectState) (i : Fin 4) : Body :=
  r_integrate sqrtf (r_anyDragging s) (r_loopEntry sqrtf s i) i

/-- Rectangle `i` after line 145 of `r_update` (speed-capped, before the boundary tests). -/
def r_capped (sqrtf : ℚ → ℚ) (s : RectState) (i : Fin 4) : Body :=
  r_limitSpeed sqrtf (r_distFromCenter sqrtf (r_loopEntry sqrtf s i i)) (r_integrated sqrtf s i)

/-- Lines 171-192 of `r_update`: the gentle convergence of one rectangle. -/
def r_settleBody (b : Body) : Body :=
  let distSq := b.x * b.x + b.y * b.y
  let b1 :=
    if distSq < 0.05 then
      { b with vx := b.vx * 0.85, vy := b.vy * 0.85, x := b.x * 0.9, y := b.y * 0.9 }
    else
      { b with x := b.x * 0.95, y := b.y * 0.95 }
  if distSq < 0.0001 then { b1 with x := 0.0, y := 0.0, vx := 0.0, vy := 0.0 } else b1

/-- Lines 158-195 of `r_update`: the convergence phase. -/
def r_settle (sqrtf : ℚ → ℚ) (R : Fin 4 → Body) : Fin 4 → Body :=
  if !(R 0).dragging && !(R 1).dragging && !(R 2).dragging && !(R 3).dragging then
    let allCenter := ([0, 1, 2, 3] : List (Fin 4)).all fun i =>
      !(decide (fabsf (R i).x > 0.1) || decide (fabsf (R i).y > 0.1))
    let slow := ([0, 1, 2, 3] : List (Fin 4)).all fun i =>
      !decide (sqrtf ((R i).vx * (R i).vx + (R i).vy * (R i).vy) ≥ 0.01)
    if allCenter && slow then fun i => r_settleBody (R i) else R
  else R

/-- Source `r_update`. -/
def r_update (sqrtf : ℚ → ℚ) (s : RectState) : RectState :=
  let any_dragging := r_anyDragging s
  { R := r_settle sqrtf (r_bodyLoop sqrtf any_dragging s.R 4),
    r_time := s.r_time + r_dt }

/-- Source `r_updateDragFromMouse`, with the client size `w × h`. -/
def r_updateDragFromMouse (w h : Int) (mx my : Int) (s : RectState) : RectState :=
  let mx1 := clampPixel mx w
  let my1 := clampPixel my h
  let nx := ndcX mx1 w
  let ny := ndcY my1 h
  { s with R := fun i =>
      if (s.R i).dragging then
        { s.R i with x := fmaxf (-0.8) (fminf 0.8 nx), y := fmaxf (-0.8) (fminf 0.8 ny) }
      else s.R i }

/-- The grab loop of `WM_LBUTTONDOWN` in `RectWindowProc` (lines 241-248): the first
rectangle hit, in index order, becomes dragging and ends the loop. -/
def r_grab (sx sy aspect : ℚ) : List (Fin 4) → (Fin 4 → Body) → (Fin 4 → Body)
  | [], R => R
  | i :: rest, R =>
    let cx := ((R i).x * 0.5 + 0.5) * aspect
    let cy := (R i).y * 0.5 + 0.5
    let hx := (rectHalfX * 0.5) * aspect + 0.015
    let hy := (rectHalfY * 0.5) + 0.015
    if decide (fabsf (sx - cx) ≤ hx) && decide (fabsf (sy - cy) ≤ hy) then
      Function.update R i { R i with dragging := true }
    else r_grab sx sy aspect rest R

/-- The messages of `RectWindowProc` that touch the engine state. -/
inductive RectEvent where
  | lButtonDown (w h mx my : Int)
  | lButtonUp
  | mouseMove (w h mx my : Int)
  | timer
  deriving DecidableEq

/-- Source `RectWindowProc`, restricted to the engine state. -/
def RectWindowProc (sqrtf : ℚ → ℚ) (s : RectState) : RectEvent → RectState
  | .lButtonDown w h mx my =>
    let mx1 := clampPixel mx w
    let my1 := clampPixel my h
    let nx := ndcX mx1 w
    let ny := ndcY my1 h
    let aspect : ℚ := if w > 0 ∧ h > 0 then (w : ℚ) / (h : ℚ) else 1.0
    let sx := (nx * 0.5 + 0.5) * aspect
    let sy := ny * 0.5 + 0.5
    { s with R := r_grab sx sy aspect [0, 1, 2, 3] s.R }
  | .lButtonUp => { s with R := fun i => { s.R i with dragging := false } }
  | .mouseMove w h mx my =>
    if (s.R 0).dragging || (s.R 1).dragging || (s.R 2).dragging || (s.R 3).dragging then
      r_updateDragFromMouse w h mx my s
    else s
  | .timer => r_update sqrtf s

/-- All four rectangles lie in the physics bound. -/
def rectsInBound (s : RectState) : Prop := ∀ i : Fin 4, inPhysicsBound (s.R i).x (s.R i).y

/-! ## Concrete states used in evaluations -/

/-- Both circles at rest at the origin for 31 ticks, nobody has pressed since the last
reset. -/
def restingAtOrigin : CircleState :=
  { circle1X := 0, circle1Y := 0, circle2X := 0, circle2Y := 0,
    isDragging1 := false, isDragging2 := false,
    circle1VX := 0, circle1VY := 0, circle2VX := 0, circle2VY := 0,
    calmTimer := 0.496, mergeKickArmed := true, userInteracted := false }

/-- The state in which the merge kick has been consumed, the user has pressed since, and both
circles have rested at the origin for 31 ticks. -/
def pressedAfterKick : CircleState :=
  { circle1X := 0, circle1Y := 0, circle2X := 0, circle2Y := 0,
    isDragging1 := false, isDragging2 := false,
    circle1VX := 0, circle1VY := 0, circle2VX := 0, circle2VY := 0,
    calmTimer := 0.496, mergeKickArmed := false, userInteracted := true }

/-- Both circles at rest at the origin with the merge kick armed after a user press. -/
def readyToMerge : CircleState :=
  { circle1X := 0, circle1Y := 0, circle2X := 0, circle2Y := 0,
    isDragging1 := false, isDragging2 := false,
    circle1VX := 0, circle1VY := 0, circle2VX := 0, circle2VY := 0,
    calmTimer := 0, mergeKickArmed := true, userInteracted := true }

/-- Both circles at rest at the origin for 31 ticks with the merge kick armed after a user
press. -/
def mergeAtThreshold : CircleState :=
  { circle1X := 0, circle1Y := 0, circle2X := 0, circle2Y := 0,
    isDragging1 := false, isDragging2 := false,
    circle1VX := 0, circle1VY := 0, circle2VX := 0, circle2VY := 0,
    calmTimer := 0.496, mergeKickArmed := true, userInteracted := true }

/-- Both circles at rest at the origin for one tick, nobody has pressed. -/
def calmCounting : CircleState :=
  { circle1X := 0, circle1Y := 0, circle2X := 0, circle2Y := 0,
    isDragging1 := false, isDragging2 := false,
    circle1VX := 0, circle1VY := 0, circle2VX := 0, circle2VY := 0,
    calmTimer := 0.016, mergeKickArmed := true, userInteracted := false }

/-- Rectangle 0 on the right wall moving outwards at unit speed, the other three in their
starting corners. -/
def rectAtRightWall : RectState :=
  { R := ![{ x := 0.95, y := 0, vx := 1, vy := 0, dragging := false },
           { x := 0.7, y := 0.7, vx := 0, vy := 0, dragging := false },
           { x := -0.7, y := 0.7, vx := 0, vy := 0, dragging := false },
           { x := 0.7, y := -0.7, vx := 0, vy := 0, dragging := false }],
    r_time := 0 }

/-- Circle 1 on the right wall moving outwards at unit speed while circle 2 is held. -/
def circleAtRightWall : CircleState :=
  { circle1X := 0.95, circle1Y := 0, circle2X := 0.5, circle2Y := 0,
    isDragging1 := false, isDragging2 := true,
    circle1VX := 1, circle1VY := 0, circle2VX := 0, circle2VY := 0,
    calmTimer := 0, mergeKickArmed := true, userInteracted := false }

/-- Rectangles 0 and 1 at rest `0.1` apart near the origin, the other two in their starting
corners. -/
def rectClosePair : RectState :=
  { R := ![{ x := 0.1, y := 0, vx := 0, vy := 0, dragging := false },
           { x := 0, y := 0, vx := 0, vy := 0, dragging := false },
           { x := -0.7, y := 0.7, vx := 0, vy := 0, dragging := false },
           { x := 0.7, y := -0.7, vx := 0, vy := 0, dragging := false }],
    r_time := 0 }

/-! ## Rectangle engine over any ordered field

The rectangle physics step once more, the same source lines over an arbitrary linearly ordered
field `K` in place of `ℚ`. Statements about exact square roots are made here: no function
`ℚ → ℚ` is an exact square root, the real square root on `K = ℝ` is. -/

namespace AnyField

variable {K : Type} [LinearOrderedField K]

/-- The C library `fabsf`. -/
def fabsf (x : K) : K := |x|

/-- Source `Body`. -/
structure Body (K : Type) where
  x : K
  y : K
  vx : K
  vy : K
  dragging : Bool
  deriving DecidableEq

def r_dt : K := 0.016
def r_k : K := 0.8
def r_c : K := 1.5
def r_pairK : K := 0.1
def r_pairC : K := 0.3

/-- The mutable globals of `rect_opengl.c` that the engine reads or writes: the array
`R[4]` and `r_time`. -/
structure RectState (K : Type) where
  R : Fin 4 → Body K
  r_time : K

/-- Lines 106-126 of `r_update`: what rectangle `j` adds to the acceleration `a` of
rectangle `i`. The source also computes `dist = sqrtf(distSq)` and never reads it. -/
def r_pairTerm (sqrtf : K → K) (R : Fin 4 → Body K) (i j : Fin 4) (a : K × K) : K × K :=
  if i ≠ j then
    let dx := (R i).x - (R j).x
    let dy := (R i).y - (R j).y
    let distSq := dx * dx + dy * dy
    if distSq < 0.05 then
      let _dist := sqrtf distSq
      let dvx := (R i).vx - (R j).vx
      let dvy := (R i).vy - (R j).vy
      let pairDamping := r_pairC * 3.0
      let pair_ax := -r_pairK * 0.1 * dx - pairDamping * dvx
      let pair_ay := -r_pairK * 0.1 * dy - pairDamping * dvy
      (a.1 + pair_ax * 0.2, a.2 + pair_ay * 0.2)
    else a
  else a

/-- Line 90 of `r_update`: distance of a rectangle from the origin. -/
def r_distFromCenter (sqrtf : K → K) (b : Body K) : K := sqrtf (b.x * b.x + b.y * b.y)

/-- Lines 93-128 of `r_update`: the acceleration `(ax, ay)` of rectangle `i`. -/
def r_accel (sqrtf : K → K) (any_dragging : Bool) (R : Fin 4 → Body K) (i : Fin 4) : K × K :=
  let distFromCenter := r_distFromCenter sqrtf (R i)
  let dynamicDamping :=
    if distFromCenter < 0.7 then 3.0 + (0.7 - distFromCenter) * 7.0 else r_c
  let ax := -r_k * (R i).x - dynamicDamping * (R i).vx
  let ay := -r_k * (R i).y - dynamicDamping * (R i).vy
  if !any_dragging then
    ([0, 1, 2, 3] : List (Fin 4)).foldl (fun a j => r_pairTerm sqrtf R i j a) (ax, ay)
  else (ax, ay)

/-- Lines 131-134 of `r_update`: the Euler step of rectangle `i`. -/
def r_integrate (sqrtf : K → K) (any_dragging : Bool) (R : Fin 4 → Body K) (i : Fin 4) : Body K :=
  let a := r_accel sqrtf any_dragging R i
  let vx := (R i).vx + a.1 * r_dt
  let vy := (R i).vy + a.2 * r_dt
  { R i with vx := vx, vy := vy, x := (R i).x + vx * r_dt, y := (R i).y + vy * r_dt }

/-- Lines 138-141 of `r_update`: the speed cap for a rectangle at distance
`distFromCenter` from the origin. -/
def r_maxSpeed (distFromCenter : K) : K :=
  if distFromCenter < 0.3 then 0.3 + distFromCenter * 2.33 else 1.0

/-- Lines 137-145 of `r_update`: velocity limiting. -/
def r_limitSpeed (sqrtf : K → K) (distFromCenter : K) (b : Body K) : Body K :=
  let speed := sqrtf (b.vx * b.vx + b.vy * b.vy)
  let maxSpeed := r_maxSpeed distFromCenter
  if speed > maxSpeed then
    { b with vx := b.vx / speed * maxSpeed, vy := b.vy / speed * maxSpeed }
  else b

/-- Lines 148-151 of `r_update`: the four boundary tests, in source order. -/
def r_keepInBounds (b : Body K) : Body K :=
  let b1 := if b.x < -0.95 then { b with x := -0.95, vx := -b.vx * 0.5 } else b
  let b2 := if b1.x > 0.95 then { b1 with x := 0.95, vx := -b1.vx * 0.5 } else b1
  let b3 := if b2.y < -0.95 then { b2 with y := -0.95, vy := -b2.vy * 0.5 } else b2
  if b3.y > 0.95 then { b3 with y := 0.95, vy := -b3.vy * 0.5 } else b3

/-- Lines 88-154 of `r_update`: the body of the physics loop for rectangle `i`, reading the
array as it stands when the loop reaches `i`. -/
def r_bodyStep (sqrtf : K → K) (any_dragging : Bool) (R : Fin 4 → Body K) (i : Fin 4) : Body K :=
  if !(R i).dragging then
    r_keepInBounds
      (r_limitSpeed sqrtf (r_distFromCenter sqrtf (R i)) (r_integrate sqrtf any_dragging R i))
  else
    { R i with vx := 0.0, vy := 0.0 }

/-- The array after the first `n` iterations of the physics loop (lines 87-155), which
updates `R[0]`, `R[1]`, ... in place. -/
def r_bodyLoop (sqrtf : K → K) (any_dragging : Bool) (R : Fin 4 → Body K) : Nat → (Fin 4 → Body K)
  | 0 => R
  | n + 1 =>
    let R1 := r_bodyLoop sqrtf any_dragging R n
    if h : n < 4 then Function.update R1 ⟨n, h⟩ (r_bodyStep sqrtf any_dragging R1 ⟨n, h⟩)
    else R1

/-- Line 84 of `r_update`: whether any rectangle is being dragged. -/
def r_anyDragging (s : RectState K) : Bool :=
  (s.R 0).dragging || (s.R 1).dragging || (s.R 2).dragging || (s.R 3).dragging

/-- The array `R` as it stands when the physics loop of `r_update` reaches rectangle `i`. -/
def r_loopEntry (sqrtf : K → K) (s : RectState K) (i : Fin 4) : Fin 4 → Body K :=
  r_bodyLoop sqrtf (r_anyDragging s) s.R i.val

/-- Rectangle `i` after line 134 of `r_update` (integrated, before the speed cap). -/
def r_integrated (sqrtf : K → K) (s : RectState K) (i : Fin 4) : Body K :=
  r_integrate sqrtf (r_anyDragging s) (r_loopEntry sqrtf s i) i

/-- Rectangle `i` after line 145 of `r_update` (speed-capped, before the boundary tests). -/
def r_capped (sqrtf : K → K) (s : RectState K) (i : Fin 4) : Body K :=
  r_limitSpeed sqrtf (r_distFromCenter sqrtf (r_loopEntry sqrtf s i i)) (r_integrated sqrtf s i)

/-- Line 137 of `r_update`: the speed of rectangle `i` after integration, as the cap test
reads it. -/
def r_speed (sqrtf : K → K) (s : RectState K) (i : Fin 4) : K :=
  sqrtf ((r_integrated sqrtf s i).vx * (r_integrated sqrtf s i).vx
    + (r_integrated sqrtf s i).vy * (r_integrated sqrtf s i).vy)

/-- Lines 138-141 of `r_update`: the cap `maxSpeed` that applies to rectangle `i`. -/
def r_cap (sqrtf : K → K) (s : RectState K) (i : Fin 4) : K :=
  r_maxSpeed (r_distFromCenter sqrtf (r_loopEntry sqrtf s i i))

/-- Lines 171-192 of `r_update`: the gentle convergence of one rectangle. -/
def r_settleBody (b : Body K) : Body K :=
  let distSq := b.x * b.x + b.y * b.y
  let b1 :=
    if distSq < 0.05 then
      { b with vx := b.vx * 0.85, vy := b.vy * 0.85, x := b.x * 0.9, y := b.y * 0.9 }
    else
      { b with x := b.x * 0.95, y := b.y * 0.95 }
  if distSq < 0.0001 then { b1 with x := 0.0, y := 0.0, vx := 0.0, vy := 0.0 } else b1

/-- Lines 158-195 of `r_update`: the convergence phase. -/
def r_settle (sqrtf : K → K) (R : Fin 4 → Body K) : Fin 4 → Body K :=
  if !(R 0).dragging && !(R 1).dragging && !(R 2).dragging && !(R 3).dragging then
    let allCenter := ([0, 1, 2, 3] : List (Fin 4)).all fun i =>
      !(decide (fabsf (R i).x > 0.1) || decide (fabsf (R i).y > 0.1))
    let slow := ([0, 1, 2, 3] : List (Fin 4)).all fun i =>
      !decide (sqrtf ((R i).vx * (R i).vx + (R i).vy * (R i).vy) ≥ 0.01)
    if allCenter && slow then fun i => r_settleBody (R i) else R
  else R

/-- Source `r_update`. -/
def r_update (sqrtf : K → K) (s : RectState K) : RectState K :=
  let any_dragging := r_anyDragging s
  { R := r_settle sqrtf (r_bodyLoop sqrtf any_dragging s.R 4),
    r_time := s.r_time + r_dt }

/-- Rectangle 0 at `(0.6, 0.6)` moving outwards with velocity `(2, 2)`, the other three in
starting corners away from it. -/
def rectDiagonal : RectState K :=
  { R := ![{ x := 0.6, y := 0.6, vx := 2, vy := 2, dragging := false },
           { x := -0.7, y := -0.7, vx := 0, vy := 0, dragging := false },
           { x := -0.7, y := 0.7, vx := 0, vy := 0, dragging := false },
           { x := 0.7, y := -0.7, vx := 0, vy := 0, dragging := false }],
    r_time := 0 }

end AnyField


/-- A rectangle of the `ℚ` engine read as a rectangle over the field `ℚ`. -/
def Body.toField (b : Body) : AnyField.Body ℚ :=
  { x := b.x, y := b.y, vx := b.vx, vy := b.vy, dragging := b.dragging }

/-- The rectangle globals of the `ℚ` engine read as globals over the field `ℚ`. -/
def RectState.toField (s : RectState) : AnyField.RectState ℚ :=
  { R := fun i => (s.R i).toField, r_time := s.r_time }

/-! ## The rational square root -/

theorem sqrtQ_nonneg (q : ℚ) : 0 ≤ sqrtQ q := by
  unfold sqrtQ; positivity

theorem sqrtQ_mul_self (a : ℚ) : sqrtQ (a * a) = |a| := by
  unfold sqrtQ
  rw [Rat.mul_self_num, Rat.mul_self_den]
  have h1 : (a.num * a.num).toNat = a.num.natAbs * a.num.natAbs := by
    rw [← Int.natAbs_mul_self (a := a.num)]; exact Int.toNat_ofNat _
  have h2 : a.num.natAbs * a.num.natAbs * (a.den * a.den)
      = (a.num.natAbs * a.den) * (a.num.natAbs * a.den) := by ring
  rw [h1, h2, Nat.sqrt_eq]
  have hd : (a.den : ℚ) ≠ 0 := by exact_mod_cast a.den_nz
  push_cast
  rw [mul_div_mul_right _ _ hd, Nat.cast_natAbs, Int.cast_abs]
  conv_rhs => rw [← Rat.num_div_den a]
  rw [abs_div, Nat.abs_cast]

theorem sqrtQ_zero : sqrtQ 0 = 0 := by
  have h := sqrtQ_mul_self 0
  simpa using h

/-! ## Circle engine: structure of one step -/

theorem beforeCalm_isDragging1 (s : CircleState) :
    (beforeCalm s).1.isDragging1 = s.isDragging1 := by
  unfold beforeCalm pairBlock mergeKick pairCoupling integrateCircle2 integrateCircle1
  dsimp only
  split_ifs <;> rfl

theorem beforeCalm_isDragging2 (s : CircleState) :
    (beforeCalm s).1.isDragging2 = s.isDragging2 := by
  unfold beforeCalm pairBlock mergeKick pairCoupling integrateCircle2 integrateCircle1
  dsimp only
  split_ifs <;> rfl

theorem beforeCalm_calmTimer (s : CircleState) :
    (beforeCalm s).1.calmTimer = s.calmTimer := by
  unfold beforeCalm pairBlock mergeKick pairCoupling integrateCircle2 integrateCircle1
  dsimp only
  split_ifs <;> rfl

theorem updateAnimation_eq (sqrtf : ℚ → ℚ) (s : CircleState) :
    updateAnimation sqrtf s = (calmBlock sqrtf (beforeCalm s).1).1 := by
  simp [updateAnimation, updateAnimationTraced, physicsActive]

theorem mergeKickFired_eq (sqrtf : ℚ → ℚ) (s : CircleState) :
    mergeKickFired sqrtf s = (beforeCalm s).2 := by
  simp [mergeKickFired, updateAnimationTraced, physicsActive]

theorem idleResetFired_eq (sqrtf : ℚ → ℚ) (s : CircleState) :
    idleResetFired sqrtf s = (calmBlock sqrtf (beforeCalm s).1).2 := by
  simp [idleResetFired, updateAnimationTraced, physicsActive]

theorem calmBlock_userInteracted (sqrtf : ℚ → ℚ) (s : CircleState) :
    (calmBlock sqrtf s).1.userInteracted = s.userInteracted := by
  unfold calmBlock
  dsimp only
  split_ifs <;> rfl

theorem beforeCalm_userInteracted (s : CircleState) :
    (beforeCalm s).1.userInteracted = (s.userInteracted && !(beforeCalm s).2) := by
  unfold beforeCalm pairBlock mergeKick pairCoupling integrateCircle2 integrateCircle1
  dsimp only
  split_ifs <;> simp_all

theorem beforeCalm_fired_userInteracted (s : CircleState) (h : (beforeCalm s).2 = true) :
    s.userInteracted = true := by
  revert h
  unfold beforeCalm pairBlock mergeKick pairCoupling integrateCircle2 integrateCircle1
  dsimp only
  split_ifs <;> simp_all

theorem updateAnimation_userInteracted (sqrtf : ℚ → ℚ) (s : CircleState) :
    (updateAnimation sqrtf s).userInteracted = (s.userInteracted && !mergeKickFired sqrtf s) := by
  rw [updateAnimation_eq, mergeKickFired_eq, calmBlock_userInteracted,
    beforeCalm_userInteracted]

theorem WindowProc_userInteracted_false (sqrtf : ℚ → ℚ) (s : CircleState) (e : CircleEvent)
    (hu : s.userInteracted = false) (he : e.isPress = false) :
    (WindowProc sqrtf s e).userInteracted = false := by
  cases e with
  | lButtonDown w h mx my => simp [CircleEvent.isPress] at he
  | lButtonUp => simpa [WindowProc] using hu
  | mouseMove w h mx my =>
    simp only [WindowProc, updateCirclePositions]
    split_ifs <;> simpa using hu
  | timer =>
    simp only [WindowProc]
    rw [updateAnimation_userInteracted, hu]; rfl

theorem eventKicks_false_of_not_interacted (sqrtf : ℚ → ℚ) (s : CircleState) (e : CircleEvent)
    (hu : s.userInteracted = false) : eventKicks sqrtf s e = false := by
  cases e with
  | timer =>
    simp only [eventKicks]
    rw [mergeKickFired_eq]
    by_contra hk
    have := beforeCalm_fired_userInteracted s (by simpa using hk)
    simp [hu] at this
  | _ => rfl

theorem kickCount_zero_of_not_interacted (sqrtf : ℚ → ℚ) (es : List CircleEvent) :
    ∀ s : CircleState, s.userInteracted = false → (∀ e ∈ es, e.isPress = false) →
      kickCount sqrtf s es = 0 := by
  induction es with
  | nil => intro s _ _; rfl
  | cons e es ih =>
    intro s hu hp
    have he : e.isPress = false := hp e (List.mem_cons_self _ _)
    have hes : ∀ e' ∈ es, e'.isPress = false := fun e' h' => hp e' (List.mem_cons_of_mem _ h')
    simp only [kickCount, eventKicks_false_of_not_interacted sqrtf s e hu]
    rw [ih _ (WindowProc_userInteracted_false sqrtf s e hu he) hes]
    simp

theorem calmBlock_no_reset (sqrtf : ℚ → ℚ) (m : CircleState)
    (h : (calmBlock sqrtf m).2 = false) :
    (calmBlock sqrtf m).1.circle1X = m.circle1X ∧ (calmBlock sqrtf m).1.circle1Y = m.circle1Y ∧
    (calmBlock sqrtf m).1.circle2X = m.circle2X ∧ (calmBlock sqrtf m).1.circle2Y = m.circle2Y ∧
    (calmBlock sqrtf m).1.circle1VX = m.circle1VX ∧
    (calmBlock sqrtf m).1.circle1VY = m.circle1VY ∧
    (calmBlock sqrtf m).1.circle2VX = m.circle2VX ∧
    (calmBlock sqrtf m).1.circle2VY = m.circle2VY ∧
    (calmBlock sqrtf m).1.mergeKickArmed = m.mergeKickArmed := by
  revert h
  unfold calmBlock
  dsimp only
  split_ifs <;> simp

theorem integrate_flags (s : CircleState) :
    (integrateCircle2 (integrateCircle1 s)).isDragging1 = s.isDragging1 ∧
    (integrateCircle2 (integrateCircle1 s)).isDragging2 = s.isDragging2 ∧
    (integrateCircle2 (integrateCircle1 s)).mergeKickArmed = s.mergeKickArmed ∧
    (integrateCircle2 (integrateCircle1 s)).userInteracted = s.userInteracted ∧
    (integrateCircle2 (integrateCircle1 s)).calmTimer = s.calmTimer := by
  unfold integrateCircle2 integrateCircle1
  dsimp only
  split_ifs <;> simp

theorem pairBlock_fired_iff (i : CircleState) :
    (pairBlock i).2 = true ↔
      (i.isDragging1 = false ∧ i.isDragging2 = false ∧
       i.mergeKickArmed = true ∧ i.userInteracted = true ∧
       |i.circle1X| ≤ 0.01 ∧ |i.circle1Y| ≤ 0.01 ∧
       |i.circle2X| ≤ 0.01 ∧ |i.circle2Y| ≤ 0.01) := by
  unfold pairBlock mergeKick pairCoupling isAtCenter fabsf
  dsimp only
  split_ifs with h1 h2 <;> simp_all

theorem pairBlock_effect (i : CircleState) (h : (pairBlock i).2 = true) :
    (pairBlock i).1.circle1VY = (pairCoupling i).circle1VY + 0.25 ∧
    (pairBlock i).1.circle2VY = (pairCoupling i).circle2VY - 0.25 ∧
    (pairBlock i).1.circle1VX = (pairCoupling i).circle1VX ∧
    (pairBlock i).1.circle2VX = (pairCoupling i).circle2VX ∧
    (pairBlock i).1.circle1X = i.circle1X ∧ (pairBlock i).1.circle1Y = i.circle1Y ∧
    (pairBlock i).1.circle2X = i.circle2X ∧ (pairBlock i).1.circle2Y = i.circle2Y ∧
    (pairBlock i).1.mergeKickArmed = false ∧ (pairBlock i).1.userInteracted = false := by
  revert h
  unfold pairBlock mergeKick
  split_ifs <;> simp [pairCoupling]

/-! ## Circle engine: Euler step, idle reset and merge kick -/

/-- C1: with circle 1 free and circle 2 dragged (no coupling), one `updateAnimation` step is
the semi-implicit Euler step of the centre spring-damper for circle 1: the velocity becomes
`v + (-springK*p - damping*v)*timeStep` on each axis, the position becomes the clamp to
`[-0.95, 0.95]` of `p + v'*timeStep` with the new velocity `v'`, and the constants are
`springK = 1.0`, `damping = 0.6`, `timeStep = 0.016`. -/
theorem updateAnimation_free_circle1_euler (sqrtf : ℚ → ℚ) (s : CircleState)
    (h1 : s.isDragging1 = false) (h2 : s.isDragging2 = true) :
    (updateAnimation sqrtf s).circle1VX
        = s.circle1VX + (-springK * s.circle1X - damping * s.circle1VX) * timeStep ∧
    (updateAnimation sqrtf s).circle1VY
        = s.circle1VY + (-springK * s.circle1Y - damping * s.circle1VY) * timeStep ∧
    (updateAnimation sqrtf s).circle1X
        = max (-0.95) (min 0.95 (s.circle1X
            + (s.circle1VX + (-springK * s.circle1X - damping * s.circle1VX) * timeStep)
              * timeStep)) ∧
    (updateAnimation sqrtf s).circle1Y
        = max (-0.95) (min 0.95 (s.circle1Y
            + (s.circle1VY + (-springK * s.circle1Y - damping * s.circle1VY) * timeStep)
              * timeStep)) ∧
    springK = 1.0 ∧ damping = 0.6 ∧ timeStep = 0.016 := by
  simp [updateAnimation, updateAnimationTraced, beforeCalm, physicsActive, integrateCircle1,
    integrateCircle2, pairBlock, calmBlock, fmaxf, fminf, h1, h2]
  norm_num [springK, damping, timeStep]

/-- The Euler step of circle 1 from the starting position while circle 2 is held. -/
theorem updateAnimation_free_circle1_euler_witness :
    ({ circleInit with isDragging2 := true } : CircleState).isDragging1 = false ∧
    ({ circleInit with isDragging2 := true } : CircleState).isDragging2 = true ∧
    (updateAnimation sqrtQ { circleInit with isDragging2 := true }).circle1VX
        = circleInit.circle1VX
          + (-springK * circleInit.circle1X - damping * circleInit.circle1VX) * timeStep :=
  ⟨rfl, rfl,
    (updateAnimation_free_circle1_euler sqrtQ { circleInit with isDragging2 := true }
      rfl rfl).1⟩

/-- C2: golden scenario. Circle 1 at `(0.5, 0.0)` with zero velocity and free, circle 2
dragged (so no coupling), every other field arbitrary: one `updateAnimation` step with
`springK = 1.0`, `damping = 0.6`, `timeStep = 0.016` gives exactly `vx = -0.008` and
`x = 0.499872`, which is within half a unit in the fifth decimal of `0.49987`, and leaves
`vy = 0`, `y = 0`. -/
theorem updateAnimation_golden_scenario (sqrtf : ℚ → ℚ) (x2 y2 vx2 vy2 calm : ℚ)
    (armed interacted : Bool) :
    let s : CircleState :=
      { circle1X := 0.5, circle1Y := 0.0, circle2X := x2, circle2Y := y2,
        isDragging1 := false, isDragging2 := true,
        circle1VX := 0, circle1VY := 0, circle2VX := vx2, circle2VY := vy2,
        calmTimer := calm, mergeKickArmed := armed, userInteracted := interacted }
    (updateAnimation sqrtf s).circle1VX = -0.008 ∧
    (updateAnimation sqrtf s).circle1X = 0.499872 ∧
    (updateAnimation sqrtf s).circle1VY = 0 ∧
    (updateAnimation sqrtf s).circle1Y = 0 ∧
    |(updateAnimation sqrtf s).circle1X - 0.49987| < 0.000005 ∧
    springK = 1.0 ∧ damping = 0.6 ∧ timeStep = 0.016 := by
  simp [updateAnimation, updateAnimationTraced, beforeCalm, physicsActive, integrateCircle1,
    integrateCircle2, pairBlock, calmBlock, fmaxf, fminf, springK, damping, timeStep]
  norm_num [abs_lt]

/-- C3 (amended): idle reset postcondition. With neither circle dragged, if at the idle check of this
step (after integration, coupling and merge kick) both circles are within `0.01` of the
origin on both axes, both speeds are below `velocityEps = 0.003`, and
`calmTimer + timeStep ≥ calmThreshold = 0.5`, then the reset branch is taken and the step ends
with circle 1 at `(-0.5, 0)`, circle 2 at `(0.5, 0)`, all four velocity components `0`,
`calmTimer = 0` and `mergeKickArmed = true`. In any step with
`calmTimer + timeStep < calmThreshold` the reset branch is not taken. -/
theorem idle_reset_postcondition (sqrtf : ℚ → ℚ) (s : CircleState) :
    (s.isDragging1 = false → s.isDragging2 = false →
      |(beforeCalm s).1.circle1X| ≤ 0.01 → |(beforeCalm s).1.circle1Y| ≤ 0.01 →
      |(beforeCalm s).1.circle2X| ≤ 0.01 → |(beforeCalm s).1.circle2Y| ≤ 0.01 →
      sqrtf ((beforeCalm s).1.circle1VX * (beforeCalm s).1.circle1VX
        + (beforeCalm s).1.circle1VY * (beforeCalm s).1.circle1VY) < velocityEps →
      sqrtf ((beforeCalm s).1.circle2VX * (beforeCalm s).1.circle2VX
        + (beforeCalm s).1.circle2VY * (beforeCalm s).1.circle2VY) < velocityEps →
      s.calmTimer + timeStep ≥ calmThreshold →
        idleResetFired sqrtf s = true ∧
        (updateAnimation sqrtf s).circle1X = -0.5 ∧ (updateAnimation sqrtf s).circle1Y = 0 ∧
        (updateAnimation sqrtf s).circle2X = 0.5 ∧ (updateAnimation sqrtf s).circle2Y = 0 ∧
        (updateAnimation sqrtf s).circle1VX = 0 ∧ (updateAnimation sqrtf s).circle1VY = 0 ∧
        (updateAnimation sqrtf s).circle2VX = 0 ∧ (updateAnimation sqrtf s).circle2VY = 0 ∧
        (updateAnimation sqrtf s).calmTimer = 0 ∧
        (updateAnimation sqrtf s).mergeKickArmed = true) ∧
    (s.calmTimer + timeStep < calmThreshold → idleResetFired sqrtf s = false) ∧
    velocityEps = 0.003 ∧ calmThreshold = 0.5 ∧ timeStep = 0.016 := by
  refine ⟨?_, ?_, by norm_num [velocityEps], by norm_num [calmThreshold],
    by norm_num [timeStep]⟩
  · intro h1 h2 hx1 hy1 hx2 hy2 hv1 hv2 hc
    rw [idleResetFired_eq, updateAnimation_eq]
    have e1 := beforeCalm_isDragging1 s
    have e2 := beforeCalm_isDragging2 s
    have e3 := beforeCalm_calmTimer s
    generalize (beforeCalm s).1 = m at *
    rw [h1] at e1; rw [h2] at e2
    have hc' : calmThreshold ≤ m.calmTimer + timeStep := by rw [e3]; exact hc
    simp [calmBlock, isAtCenter, fabsf, e1, e2, hx1, hy1, hx2, hy2, hv1, hv2, hc',
      initialCircle1X, initialCircle1Y, initialCircle2X, initialCircle2Y]
    norm_num
  · intro hc
    rw [idleResetFired_eq]
    have e3 := beforeCalm_calmTimer s
    generalize (beforeCalm s).1 = m at *
    have hc' : ¬ calmThreshold ≤ m.calmTimer + timeStep := by rw [e3]; exact not_le.mpr hc
    unfold calmBlock
    dsimp only
    split_ifs <;> simp_all

/-- The reset fires from `restingAtOrigin`, whose 32nd calm tick reaches the threshold. -/
theorem idle_reset_postcondition_witness :
    restingAtOrigin.isDragging1 = false ∧ restingAtOrigin.isDragging2 = false ∧
    (beforeCalm restingAtOrigin).1 = restingAtOrigin ∧
    sqrtQ 0 < velocityEps ∧
    restingAtOrigin.calmTimer + timeStep ≥ calmThreshold ∧
    idleResetFired sqrtQ restingAtOrigin = true ∧
    (updateAnimation sqrtQ restingAtOrigin).circle1X = -0.5 ∧
    (updateAnimation sqrtQ restingAtOrigin).circle2X = 0.5 ∧
    (updateAnimation sqrtQ restingAtOrigin).calmTimer = 0 := by
  have hb : (beforeCalm restingAtOrigin).1 = restingAtOrigin := by
    simp [beforeCalm, pairBlock, mergeKick, pairCoupling, integrateCircle1, integrateCircle2,
      restingAtOrigin, fmaxf, fminf]
    norm_num
  have hv : sqrtQ 0 < velocityEps := by norm_num [sqrtQ_zero, velocityEps]
  have hc : restingAtOrigin.calmTimer + timeStep ≥ calmThreshold := by
    norm_num [restingAtOrigin, timeStep, calmThreshold]
  have h := (idle_reset_postcondition sqrtQ restingAtOrigin).1 rfl rfl
    (by rw [hb]; norm_num [restingAtOrigin]) (by rw [hb]; norm_num [restingAtOrigin])
    (by rw [hb]; norm_num [restingAtOrigin]) (by rw [hb]; norm_num [restingAtOrigin])
    (by rw [hb]; norm_num [restingAtOrigin, sqrtQ_zero, velocityEps])
    (by rw [hb]; norm_num [restingAtOrigin, sqrtQ_zero, velocityEps])
    hc
  exact ⟨rfl, rfl, hb, hv, hc, h.1, h.2.1, h.2.2.2.1, h.2.2.2.2.2.2.2.2.2.1⟩

theorem sqrtQ_quarter : sqrtQ (0 * 0 + 0.25 * 0.25) = 0.25 := by
  rw [zero_mul, zero_add, sqrtQ_mul_self]
  norm_num [abs_of_pos]

theorem mergeAtThreshold_integrated :
    integrateCircle2 (integrateCircle1 mergeAtThreshold) = mergeAtThreshold := by
  simp [integrateCircle1, integrateCircle2, mergeAtThreshold, fmaxf, fminf]
  norm_num

theorem mergeAtThreshold_coupled : pairCoupling mergeAtThreshold = mergeAtThreshold := by
  simp [pairCoupling, mergeAtThreshold]

theorem mergeAtThreshold_beforeCalm :
    beforeCalm mergeAtThreshold
      = ({ mergeAtThreshold with circle1VY := 0 + 0.25, circle2VY := 0 - 0.25,
                                 mergeKickArmed := false, userInteracted := false }, true) := by
  unfold beforeCalm
  rw [mergeAtThreshold_integrated]
  unfold pairBlock
  rw [mergeAtThreshold_coupled]
  simp [mergeKick, mergeAtThreshold, isAtCenter, fabsf]
  norm_num

theorem mergeAtThreshold_calmBlock :
    calmBlock sqrtQ (beforeCalm mergeAtThreshold).1
      = ({ (beforeCalm mergeAtThreshold).1 with calmTimer := 0.0 }, false) := by
  rw [mergeAtThreshold_beforeCalm]
  unfold calmBlock
  simp only [mergeAtThreshold, Bool.not_false, Bool.and_self, if_true]
  have h1 : sqrtQ (0 * 0 + (0 + 0.25) * (0 + 0.25)) = 0.25 := by
    rw [zero_add]; exact sqrtQ_quarter
  have h2 : ¬ ((0.25 : ℚ) < velocityEps) := by norm_num [velocityEps]
  simp only [h1, h2, decide_False, Bool.and_false, Bool.false_and, if_false]
  rfl

/-- Counterexample to the idle reset read after integration: in `mergeAtThreshold` neither
circle is dragged, integration (and the pair coupling after it) leaves both circles at the
origin with speed `0 < velocityEps`, and `calmTimer + timeStep = 0.512 ≥ calmThreshold`; yet
the step takes the merge kick branch, the idle check then sees speeds `0.25`, the reset branch
is not taken, and the step ends with both circles at `(0, 0)`, vertical velocities `±0.25`
and `mergeKickArmed = false`. -/
theorem idle_reset_skipped_after_merge_kick :
    mergeAtThreshold.isDragging1 = false ∧ mergeAtThreshold.isDragging2 = false ∧
    |(integrateCircle2 (integrateCircle1 mergeAtThreshold)).circle1X| ≤ 0.01 ∧
    |(integrateCircle2 (integrateCircle1 mergeAtThreshold)).circle1Y| ≤ 0.01 ∧
    |(integrateCircle2 (integrateCircle1 mergeAtThreshold)).circle2X| ≤ 0.01 ∧
    |(integrateCircle2 (integrateCircle1 mergeAtThreshold)).circle2Y| ≤ 0.01 ∧
    isSettled sqrtQ (integrateCircle2 (integrateCircle1 mergeAtThreshold)) = true ∧
    isSettled sqrtQ (pairCoupling (integrateCircle2 (integrateCircle1 mergeAtThreshold)))
      = true ∧
    mergeAtThreshold.calmTimer + timeStep ≥ calmThreshold ∧
    mergeKickFired sqrtQ mergeAtThreshold = true ∧
    idleResetFired sqrtQ mergeAtThreshold = false ∧
    (updateAnimation sqrtQ mergeAtThreshold).circle1X = 0 ∧
    (updateAnimation sqrtQ mergeAtThreshold).circle1Y = 0 ∧
    (updateAnimation sqrtQ mergeAtThreshold).circle2X = 0 ∧
    (updateAnimation sqrtQ mergeAtThreshold).circle2Y = 0 ∧
    (updateAnimation sqrtQ mergeAtThreshold).circle1VY = 0.25 ∧
    (updateAnimation sqrtQ mergeAtThreshold).circle2VY = -0.25 ∧
    (updateAnimation sqrtQ mergeAtThreshold).mergeKickArmed = false := by
  have hset : isSettled sqrtQ mergeAtThreshold = true := by
    simp [isSettled, mergeAtThreshold, isAtCenter, fabsf, sqrtQ_zero, velocityEps]
    norm_num
  have hcalm := mergeAtThreshold_calmBlock
  rw [mergeAtThreshold_integrated, mergeAtThreshold_coupled, mergeKickFired_eq,
    idleResetFired_eq, updateAnimation_eq, hcalm, mergeAtThreshold_beforeCalm]
  refine ⟨rfl, rfl, ?_, ?_, ?_, ?_, hset, hset, ?_, rfl, rfl, rfl, rfl, rfl, rfl, ?_, ?_, rfl⟩
  all_goals norm_num [mergeAtThreshold, timeStep, calmThreshold]

/-- C4: from any state, along any finite sequence of timer ticks, pointer moves and pointer
releases (no pointer press), the merge kick branch of `updateAnimation` is taken in at most
one tick, whatever resets happen in between. -/
theorem mergeKick_at_most_once_without_press (sqrtf : ℚ → ℚ) (es : List CircleEvent) :
    ∀ s : CircleState, (∀ e ∈ es, e.isPress = false) → kickCount sqrtf s es ≤ 1 := by
  induction es with
  | nil => intro s _; simp [kickCount]
  | cons e es ih =>
    intro s hp
    have hes : ∀ e' ∈ es, e'.isPress = false := fun e' h' => hp e' (List.mem_cons_of_mem _ h')
    simp only [kickCount]
    by_cases hk : eventKicks sqrtf s e = true
    · have hu : (WindowProc sqrtf s e).userInteracted = false := by
        cases e with
        | timer =>
          simp only [eventKicks] at hk
          simp only [WindowProc]
          rw [updateAnimation_userInteracted, hk]; simp
        | lButtonDown w h mx my => simp [eventKicks] at hk
        | lButtonUp => simp [eventKicks] at hk
        | mouseMove w h mx my => simp [eventKicks] at hk
      rw [kickCount_zero_of_not_interacted sqrtf es _ hu hes]
      simp [hk]
    · have := ih (WindowProc sqrtf s e) hes
      simp only [hk]
      simpa using this

/-- A tick, a move, a release and a tick after a press: at most one kick. -/
theorem mergeKick_at_most_once_without_press_witness :
    (∀ e ∈ [CircleEvent.timer, CircleEvent.mouseMove 800 600 10 10, CircleEvent.lButtonUp,
        CircleEvent.timer], e.isPress = false) ∧
    kickCount sqrtQ { circleInit with userInteracted := true }
      [CircleEvent.timer, CircleEvent.mouseMove 800 600 10 10, CircleEvent.lButtonUp,
        CircleEvent.timer] ≤ 1 :=
  ⟨by decide, mergeKick_at_most_once_without_press sqrtQ _ _ (by decide)⟩

/-- C5: evaluation at the failing input. A press that hits no circle turns the settled
post-kick state into `pressedAfterKick`; the next `updateAnimation` step takes the reset
branch (positions snapped to the initial positions, `mergeKickArmed` set) and
`userInteracted` is still true afterwards, so the replay that follows has both gates of the
merge kick open. -/
theorem reset_keeps_userInteracted_true :
    WindowProc sqrtQ { pressedAfterKick with userInteracted := false }
      (CircleEvent.lButtonDown 800 600 0 0) = pressedAfterKick ∧
    idleResetFired sqrtQ pressedAfterKick = true ∧
    (updateAnimation sqrtQ pressedAfterKick).circle1X = initialCircle1X ∧
    (updateAnimation sqrtQ pressedAfterKick).circle2X = initialCircle2X ∧
    (updateAnimation sqrtQ pressedAfterKick).userInteracted = true ∧
    (updateAnimation sqrtQ pressedAfterKick).mergeKickArmed = true := by
  have hb : (beforeCalm pressedAfterKick).1 = pressedAfterKick := by
    simp [beforeCalm, pairBlock, mergeKick, pairCoupling, integrateCircle1, integrateCircle2,
      pressedAfterKick, fmaxf, fminf]
    norm_num
  refine ⟨?_, ?_, ?_, ?_, ?_, ?_⟩
  · simp [WindowProc, pressedAfterKick, isPointInCircle, clampPixel, ndcX, ndcY, circleRadius]
    norm_num
  all_goals
    first
    | rw [idleResetFired_eq, hb]
    | rw [updateAnimation_eq, hb]
  all_goals
    simp [calmBlock, pressedAfterKick, isAtCenter, fabsf, sqrtQ_zero, velocityEps, timeStep,
      calmThreshold, initialCircle1X, initialCircle2X]
    try norm_num

/-- C6: merge kick gating and effect. The merge kick branch of an `updateAnimation` step is
taken iff neither circle is dragged, `mergeKickArmed` and `userInteracted` are true on entry
and, after integration, both circles have `|x| ≤ 0.01` and `|y| ≤ 0.01`. When taken, the state
after the kick has circle 1's vertical velocity `+0.25` and circle 2's `-0.25` relative to the
coupled velocities without the kick, the horizontal velocities and the positions as without
the kick, and both flags false; `userInteracted` is false at the end of the step, and so are
all of these at the end of a step whose reset branch is not taken. -/
theorem mergeKick_gating_and_effect (sqrtf : ℚ → ℚ) (s : CircleState) :
    (mergeKickFired sqrtf s = true ↔
      (s.isDragging1 = false ∧ s.isDragging2 = false ∧
       s.mergeKickArmed = true ∧ s.userInteracted = true ∧
       |(integrateCircle2 (integrateCircle1 s)).circle1X| ≤ 0.01 ∧
       |(integrateCircle2 (integrateCircle1 s)).circle1Y| ≤ 0.01 ∧
       |(integrateCircle2 (integrateCircle1 s)).circle2X| ≤ 0.01 ∧
       |(integrateCircle2 (integrateCircle1 s)).circle2Y| ≤ 0.01)) ∧
    (mergeKickFired sqrtf s = true →
      (beforeCalm s).1.circle1VY
        = (pairCoupling (integrateCircle2 (integrateCircle1 s))).circle1VY + 0.25 ∧
      (beforeCalm s).1.circle2VY
        = (pairCoupling (integrateCircle2 (integrateCircle1 s))).circle2VY - 0.25 ∧
      (beforeCalm s).1.circle1VX
        = (pairCoupling (integrateCircle2 (integrateCircle1 s))).circle1VX ∧
      (beforeCalm s).1.circle2VX
        = (pairCoupling (integrateCircle2 (integrateCircle1 s))).circle2VX ∧
      (beforeCalm s).1.circle1X = (integrateCircle2 (integrateCircle1 s)).circle1X ∧
      (beforeCalm s).1.circle1Y = (integrateCircle2 (integrateCircle1 s)).circle1Y ∧
      (beforeCalm s).1.circle2X = (integrateCircle2 (integrateCircle1 s)).circle2X ∧
      (beforeCalm s).1.circle2Y = (integrateCircle2 (integrateCircle1 s)).circle2Y ∧
      (beforeCalm s).1.mergeKickArmed = false ∧
      (beforeCalm s).1.userInteracted = false ∧
      (updateAnimation sqrtf s).userInteracted = false ∧
      (idleResetFired sqrtf s = false →
        (updateAnimation sqrtf s).mergeKickArmed = false ∧
        (updateAnimation sqrtf s).circle1VY
          = (pairCoupling (integrateCircle2 (integrateCircle1 s))).circle1VY + 0.25 ∧
        (updateAnimation sqrtf s).circle2VY
          = (pairCoupling (integrateCircle2 (integrateCircle1 s))).circle2VY - 0.25 ∧
        (updateAnimation sqrtf s).circle1VX
          = (pairCoupling (integrateCircle2 (integrateCircle1 s))).circle1VX ∧
        (updateAnimation sqrtf s).circle2VX
          = (pairCoupling (integrateCircle2 (integrateCircle1 s))).circle2VX ∧
        (updateAnimation sqrtf s).circle1X = (integrateCircle2 (integrateCircle1 s)).circle1X ∧
        (updateAnimation sqrtf s).circle1Y = (integrateCircle2 (integrateCircle1 s)).circle1Y ∧
        (updateAnimation sqrtf s).circle2X = (integrateCircle2 (integrateCircle1 s)).circle2X ∧
        (updateAnimation sqrtf s).circle2Y
          = (integrateCircle2 (integrateCircle1 s)).circle2Y)) := by
  obtain ⟨hd1, hd2, ha, hu, -⟩ := integrate_flags s
  have hiff := pairBlock_fired_iff (integrateCircle2 (integrateCircle1 s))
  rw [hd1, hd2, ha, hu] at hiff
  refine ⟨by rw [mergeKickFired_eq]; exact hiff, ?_⟩
  intro hk
  rw [mergeKickFired_eq] at hk
  obtain ⟨e1, e2, e3, e4, e5, e6, e7, e8, e9, e10⟩ :=
    pairBlock_effect (integrateCircle2 (integrateCircle1 s)) hk
  refine ⟨e1, e2, e3, e4, e5, e6, e7, e8, e9, e10, ?_, ?_⟩
  · rw [updateAnimation_eq, calmBlock_userInteracted]; exact e10
  · intro hr
    rw [idleResetFired_eq] at hr
    obtain ⟨c1, c2, c3, c4, c5, c6, c7, c8, c9⟩ := calmBlock_no_reset sqrtf _ hr
    rw [updateAnimation_eq]
    exact ⟨c9.trans e9, c6.trans e1, c8.trans e2, c5.trans e3, c7.trans e4,
      c1.trans e5, c2.trans e6, c3.trans e7, c4.trans e8⟩

/-- The merge kick fires from `readyToMerge` and gives the velocities `±0.25`. -/
theorem mergeKick_gating_and_effect_witness :
    mergeKickFired sqrtQ readyToMerge = true ∧
    (beforeCalm readyToMerge).1.circle1VY = 0.25 ∧
    (beforeCalm readyToMerge).1.circle2VY = -0.25 ∧
    (beforeCalm readyToMerge).1.mergeKickArmed = false ∧
    (updateAnimation sqrtQ readyToMerge).userInteracted = false := by
  have hi : integrateCircle2 (integrateCircle1 readyToMerge) = readyToMerge := by
    simp [integrateCircle1, integrateCircle2, readyToMerge, fmaxf, fminf]
    norm_num
  have hp : pairCoupling readyToMerge = readyToMerge := by
    simp [pairCoupling, readyToMerge]
  have hk : mergeKickFired sqrtQ readyToMerge = true :=
    (mergeKick_gating_and_effect sqrtQ readyToMerge).1.mpr
      ⟨rfl, rfl, rfl, rfl, by rw [hi]; norm_num [readyToMerge],
        by rw [hi]; norm_num [readyToMerge], by rw [hi]; norm_num [readyToMerge],
        by rw [hi]; norm_num [readyToMerge]⟩
  have h := (mergeKick_gating_and_effect sqrtQ readyToMerge).2 hk
  rw [hi, hp] at h
  refine ⟨hk, ?_, ?_, h.2.2.2.2.2.2.2.2.1, h.2.2.2.2.2.2.2.2.2.2.1⟩
  · rw [h.1]; norm_num [readyToMerge]
  · rw [h.2.1]; norm_num [readyToMerge]

/-! ## Rectangle engine: structure of one step -/

theorem clampPixel_eq (m size : Int) (h : 1 ≤ size) :
    clampPixel m size = max 0 (min m (size - 1)) := by
  unfold clampPixel
  simp only [max_def, min_def]
  split_ifs <;> omega

theorem ndcX_eq (mx width : Int) : ndcX mx width = 2 * (mx : ℚ) / (width : ℚ) - 1 := by
  unfold ndcX; norm_num; ring

theorem ndcY_eq (my height : Int) : ndcY my height = 1 - 2 * (my : ℚ) / (height : ℚ) := by
  unfold ndcY; norm_num; ring

theorem r_keepInBounds_dragging (b : Body) : (r_keepInBounds b).dragging = b.dragging := by
  unfold r_keepInBounds
  dsimp only
  split_ifs <;> rfl

theorem r_limitSpeed_dragging (sqrtf : ℚ → ℚ) (d : ℚ) (b : Body) :
    (r_limitSpeed sqrtf d b).dragging = b.dragging := by
  unfold r_limitSpeed
  dsimp only
  split_ifs <;> rfl

theorem r_bodyStep_dragging (sqrtf : ℚ → ℚ) (any_dragging : Bool) (R : Fin 4 → Body)
    (i : Fin 4) : (r_bodyStep sqrtf any_dragging R i).dragging = (R i).dragging := by
  unfold r_bodyStep
  split_ifs
  · rw [r_keepInBounds_dragging, r_limitSpeed_dragging]; rfl
  · rfl

theorem r_bodyLoop_untouched (sqrtf : ℚ → ℚ) (any_dragging : Bool) (R : Fin 4 → Body)
    (i : Fin 4) : ∀ n : Nat, n ≤ i.val → r_bodyLoop sqrtf any_dragging R n i = R i := by
  intro n
  induction n with
  | zero => intro _; rfl
  | succ n ih =>
    intro hn
    have hlt : n < 4 := by omega
    have hne : i ≠ ⟨n, hlt⟩ := by
      intro h; rw [h] at hn; simp at hn
    simp only [r_bodyLoop, hlt, dite_true]
    rw [Function.update_noteq hne]
    exact ih (by omega)

theorem r_bodyLoop_done (sqrtf : ℚ → ℚ) (any_dragging : Bool) (R : Fin 4 → Body)
    (i : Fin 4) : ∀ n : Nat, i.val < n → n ≤ 4 →
      r_bodyLoop sqrtf any_dragging R n i
        = r_bodyStep sqrtf any_dragging (r_bodyLoop sqrtf any_dragging R i.val) i := by
  intro n
  induction n with
  | zero => intro h; omega
  | succ n ih =>
    intro hi hn
    have hlt : n < 4 := by omega
    simp only [r_bodyLoop, hlt, dite_true]
    by_cases hin : i.val = n
    · subst hin
      simp only [Fin.eta, Function.update_same]
    · have hne : i ≠ ⟨n, hlt⟩ := fun h => hin (by rw [h])
      rw [Function.update_noteq hne]
      exact ih (by omega) (by omega)

theorem r_bodyLoop_four (sqrtf : ℚ → ℚ) (any_dragging : Bool) (R : Fin 4 → Body) (i : Fin 4) :
    r_bodyLoop sqrtf any_dragging R 4 i
      = r_bodyStep sqrtf any_dragging (r_bodyLoop sqrtf any_dragging R i.val) i :=
  r_bodyLoop_done sqrtf any_dragging R i 4 i.isLt (le_refl 4)

theorem r_bodyLoop_four_dragging (sqrtf : ℚ → ℚ) (any_dragging : Bool) (R : Fin 4 → Body)
    (i : Fin 4) : (r_bodyLoop sqrtf any_dragging R 4 i).dragging = (R i).dragging := by
  rw [r_bodyLoop_four, r_bodyStep_dragging, r_bodyLoop_untouched _ _ _ _ _ (le_refl _)]

theorem r_settle_of_dragging (sqrtf : ℚ → ℚ) (R : Fin 4 → Body) (i : Fin 4)
    (h : (R i).dragging = true) : r_settle sqrtf R = R := by
  unfold r_settle
  fin_cases i <;> simp_all

theorem r_settle_of_off_center (sqrtf : ℚ → ℚ) (R : Fin 4 → Body) (i : Fin 4)
    (h : 0.1 < |(R i).x| ∨ 0.1 < |(R i).y|) : r_settle sqrtf R = R := by
  unfold r_settle
  dsimp only
  split_ifs with h1 h2
  · exfalso
    simp only [fabsf, List.all_cons, List.all_nil] at h2
    fin_cases i <;> rcases h with h | h <;> simp_all <;>
      (rcases h2 with ⟨⟨⟨a0, b0⟩, ⟨a1, b1⟩, ⟨a2, b2⟩, a3, b3⟩, -⟩; linarith)
  · rfl
  · rfl

/-! ## Drag override -/

/-- C7: drag sets the clamped pointer mapping. For a client area of width and height at
least 1 and any integer pointer position, with `mx`, `my` the pointer clamped to
`[0, width-1]`, `[0, height-1]`, `nx = 2*mx/width - 1` and `ny = 1 - 2*my/height`,
`updateCirclePositions` and `r_updateDragFromMouse` put every dragging body exactly at
`(clamp(nx, -0.8, 0.8), clamp(ny, -0.8, 0.8))`, leave the position of every body that is not
dragging unchanged, and leave all velocities unchanged. -/
theorem dragTo_sets_clamped_pointer (width height mouseX mouseY : Int)
    (hw : 1 ≤ width) (hh : 1 ≤ height) (mx my : Int) (nx ny px py : ℚ)
    (hmx : mx = max 0 (min mouseX (width - 1)))
    (hmy : my = max 0 (min mouseY (height - 1)))
    (hnx : nx = 2 * (mx : ℚ) / (width : ℚ) - 1)
    (hny : ny = 1 - 2 * (my : ℚ) / (height : ℚ))
    (hpx : px = max (-0.8) (min 0.8 nx))
    (hpy : py = max (-0.8) (min 0.8 ny)) :
    (∀ s : CircleState,
      (s.isDragging1 = true →
        (updateCirclePositions width height mouseX mouseY s).circle1X = px ∧
        (updateCirclePositions width height mouseX mouseY s).circle1Y = py) ∧
      (s.isDragging2 = true →
        (updateCirclePositions width height mouseX mouseY s).circle2X = px ∧
        (updateCirclePositions width height mouseX mouseY s).circle2Y = py) ∧
      (s.isDragging1 = false →
        (updateCirclePositions width height mouseX mouseY s).circle1X = s.circle1X ∧
        (updateCirclePositions width height mouseX mouseY s).circle1Y = s.circle1Y) ∧
      (s.isDragging2 = false →
        (updateCirclePositions width height mouseX mouseY s).circle2X = s.circle2X ∧
        (updateCirclePositions width height mouseX mouseY s).circle2Y = s.circle2Y) ∧
      (updateCirclePositions width height mouseX mouseY s).circle1VX = s.circle1VX ∧
      (updateCirclePositions width height mouseX mouseY s).circle1VY = s.circle1VY ∧
      (updateCirclePositions width height mouseX mouseY s).circle2VX = s.circle2VX ∧
      (updateCirclePositions width height mouseX mouseY s).circle2VY = s.circle2VY) ∧
    (∀ (s : RectState) (i : Fin 4),
      ((s.R i).dragging = true →
        ((r_updateDragFromMouse width height mouseX mouseY s).R i).x = px ∧
        ((r_updateDragFromMouse width height mouseX mouseY s).R i).y = py) ∧
      ((s.R i).dragging = false →
        ((r_updateDragFromMouse width height mouseX mouseY s).R i).x = (s.R i).x ∧
        ((r_updateDragFromMouse width height mouseX mouseY s).R i).y = (s.R i).y) ∧
      ((r_updateDragFromMouse width height mouseX mouseY s).R i).vx = (s.R i).vx ∧
      ((r_updateDragFromMouse width height mouseX mouseY s).R i).vy = (s.R i).vy) := by
  have hx : fmaxf (-0.8) (fminf 0.8 (ndcX (clampPixel mouseX width) width)) = px := by
    rw [clampPixel_eq _ _ hw, ndcX_eq, hpx, hnx, hmx]; rfl
  have hy : fmaxf (-0.8) (fminf 0.8 (ndcY (clampPixel mouseY height) height)) = py := by
    rw [clampPixel_eq _ _ hh, ndcY_eq, hpy, hny, hmy]; rfl
  constructor
  · intro s
    unfold updateCirclePositions
    dsimp only
    rw [hx, hy]
    cases h1 : s.isDragging1 <;> cases h2 : s.isDragging2 <;> simp [h1, h2]
  · intro s i
    unfold r_updateDragFromMouse
    dsimp only
    rw [hx, hy]
    cases h : (s.R i).dragging <;> simp [h]

/-- A pointer left of and below an 800 × 600 client area drags circle 1 to `(-0.8, -0.8)`. -/
theorem dragTo_sets_clamped_pointer_witness :
    (1 : Int) ≤ 800 ∧ (1 : Int) ≤ 600 ∧
    (0 : Int) = max 0 (min (-5) (800 - 1)) ∧ (599 : Int) = max 0 (min 1000 (600 - 1)) ∧
    (-1 : ℚ) = 2 * ((0 : Int) : ℚ) / ((800 : Int) : ℚ) - 1 ∧
    (-599 / 300 + 1 : ℚ) = 1 - 2 * ((599 : Int) : ℚ) / ((600 : Int) : ℚ) ∧
    (-0.8 : ℚ) = max (-0.8) (min 0.8 (-1)) ∧
    (-0.8 : ℚ) = max (-0.8) (min 0.8 (-599 / 300 + 1)) ∧
    (updateCirclePositions 800 600 (-5) 1000 { circleInit with isDragging1 := true }).circle1X
      = -0.8 ∧
    (updateCirclePositions 800 600 (-5) 1000 { circleInit with isDragging1 := true }).circle1Y
      = -0.8 := by
  have h1 : (0 : Int) = max 0 (min (-5) (800 - 1)) := by decide
  have h2 : (599 : Int) = max 0 (min 1000 (600 - 1)) := by decide
  have h3 : (-1 : ℚ) = 2 * ((0 : Int) : ℚ) / ((800 : Int) : ℚ) - 1 := by norm_num
  have h4 : (-599 / 300 + 1 : ℚ) = 1 - 2 * ((599 : Int) : ℚ) / ((600 : Int) : ℚ) := by
    norm_num
  have h5 : (-0.8 : ℚ) = max (-0.8) (min 0.8 (-1)) := by norm_num
  have h6 : (-0.8 : ℚ) = max (-0.8) (min 0.8 (-599 / 300 + 1)) := by norm_num
  have h := ((dragTo_sets_clamped_pointer 800 600 (-5) 1000 (by norm_num) (by norm_num)
    0 599 (-1) (-599 / 300 + 1) (-0.8) (-0.8) h1 h2 h3 h4 h5 h6).1
    { circleInit with isDragging1 := true }).1 rfl
  exact ⟨by norm_num, by norm_num, h1, h2, h3, h4, h5, h6, h.1, h.2⟩

theorem zero_lit : (0.0 : ℚ) = 0 := by norm_num

theorem integrateCircle1_frame (s : CircleState) :
    (integrateCircle1 s).circle2X = s.circle2X ∧ (integrateCircle1 s).circle2Y = s.circle2Y ∧
    (integrateCircle1 s).circle2VX = s.circle2VX ∧
    (integrateCircle1 s).circle2VY = s.circle2VY ∧
    (integrateCircle1 s).isDragging1 = s.isDragging1 ∧
    (integrateCircle1 s).isDragging2 = s.isDragging2 := by
  unfold integrateCircle1
  dsimp only
  split_ifs <;> simp

theorem integrateCircle2_frame (s : CircleState) :
    (integrateCircle2 s).circle1X = s.circle1X ∧ (integrateCircle2 s).circle1Y = s.circle1Y ∧
    (integrateCircle2 s).circle1VX = s.circle1VX ∧
    (integrateCircle2 s).circle1VY = s.circle1VY ∧
    (integrateCircle2 s).isDragging1 = s.isDragging1 ∧
    (integrateCircle2 s).isDragging2 = s.isDragging2 := by
  unfold integrateCircle2
  dsimp only
  split_ifs <;> simp

theorem integrateCircle1_of_dragging (s : CircleState) (h : s.isDragging1 = true) :
    (integrateCircle1 s).circle1X = s.circle1X ∧ (integrateCircle1 s).circle1Y = s.circle1Y ∧
    (integrateCircle1 s).circle1VX = 0 ∧ (integrateCircle1 s).circle1VY = 0 := by
  unfold integrateCircle1
  simp [h, zero_lit]

theorem integrateCircle2_of_dragging (s : CircleState) (h : s.isDragging2 = true) :
    (integrateCircle2 s).circle2X = s.circle2X ∧ (integrateCircle2 s).circle2Y = s.circle2Y ∧
    (integrateCircle2 s).circle2VX = 0 ∧ (integrateCircle2 s).circle2VY = 0 := by
  unfold integrateCircle2
  simp [h, zero_lit]

theorem updateAnimation_of_dragging (sqrtf : ℚ → ℚ) (s : CircleState)
    (h : s.isDragging1 = true ∨ s.isDragging2 = true) :
    updateAnimation sqrtf s
      = { integrateCircle2 (integrateCircle1 s) with calmTimer := 0.0 } := by
  obtain ⟨h1, h2, -⟩ := integrate_flags s
  rw [updateAnimation_eq]
  have hg : (!(integrateCircle2 (integrateCircle1 s)).isDragging1
      && !(integrateCircle2 (integrateCircle1 s)).isDragging2) = false := by
    rw [h1, h2]; rcases h with h | h <;> simp [h]
  have hp : pairBlock (integrateCircle2 (integrateCircle1 s))
      = (integrateCircle2 (integrateCircle1 s), false) := by
    unfold pairBlock; simp [hg]
  unfold beforeCalm
  rw [hp]
  unfold calmBlock
  simp [hg]

/-- C8: physics is suspended for a dragged body. In both engines, one step
(`updateAnimation`, `r_update`) leaves the position of every body whose dragging flag is set
unchanged and sets its velocity to `(0, 0)`, whatever its prior velocity and whatever the
state of the other bodies. -/
theorem dragged_body_physics_suspended (sqrtf : ℚ → ℚ) :
    (∀ s : CircleState,
      (s.isDragging1 = true →
        (updateAnimation sqrtf s).circle1X = s.circle1X ∧
        (updateAnimation sqrtf s).circle1Y = s.circle1Y ∧
        (updateAnimation sqrtf s).circle1VX = 0 ∧
        (updateAnimation sqrtf s).circle1VY = 0) ∧
      (s.isDragging2 = true →
        (updateAnimation sqrtf s).circle2X = s.circle2X ∧
        (updateAnimation sqrtf s).circle2Y = s.circle2Y ∧
        (updateAnimation sqrtf s).circle2VX = 0 ∧
        (updateAnimation sqrtf s).circle2VY = 0)) ∧
    (∀ (s : RectState) (i : Fin 4), (s.R i).dragging = true →
      ((r_update sqrtf s).R i).x = (s.R i).x ∧
      ((r_update sqrtf s).R i).y = (s.R i).y ∧
      ((r_update sqrtf s).R i).vx = 0 ∧
      ((r_update sqrtf s).R i).vy = 0) := by
  refine ⟨fun s => ⟨?_, ?_⟩, ?_⟩
  · intro h
    rw [updateAnimation_of_dragging sqrtf s (Or.inl h)]
    obtain ⟨f1, f2, f3, f4, -⟩ := integrateCircle2_frame (integrateCircle1 s)
    obtain ⟨g1, g2, g3, g4⟩ := integrateCircle1_of_dragging s h
    exact ⟨f1.trans g1, f2.trans g2, f3.trans g3, f4.trans g4⟩
  · intro h
    rw [updateAnimation_of_dragging sqrtf s (Or.inr h)]
    obtain ⟨f1, f2, f3, f4, f5, f6⟩ := integrateCircle1_frame s
    obtain ⟨g1, g2, g3, g4⟩ := integrateCircle2_of_dragging (integrateCircle1 s) (f6.trans h)
    exact ⟨g1.trans f1, g2.trans f2, g3, g4⟩
  · intro s i h
    have hpre := r_bodyLoop_untouched sqrtf
      (r_anyDragging s) s.R i i.val (le_refl _)
    have hloop := r_bodyLoop_four sqrtf
      (r_anyDragging s) s.R i
    have hd := r_bodyLoop_four_dragging sqrtf
      (r_anyDragging s) s.R i
    rw [h] at hd
    unfold r_update
    dsimp only
    rw [r_settle_of_dragging sqrtf _ i hd, hloop]
    unfold r_bodyStep
    rw [hpre]
    simp only [h]
    norm_num

/-- A held circle 1 with velocity 1 ends the step in place with velocity 0. -/
theorem dragged_body_physics_suspended_witness :
    ({ circleInit with isDragging1 := true, circle1VX := 1 } : CircleState).isDragging1 = true ∧
    (updateAnimation sqrtQ { circleInit with isDragging1 := true, circle1VX := 1 }).circle1VX
      = 0 ∧
    (updateAnimation sqrtQ { circleInit with isDragging1 := true, circle1VX := 1 }).circle1X
      = circleInit.circle1X :=
  ⟨rfl,
    (((dragged_body_physics_suspended sqrtQ).1
      { circleInit with isDragging1 := true, circle1VX := 1 }).1 rfl).2.2.1,
    (((dragged_body_physics_suspended sqrtQ).1
      { circleInit with isDragging1 := true, circle1VX := 1 }).1 rfl).1⟩

/-! ## Physics bound: circle engine -/

theorem clamp95_inBound (x y : ℚ) :
    inPhysicsBound (fmaxf (-0.95) (fminf 0.95 x)) (fmaxf (-0.95) (fminf 0.95 y)) := by
  unfold inPhysicsBound fmaxf fminf
  exact ⟨le_max_left _ _, max_le (by norm_num) (min_le_left _ _),
    le_max_left _ _, max_le (by norm_num) (min_le_left _ _)⟩

theorem clamp80_inBound (x y : ℚ) :
    inPhysicsBound (fmaxf (-0.8) (fminf 0.8 x)) (fmaxf (-0.8) (fminf 0.8 y)) := by
  unfold inPhysicsBound fmaxf fminf
  have h1 : (-0.8 : ℚ) ≤ max (-0.8) (min 0.8 x) := le_max_left _ _
  have h2 : max (-0.8) (min 0.8 x) ≤ (0.8 : ℚ) := max_le (by norm_num) (min_le_left _ _)
  have h3 : (-0.8 : ℚ) ≤ max (-0.8) (min 0.8 y) := le_max_left _ _
  have h4 : max (-0.8) (min 0.8 y) ≤ (0.8 : ℚ) := max_le (by norm_num) (min_le_left _ _)
  refine ⟨?_, ?_, ?_, ?_⟩ <;> linarith

theorem initial_inBound :
    inPhysicsBound initialCircle1X initialCircle1Y ∧
    inPhysicsBound initialCircle2X initialCircle2Y := by
  unfold inPhysicsBound initialCircle1X initialCircle1Y initialCircle2X initialCircle2Y
  norm_num

theorem integrateCircle1_inBound (s : CircleState)
    (h : s.isDragging1 = false ∨ inPhysicsBound s.circle1X s.circle1Y) :
    inPhysicsBound (integrateCircle1 s).circle1X (integrateCircle1 s).circle1Y := by
  cases hd : s.isDragging1
  · unfold integrateCircle1
    simp only [hd]
    exact clamp95_inBound _ _
  · obtain ⟨e1, e2, -⟩ := integrateCircle1_of_dragging s hd
    rw [e1, e2]
    rcases h with h | h
    · rw [hd] at h; cases h
    · exact h

theorem integrateCircle2_inBound (s : CircleState)
    (h : s.isDragging2 = false ∨ inPhysicsBound s.circle2X s.circle2Y) :
    inPhysicsBound (integrateCircle2 s).circle2X (integrateCircle2 s).circle2Y := by
  cases hd : s.isDragging2
  · unfold integrateCircle2
    simp only [hd]
    exact clamp95_inBound _ _
  · obtain ⟨e1, e2, -⟩ := integrateCircle2_of_dragging s hd
    rw [e1, e2]
    rcases h with h | h
    · rw [hd] at h; cases h
    · exact h

theorem pairBlock_positions (i : CircleState) :
    (pairBlock i).1.circle1X = i.circle1X ∧ (pairBlock i).1.circle1Y = i.circle1Y ∧
    (pairBlock i).1.circle2X = i.circle2X ∧ (pairBlock i).1.circle2Y = i.circle2Y := by
  unfold pairBlock mergeKick pairCoupling
  dsimp only
  split_ifs <;> simp

theorem calmBlock_positions (sqrtf : ℚ → ℚ) (m : CircleState) :
    ((calmBlock sqrtf m).1.circle1X = m.circle1X ∧ (calmBlock sqrtf m).1.circle1Y = m.circle1Y ∧
     (calmBlock sqrtf m).1.circle2X = m.circle2X ∧ (calmBlock sqrtf m).1.circle2Y = m.circle2Y) ∨
    ((calmBlock sqrtf m).1.circle1X = initialCircle1X ∧
     (calmBlock sqrtf m).1.circle1Y = initialCircle1Y ∧
     (calmBlock sqrtf m).1.circle2X = initialCircle2X ∧
     (calmBlock sqrtf m).1.circle2Y = initialCircle2Y) := by
  unfold calmBlock
  dsimp only
  split_ifs <;> simp

theorem updateAnimation_inBound (sqrtf : ℚ → ℚ) (s : CircleState) :
    ((s.isDragging1 = false ∨ inPhysicsBound s.circle1X s.circle1Y) →
      inPhysicsBound (updateAnimation sqrtf s).circle1X (updateAnimation sqrtf s).circle1Y) ∧
    ((s.isDragging2 = false ∨ inPhysicsBound s.circle2X s.circle2Y) →
      inPhysicsBound (updateAnimation sqrtf s).circle2X (updateAnimation sqrtf s).circle2Y) := by
  rw [updateAnimation_eq]
  obtain ⟨p1, p2, p3, p4⟩ := pairBlock_positions (integrateCircle2 (integrateCircle1 s))
  obtain ⟨f1, f2, -⟩ := integrateCircle2_frame (integrateCircle1 s)
  obtain ⟨g1, g2, -, -, -, g6⟩ := integrateCircle1_frame s
  have hc := calmBlock_positions sqrtf (beforeCalm s).1
  unfold beforeCalm at hc ⊢
  constructor
  · intro h
    rcases hc with ⟨c1, c2, -, -⟩ | ⟨c1, c2, -, -⟩
    · rw [c1, c2, p1, p2, f1, f2]; exact integrateCircle1_inBound s h
    · rw [c1, c2]; exact initial_inBound.1
  · intro h
    rcases hc with ⟨-, -, c3, c4⟩ | ⟨-, -, c3, c4⟩
    · rw [c3, c4, p3, p4]
      apply integrateCircle2_inBound
      rw [g6, g1, g2]; exact h
    · rw [c3, c4]; exact initial_inBound.2

theorem updateCirclePositions_inBound (w ht mx my : Int) (s : CircleState)
    (h : circlesInBound s) : circlesInBound (updateCirclePositions w ht mx my s) := by
  obtain ⟨h1, h2⟩ := h
  unfold updateCirclePositions circlesInBound
  cases d1 : s.isDragging1 <;> cases d2 : s.isDragging2 <;>
    simp only [d1, d2, if_true, if_false, Bool.false_eq_true]
  · exact ⟨h1, h2⟩
  · exact ⟨h1, clamp80_inBound _ _⟩
  · exact ⟨clamp80_inBound _ _, h2⟩
  · exact ⟨clamp80_inBound _ _, clamp80_inBound _ _⟩

theorem WindowProc_inBound (sqrtf : ℚ → ℚ) (s : CircleState) (e : CircleEvent)
    (h : circlesInBound s) : circlesInBound (WindowProc sqrtf s e) := by
  obtain ⟨h1, h2⟩ := h
  cases e with
  | lButtonDown w ht mx my =>
    simp only [WindowProc]
    split_ifs <;> exact ⟨h1, h2⟩
  | lButtonUp => exact ⟨h1, h2⟩
  | mouseMove w ht mx my =>
    simp only [WindowProc]
    split_ifs
    · exact updateCirclePositions_inBound w ht mx my s ⟨h1, h2⟩
    · exact ⟨h1, h2⟩
  | timer =>
    exact ⟨(updateAnimation_inBound sqrtf s).1 (Or.inr h1),
      (updateAnimation_inBound sqrtf s).2 (Or.inr h2)⟩

/-! ## Physics bound: rectangle engine and both window procedures -/

theorem r_keepInBounds_eq (b : Body) :
    r_keepInBounds b =
      { x := if b.x < -0.95 then -0.95 else if b.x > 0.95 then 0.95 else b.x,
        y := if b.y < -0.95 then -0.95 else if b.y > 0.95 then 0.95 else b.y,
        vx := if b.x < -0.95 then -b.vx * 0.5 else if b.x > 0.95 then -b.vx * 0.5 else b.vx,
        vy := if b.y < -0.95 then -b.vy * 0.5 else if b.y > 0.95 then -b.vy * 0.5 else b.vy,
        dragging := b.dragging } := by
  obtain ⟨x, y, vx, vy, d⟩ := b
  unfold r_keepInBounds
  dsimp only
  have h2 : ((-0.95 : ℚ) > 0.95) = False := by norm_num
  by_cases hx1 : x < -0.95 <;> by_cases hx2 : x > 0.95 <;>
    by_cases hy1 : y < -0.95 <;> by_cases hy2 : y > 0.95 <;>
    first
    | (exfalso; linarith)
    | simp only [hx1, hx2, hy1, hy2, h2, if_true, if_false]

theorem clampIf_bound (x : ℚ) :
    -0.95 ≤ (if x < -0.95 then -0.95 else if x > 0.95 then 0.95 else x) ∧
    (if x < -0.95 then -0.95 else if x > 0.95 then 0.95 else x) ≤ 0.95 := by
  split_ifs with h1 h2
  · norm_num
  · norm_num
  · exact ⟨not_lt.mp h1, not_lt.mp h2⟩

theorem r_keepInBounds_inBound (b : Body) :
    inPhysicsBound (r_keepInBounds b).x (r_keepInBounds b).y := by
  unfold inPhysicsBound
  rw [r_keepInBounds_eq]
  exact ⟨(clampIf_bound b.x).1, (clampIf_bound b.x).2, (clampIf_bound b.y).1,
    (clampIf_bound b.y).2⟩

theorem r_settleBody_inBound (b : Body) (h : inPhysicsBound b.x b.y) :
    inPhysicsBound (r_settleBody b).x (r_settleBody b).y := by
  unfold inPhysicsBound at h ⊢
  obtain ⟨h1, h2, h3, h4⟩ := h
  unfold r_settleBody
  dsimp only
  split_ifs <;> (refine ⟨?_, ?_, ?_, ?_⟩ <;> norm_num at * <;> linarith)

theorem r_settle_inBound (sqrtf : ℚ → ℚ) (R : Fin 4 → Body) (i : Fin 4)
    (h : inPhysicsBound (R i).x (R i).y) :
    inPhysicsBound (r_settle sqrtf R i).x (r_settle sqrtf R i).y := by
  unfold r_settle
  dsimp only
  split_ifs
  · exact r_settleBody_inBound _ h
  · exact h
  · exact h

theorem r_bodyStep_inBound (sqrtf : ℚ → ℚ) (any_dragging : Bool) (R : Fin 4 → Body) (i : Fin 4)
    (h : (R i).dragging = false ∨ inPhysicsBound (R i).x (R i).y) :
    inPhysicsBound (r_bodyStep sqrtf any_dragging R i).x
      (r_bodyStep sqrtf any_dragging R i).y := by
  unfold r_bodyStep
  cases hd : (R i).dragging
  · simp only [Bool.not_false, if_true]
    exact r_keepInBounds_inBound _
  · rcases h with h | h
    · rw [hd] at h; cases h
    · simpa using h

theorem r_update_inBound (sqrtf : ℚ → ℚ) (s : RectState) (i : Fin 4)
    (h : (s.R i).dragging = false ∨ inPhysicsBound (s.R i).x (s.R i).y) :
    inPhysicsBound ((r_update sqrtf s).R i).x ((r_update sqrtf s).R i).y := by
  unfold r_update
  dsimp only
  apply r_settle_inBound
  rw [r_bodyLoop_four]
  apply r_bodyStep_inBound
  rw [r_bodyLoop_untouched _ _ _ _ _ (le_refl _)]
  exact h

theorem r_grab_position (sx sy aspect : ℚ) (l : List (Fin 4)) :
    ∀ (R : Fin 4 → Body) (i : Fin 4),
      (r_grab sx sy aspect l R i).x = (R i).x ∧ (r_grab sx sy aspect l R i).y = (R i).y := by
  induction l with
  | nil => intro R i; exact ⟨rfl, rfl⟩
  | cons j rest ih =>
    intro R i
    unfold r_grab
    dsimp only
    split_ifs
    · by_cases hij : i = j
      · subst hij; simp
      · rw [Function.update_noteq hij]; exact ⟨rfl, rfl⟩
    · exact ih R i

theorem RectWindowProc_inBound (sqrtf : ℚ → ℚ) (s : RectState) (e : RectEvent)
    (h : rectsInBound s) : rectsInBound (RectWindowProc sqrtf s e) := by
  intro i
  cases e with
  | lButtonDown w ht mx my =>
    simp only [RectWindowProc]
    obtain ⟨e1, e2⟩ := r_grab_position
      ((ndcX (clampPixel mx w) w * 0.5 + 0.5) * (if w > 0 ∧ ht > 0 then (w : ℚ) / (ht : ℚ) else 1.0))
      (ndcY (clampPixel my ht) ht * 0.5 + 0.5)
      (if w > 0 ∧ ht > 0 then (w : ℚ) / (ht : ℚ) else 1.0) [0, 1, 2, 3] s.R i
    rw [e1, e2]
    exact h i
  | lButtonUp => exact h i
  | mouseMove w ht mx my =>
    simp only [RectWindowProc]
    split_ifs
    · unfold r_updateDragFromMouse
      dsimp only
      split_ifs
      · exact clamp80_inBound _ _
      · exact h i
    · exact h i
  | timer => exact r_update_inBound sqrtf s i (Or.inr (h i))

/-- C9: bodies never escape the physics bound. In both engines, from any state, every body
that is not dragging lies in `[-0.95, 0.95] × [-0.95, 0.95]` after one step; and "every body
lies in that square" is preserved by every message of either window procedure: timer step,
pointer press, pointer move (drag clamp `±0.8`) and pointer release. -/
theorem bodies_stay_in_physics_bound (sqrtf : ℚ → ℚ) :
    (∀ s : CircleState,
      (s.isDragging1 = false →
        inPhysicsBound (updateAnimation sqrtf s).circle1X (updateAnimation sqrtf s).circle1Y) ∧
      (s.isDragging2 = false →
        inPhysicsBound (updateAnimation sqrtf s).circle2X (updateAnimation sqrtf s).circle2Y)) ∧
    (∀ (s : RectState) (i : Fin 4), (s.R i).dragging = false →
      inPhysicsBound ((r_update sqrtf s).R i).x ((r_update sqrtf s).R i).y) ∧
    (∀ (s : CircleState) (e : CircleEvent),
      circlesInBound s → circlesInBound (WindowProc sqrtf s e)) ∧
    (∀ (s : RectState) (e : RectEvent),
      rectsInBound s → rectsInBound (RectWindowProc sqrtf s e)) :=
  ⟨fun s => ⟨fun h => (updateAnimation_inBound sqrtf s).1 (Or.inl h),
      fun h => (updateAnimation_inBound sqrtf s).2 (Or.inl h)⟩,
    fun s i h => r_update_inBound sqrtf s i (Or.inl h),
    fun s e h => WindowProc_inBound sqrtf s e h,
    fun s e h => RectWindowProc_inBound sqrtf s e h⟩

/-- A free circle 1 far outside the bound at high speed ends the step inside the bound. -/
theorem bodies_stay_in_physics_bound_witness :
    ({ circleInit with circle1X := 5, circle1VX := 100 } : CircleState).isDragging1 = false ∧
    inPhysicsBound
      (updateAnimation sqrtQ { circleInit with circle1X := 5, circle1VX := 100 }).circle1X
      (updateAnimation sqrtQ { circleInit with circle1X := 5, circle1VX := 100 }).circle1Y :=
  ⟨rfl, ((bodies_stay_in_physics_bound sqrtQ).1
    { circleInit with circle1X := 5, circle1VX := 100 }).1 rfl⟩

/-! ## Boundary reflection: rectangle engine -/

theorem r_maxSpeed_ge (d : ℚ) (hd : 0 ≤ d) : 0.3 ≤ r_maxSpeed d := by
  unfold r_maxSpeed
  split_ifs
  · nlinarith
  · norm_num

theorem r_limitSpeed_position (sqrtf : ℚ → ℚ) (d : ℚ) (b : Body) :
    (r_limitSpeed sqrtf d b).x = b.x ∧ (r_limitSpeed sqrtf d b).y = b.y := by
  unfold r_limitSpeed
  dsimp only
  split_ifs <;> exact ⟨rfl, rfl⟩

theorem r_limitSpeed_scales (sqrtf : ℚ → ℚ) (d : ℚ) (hd : 0 ≤ d) (b : Body) :
    ∃ k : ℚ, 0 < k ∧ (r_limitSpeed sqrtf d b).vx = k * b.vx ∧
      (r_limitSpeed sqrtf d b).vy = k * b.vy := by
  have hm := r_maxSpeed_ge d hd
  unfold r_limitSpeed
  dsimp only
  split_ifs with h
  · have hm0 : 0 < r_maxSpeed d := by linarith
    have hs0 : 0 < sqrtf (b.vx * b.vx + b.vy * b.vy) := lt_trans hm0 h
    refine ⟨r_maxSpeed d / sqrtf (b.vx * b.vx + b.vy * b.vy), div_pos hm0 hs0, ?_, ?_⟩
    · dsimp only; field_simp; ring
    · dsimp only; field_simp; ring
  · exact ⟨1, one_pos, (one_mul _).symm, (one_mul _).symm⟩

theorem r_integrate_x (sqrtf : ℚ → ℚ) (any_dragging : Bool) (R : Fin 4 → Body) (i : Fin 4) :
    (r_integrate sqrtf any_dragging R i).x
      = (R i).x + (r_integrate sqrtf any_dragging R i).vx * r_dt := rfl

theorem r_integrate_y (sqrtf : ℚ → ℚ) (any_dragging : Bool) (R : Fin 4 → Body) (i : Fin 4) :
    (r_integrate sqrtf any_dragging R i).y
      = (R i).y + (r_integrate sqrtf any_dragging R i).vy * r_dt := rfl

theorem r_update_free_body (sqrtf : ℚ → ℚ) (s : RectState) (i : Fin 4)
    (hnd : (s.R i).dragging = false)
    (hoff : 0.1 < |(r_keepInBounds (r_capped sqrtf s i)).x| ∨
      0.1 < |(r_keepInBounds (r_capped sqrtf s i)).y|) :
    (r_update sqrtf s).R i = r_keepInBounds (r_capped sqrtf s i) := by
  have hpre : r_loopEntry sqrtf s i i = s.R i :=
    r_bodyLoop_untouched sqrtf (r_anyDragging s) s.R i i.val (le_refl _)
  have hloop : r_bodyLoop sqrtf (r_anyDragging s) s.R 4 i
      = r_keepInBounds (r_capped sqrtf s i) := by
    rw [r_bodyLoop_four]
    unfold r_bodyStep
    have hd : (r_bodyLoop sqrtf (r_anyDragging s) s.R i.val i).dragging = false := by
      rw [show r_bodyLoop sqrtf (r_anyDragging s) s.R i.val i = s.R i from hpre]; exact hnd
    simp only [hd, Bool.not_false, if_true]
    rfl
  unfold r_update
  dsimp only
  rw [r_settle_of_off_center sqrtf _ i (by rw [hloop]; exact hoff), hloop]

/-- C10: boundary reflection in the rectangle engine. For a rectangle that is not dragging,
with `sqrtf` non-negative: if its prior `x` lies in `[-0.95, 0.95]` and its integrated `x` in
this `r_update` step exceeds `0.95`, the step ends with `x = 0.95` and `vx` equal to `-0.5`
times the speed-capped post-integration `vx`, which is strictly negative; symmetrically at
`-0.95` (ending with positive `vx`) and on the `y` axis. -/
theorem r_update_boundary_reflection (sqrtf : ℚ → ℚ) (hsqrt : ∀ q : ℚ, 0 ≤ sqrtf q)
    (s : RectState) (i : Fin 4) (hnd : (s.R i).dragging = false) :
    (-0.95 ≤ (s.R i).x → (s.R i).x ≤ 0.95 → (r_integrated sqrtf s i).x > 0.95 →
      ((r_update sqrtf s).R i).x = 0.95 ∧
      ((r_update sqrtf s).R i).vx = -0.5 * (r_capped sqrtf s i).vx ∧
      ((r_update sqrtf s).R i).vx < 0) ∧
    (-0.95 ≤ (s.R i).x → (s.R i).x ≤ 0.95 → (r_integrated sqrtf s i).x < -0.95 →
      ((r_update sqrtf s).R i).x = -0.95 ∧
      ((r_update sqrtf s).R i).vx = -0.5 * (r_capped sqrtf s i).vx ∧
      0 < ((r_update sqrtf s).R i).vx) ∧
    (-0.95 ≤ (s.R i).y → (s.R i).y ≤ 0.95 → (r_integrated sqrtf s i).y > 0.95 →
      ((r_update sqrtf s).R i).y = 0.95 ∧
      ((r_update sqrtf s).R i).vy = -0.5 * (r_capped sqrtf s i).vy ∧
      ((r_update sqrtf s).R i).vy < 0) ∧
    (-0.95 ≤ (s.R i).y → (s.R i).y ≤ 0.95 → (r_integrated sqrtf s i).y < -0.95 →
      ((r_update sqrtf s).R i).y = -0.95 ∧
      ((r_update sqrtf s).R i).vy = -0.5 * (r_capped sqrtf s i).vy ∧
      0 < ((r_update sqrtf s).R i).vy) := by
  have hpre : r_loopEntry sqrtf s i i = s.R i :=
    r_bodyLoop_untouched sqrtf (r_anyDragging s) s.R i i.val (le_refl _)
  obtain ⟨k, hk, hvx, hvy⟩ := r_limitSpeed_scales sqrtf
    (r_distFromCenter sqrtf (r_loopEntry sqrtf s i i)) (hsqrt _) (r_integrated sqrtf s i)
  obtain ⟨hcx, hcy⟩ := r_limitSpeed_position sqrtf
    (r_distFromCenter sqrtf (r_loopEntry sqrtf s i i)) (r_integrated sqrtf s i)
  change (r_capped sqrtf s i).vx = _ at hvx
  change (r_capped sqrtf s i).vy = _ at hvy
  change (r_capped sqrtf s i).x = _ at hcx
  change (r_capped sqrtf s i).y = _ at hcy
  have hpx : (r_integrated sqrtf s i).x = (s.R i).x + (r_integrated sqrtf s i).vx * 0.016 := by
    rw [← hpre]; rfl
  have hpy : (r_integrated sqrtf s i).y = (s.R i).y + (r_integrated sqrtf s i).vy * 0.016 := by
    rw [← hpre]; rfl
  have hout := r_update_free_body sqrtf s i hnd
  have hk1 := r_keepInBounds_eq (r_capped sqrtf s i)
  generalize r_capped sqrtf s i = c at *
  generalize r_integrated sqrtf s i = p at *
  generalize (r_update sqrtf s).R i = out at *
  refine ⟨?_, ?_, ?_, ?_⟩
  · intro h1 h2 h3
    have hc3 : c.x > 0.95 := by rw [hcx]; exact h3
    have hc4 : ¬ c.x < -0.95 := by linarith
    have hpv : 0 < p.vx := by nlinarith
    have hcv : 0 < c.vx := by rw [hvx]; exact mul_pos hk hpv
    have hox : (r_keepInBounds c).x = 0.95 := by rw [hk1]; simp only [hc3, hc4, if_true, if_false]
    have hov : (r_keepInBounds c).vx = -c.vx * 0.5 := by
      rw [hk1]; simp only [hc3, hc4, if_true, if_false]
    have ho := hout (Or.inl (by rw [hox]; norm_num [abs_of_pos]))
    rw [ho, hox, hov]
    refine ⟨rfl, by ring, by linarith⟩
  · intro h1 h2 h3
    have hc3 : c.x < -0.95 := by rw [hcx]; exact h3
    have hpv : p.vx < 0 := by nlinarith
    have hcv : c.vx < 0 := by rw [hvx]; exact mul_neg_of_pos_of_neg hk hpv
    have hox : (r_keepInBounds c).x = -0.95 := by rw [hk1]; simp only [hc3, if_true]
    have hov : (r_keepInBounds c).vx = -c.vx * 0.5 := by rw [hk1]; simp only [hc3, if_true]
    have ho := hout (Or.inl (by rw [hox]; norm_num [abs_of_pos]))
    rw [ho, hox, hov]
    refine ⟨rfl, by ring, by linarith⟩
  · intro h1 h2 h3
    have hc3 : c.y > 0.95 := by rw [hcy]; exact h3
    have hc4 : ¬ c.y < -0.95 := by linarith
    have hpv : 0 < p.vy := by nlinarith
    have hcv : 0 < c.vy := by rw [hvy]; exact mul_pos hk hpv
    have hox : (r_keepInBounds c).y = 0.95 := by rw [hk1]; simp only [hc3, hc4, if_true, if_false]
    have hov : (r_keepInBounds c).vy = -c.vy * 0.5 := by
      rw [hk1]; simp only [hc3, hc4, if_true, if_false]
    have ho := hout (Or.inr (by rw [hox]; norm_num [abs_of_pos]))
    rw [ho, hox, hov]
    refine ⟨rfl, by ring, by linarith⟩
  · intro h1 h2 h3
    have hc3 : c.y < -0.95 := by rw [hcy]; exact h3
    have hpv : p.vy < 0 := by nlinarith
    have hcv : c.vy < 0 := by rw [hvy]; exact mul_neg_of_pos_of_neg hk hpv
    have hox : (r_keepInBounds c).y = -0.95 := by rw [hk1]; simp only [hc3, if_true]
    have hov : (r_keepInBounds c).vy = -c.vy * 0.5 := by rw [hk1]; simp only [hc3, if_true]
    have ho := hout (Or.inr (by rw [hox]; norm_num [abs_of_pos]))
    rw [ho, hox, hov]
    refine ⟨rfl, by ring, by linarith⟩

/-- The acceleration of rectangle 0 in `rectAtRightWall`: centre pull only, no pair term. -/
theorem rectAtRightWall_accel : r_accel sqrtQ false rectAtRightWall.R 0 = (-2.26, 0) := by
  have hd : r_distFromCenter sqrtQ (rectAtRightWall.R 0) = 0.95 := by
    simp only [r_distFromCenter, rectAtRightWall, Matrix.cons_val_zero, mul_zero, add_zero,
      sqrtQ_mul_self]
    norm_num [abs_of_pos]
  unfold r_accel
  rw [hd]
  simp only [List.foldl, r_pairTerm, rectAtRightWall, Matrix.cons_val_zero,
    Matrix.cons_val_one, Matrix.head_cons, Matrix.cons_val_two, Matrix.tail_cons,
    Matrix.cons_val_three]
  norm_num [r_k, r_c]

/-- Rectangle 0 of `rectAtRightWall` bounces off the right wall. -/
theorem r_update_boundary_reflection_witness :
    (∀ q : ℚ, 0 ≤ sqrtQ q) ∧ (rectAtRightWall.R 0).dragging = false ∧
    -0.95 ≤ (rectAtRightWall.R 0).x ∧ (rectAtRightWall.R 0).x ≤ 0.95 ∧
    (r_integrated sqrtQ rectAtRightWall 0).x > 0.95 ∧
    ((r_update sqrtQ rectAtRightWall).R 0).x = 0.95 ∧
    ((r_update sqrtQ rectAtRightWall).R 0).vx < 0 := by
  have hp : (r_integrated sqrtQ rectAtRightWall 0).x > 0.95 := by
    change (r_integrate sqrtQ false rectAtRightWall.R 0).x > 0.95
    unfold r_integrate
    rw [rectAtRightWall_accel]
    simp only [rectAtRightWall, Matrix.cons_val_zero, r_dt]
    norm_num
  have h1 : -0.95 ≤ (rectAtRightWall.R 0).x := by
    simp only [rectAtRightWall, Matrix.cons_val_zero]; norm_num
  have h2 : (rectAtRightWall.R 0).x ≤ 0.95 := by
    simp only [rectAtRightWall, Matrix.cons_val_zero]; norm_num
  have h := (r_update_boundary_reflection sqrtQ sqrtQ_nonneg rectAtRightWall 0 rfl).1 h1 h2 hp
  exact ⟨sqrtQ_nonneg, rfl, h1, h2, hp, h.1, h.2.2⟩

/-! ## Circle engine: clamp without reflection -/

theorem isAtCenter_false_of_far (x y : ℚ) (h : 0.01 < |x| ∨ 0.01 < |y|) :
    isAtCenter x y = false := by
  unfold isAtCenter fabsf
  rcases h with h | h
  · have : ¬ |x| ≤ 0.01 := not_le.mpr h
    simp [this]
  · have : ¬ |y| ≤ 0.01 := not_le.mpr h
    simp [this]

theorem pairBlock_off_center (i : CircleState)
    (h : isAtCenter i.circle1X i.circle1Y = false ∨ isAtCenter i.circle2X i.circle2Y = false) :
    pairBlock i = (if !i.isDragging1 && !i.isDragging2 then pairCoupling i else i, false) := by
  unfold pairBlock mergeKick
  have hc : (isAtCenter (pairCoupling i).circle1X (pairCoupling i).circle1Y
      && isAtCenter (pairCoupling i).circle2X (pairCoupling i).circle2Y) = false := by
    show (isAtCenter i.circle1X i.circle1Y && isAtCenter i.circle2X i.circle2Y) = false
    rcases h with h | h <;> simp [h]
  split_ifs with h1 h2
  · exfalso
    simp only [Bool.and_assoc] at h2
    rw [hc] at h2
    simp at h2
  · rfl
  · rfl

theorem calmBlock_off_center (sqrtf : ℚ → ℚ) (m : CircleState)
    (h : isAtCenter m.circle1X m.circle1Y = false ∨ isAtCenter m.circle2X m.circle2Y = false) :
    calmBlock sqrtf m = ({ m with calmTimer := 0.0 }, false) := by
  unfold calmBlock
  have hc : (isAtCenter m.circle1X m.circle1Y && isAtCenter m.circle2X m.circle2Y
      && decide (sqrtf (m.circle1VX * m.circle1VX + m.circle1VY * m.circle1VY) < velocityEps)
      && decide (sqrtf (m.circle2VX * m.circle2VX + m.circle2VY * m.circle2VY) < velocityEps))
      = false := by
    rcases h with h | h <;> simp [h]
  dsimp only
  rw [hc]
  split_ifs <;> first | rfl | contradiction

theorem updateAnimation_off_center (sqrtf : ℚ → ℚ) (s : CircleState)
    (h : isAtCenter (integrateCircle2 (integrateCircle1 s)).circle1X
          (integrateCircle2 (integrateCircle1 s)).circle1Y = false ∨
         isAtCenter (integrateCircle2 (integrateCircle1 s)).circle2X
          (integrateCircle2 (integrateCircle1 s)).circle2Y = false) :
    updateAnimation sqrtf s
      = { (if !s.isDragging1 && !s.isDragging2
            then pairCoupling (integrateCircle2 (integrateCircle1 s))
            else integrateCircle2 (integrateCircle1 s)) with calmTimer := 0.0 } := by
  obtain ⟨h1, h2, -⟩ := integrate_flags s
  rw [updateAnimation_eq]
  unfold beforeCalm
  rw [pairBlock_off_center _ h, h1, h2]
  dsimp only
  rw [calmBlock_off_center]
  split_ifs
  · exact h
  · exact h

theorem clamp95_outside (x : ℚ) :
    (0.95 < x → fmaxf (-0.95) (fminf 0.95 x) = 0.95) ∧
    (x < -0.95 → fmaxf (-0.95) (fminf 0.95 x) = -0.95) := by
  unfold fmaxf fminf
  constructor
  · intro h
    rw [min_eq_left (le_of_lt h), max_eq_right (by norm_num)]
  · intro h
    have h1 : x ≤ 0.95 := by linarith
    rw [min_eq_right h1, max_eq_left (le_of_lt h)]

theorem clamp95_far (x : ℚ) (h : x < -0.95 ∨ 0.95 < x) :
    0.01 < |fmaxf (-0.95) (fminf 0.95 x)| := by
  rcases h with h | h
  · rw [(clamp95_outside x).2 h]; norm_num [abs_of_pos]
  · rw [(clamp95_outside x).1 h]; norm_num [abs_of_pos]

theorem integrateCircle1_free (s : CircleState) (h : s.isDragging1 = false) :
    (integrateCircle1 s).circle1VX
      = s.circle1VX + (-springK * s.circle1X - damping * s.circle1VX) * timeStep ∧
    (integrateCircle1 s).circle1VY
      = s.circle1VY + (-springK * s.circle1Y - damping * s.circle1VY) * timeStep ∧
    (integrateCircle1 s).circle1X
      = fmaxf (-0.95) (fminf 0.95 (s.circle1X + (integrateCircle1 s).circle1VX * timeStep)) ∧
    (integrateCircle1 s).circle1Y
      = fmaxf (-0.95) (fminf 0.95 (s.circle1Y + (integrateCircle1 s).circle1VY * timeStep)) := by
  unfold integrateCircle1
  simp only [h, Bool.not_false, if_true]
  refine ⟨?_, ?_, trivial, trivial⟩ <;> norm_num

theorem integrateCircle2_free (s : CircleState) (h : s.isDragging2 = false) :
    (integrateCircle2 s).circle2VX
      = s.circle2VX + (-springK * s.circle2X - damping * s.circle2VX) * timeStep ∧
    (integrateCircle2 s).circle2VY
      = s.circle2VY + (-springK * s.circle2Y - damping * s.circle2VY) * timeStep ∧
    (integrateCircle2 s).circle2X
      = fmaxf (-0.95) (fminf 0.95 (s.circle2X + (integrateCircle2 s).circle2VX * timeStep)) ∧
    (integrateCircle2 s).circle2Y
      = fmaxf (-0.95) (fminf 0.95 (s.circle2Y + (integrateCircle2 s).circle2VY * timeStep)) := by
  unfold integrateCircle2
  simp only [h, Bool.not_false, if_true]
  refine ⟨?_, ?_, trivial, trivial⟩ <;> norm_num

theorem integrate_circle1_fields (s : CircleState) :
    (integrateCircle2 (integrateCircle1 s)).circle1X = (integrateCircle1 s).circle1X ∧
    (integrateCircle2 (integrateCircle1 s)).circle1Y = (integrateCircle1 s).circle1Y ∧
    (integrateCircle2 (integrateCircle1 s)).circle1VX = (integrateCircle1 s).circle1VX ∧
    (integrateCircle2 (integrateCircle1 s)).circle1VY = (integrateCircle1 s).circle1VY := by
  obtain ⟨f1, f2, f3, f4, -⟩ := integrateCircle2_frame (integrateCircle1 s)
  exact ⟨f1, f2, f3, f4⟩

theorem integrate_circle2_fields (s : CircleState) :
    (integrateCircle2 (integrateCircle1 s)).circle2X = (integrateCircle2 s).circle2X ∧
    (integrateCircle2 (integrateCircle1 s)).circle2Y = (integrateCircle2 s).circle2Y ∧
    (integrateCircle2 (integrateCircle1 s)).circle2VX = (integrateCircle2 s).circle2VX ∧
    (integrateCircle2 (integrateCircle1 s)).circle2VY = (integrateCircle2 s).circle2VY := by
  obtain ⟨g1, g2, g3, g4, -, g6⟩ := integrateCircle1_frame s
  unfold integrateCircle2
  simp only [g1, g2, g3, g4, g6]
  split_ifs <;> simp

theorem circle1_clamped_step (sqrtf : ℚ → ℚ) (s : CircleState) (hd : s.isDragging1 = false)
    (hx : preClamp1X s < -0.95 ∨ 0.95 < preClamp1X s ∨
          preClamp1Y s < -0.95 ∨ 0.95 < preClamp1Y s) :
    updateAnimation sqrtf s
      = { (if !s.isDragging1 && !s.isDragging2
            then pairCoupling (integrateCircle2 (integrateCircle1 s))
            else integrateCircle2 (integrateCircle1 s)) with calmTimer := 0.0 } := by
  apply updateAnimation_off_center
  left
  obtain ⟨e1, e2, -, -⟩ := integrate_circle1_fields s
  obtain ⟨-, -, p1, p2⟩ := integrateCircle1_free s hd
  rw [e1, e2]
  apply isAtCenter_false_of_far
  rcases hx with h | h | h | h
  · left; rw [p1]; exact clamp95_far _ (Or.inl h)
  · left; rw [p1]; exact clamp95_far _ (Or.inr h)
  · right; rw [p2]; exact clamp95_far _ (Or.inl h)
  · right; rw [p2]; exact clamp95_far _ (Or.inr h)

theorem circle2_clamped_step (sqrtf : ℚ → ℚ) (s : CircleState) (hd : s.isDragging2 = false)
    (hx : preClamp2X s < -0.95 ∨ 0.95 < preClamp2X s ∨
          preClamp2Y s < -0.95 ∨ 0.95 < preClamp2Y s) :
    updateAnimation sqrtf s
      = { (if !s.isDragging1 && !s.isDragging2
            then pairCoupling (integrateCircle2 (integrateCircle1 s))
            else integrateCircle2 (integrateCircle1 s)) with calmTimer := 0.0 } := by
  apply updateAnimation_off_center
  right
  obtain ⟨e1, e2, -, -⟩ := integrate_circle2_fields s
  obtain ⟨-, -, p1, p2⟩ := integrateCircle2_free s hd
  rw [e1, e2]
  apply isAtCenter_false_of_far
  rcases hx with h | h | h | h
  · left; rw [p1]; exact clamp95_far _ (Or.inl h)
  · left; rw [p1]; exact clamp95_far _ (Or.inr h)
  · right; rw [p2]; exact clamp95_far _ (Or.inl h)
  · right; rw [p2]; exact clamp95_far _ (Or.inr h)

theorem off_center_final_fields (s : CircleState) (f : CircleState)
    (hf : f = { (if !s.isDragging1 && !s.isDragging2
          then pairCoupling (integrateCircle2 (integrateCircle1 s))
          else integrateCircle2 (integrateCircle1 s)) with calmTimer := 0.0 }) :
    f.circle1X = (integrateCircle1 s).circle1X ∧ f.circle1Y = (integrateCircle1 s).circle1Y ∧
    f.circle2X = (integrateCircle2 s).circle2X ∧ f.circle2Y = (integrateCircle2 s).circle2Y ∧
    ((s.isDragging1 = true ∨ s.isDragging2 = true) →
      f.circle1VX = (integrateCircle1 s).circle1VX ∧
      f.circle1VY = (integrateCircle1 s).circle1VY ∧
      f.circle2VX = (integrateCircle2 s).circle2VX ∧
      f.circle2VY = (integrateCircle2 s).circle2VY) ∧
    (s.isDragging1 = false → s.isDragging2 = false →
      f.circle1VX = (integrateCircle1 s).circle1VX + (-pairSpringK
          * ((integrateCircle1 s).circle1X - (integrateCircle2 s).circle2X)
        - pairDamping * ((integrateCircle1 s).circle1VX - (integrateCircle2 s).circle2VX))
        * timeStep ∧
      f.circle1VY = (integrateCircle1 s).circle1VY + (-pairSpringK
          * ((integrateCircle1 s).circle1Y - (integrateCircle2 s).circle2Y)
        - pairDamping * ((integrateCircle1 s).circle1VY - (integrateCircle2 s).circle2VY))
        * timeStep ∧
      f.circle2VX = (integrateCircle2 s).circle2VX - (-pairSpringK
          * ((integrateCircle1 s).circle1X - (integrateCircle2 s).circle2X)
        - pairDamping * ((integrateCircle1 s).circle1VX - (integrateCircle2 s).circle2VX))
        * timeStep ∧
      f.circle2VY = (integrateCircle2 s).circle2VY - (-pairSpringK
          * ((integrateCircle1 s).circle1Y - (integrateCircle2 s).circle2Y)
        - pairDamping * ((integrateCircle1 s).circle1VY - (integrateCircle2 s).circle2VY))
        * timeStep) := by
  obtain ⟨a1, a2, a3, a4⟩ := integrate_circle1_fields s
  obtain ⟨b1, b2, b3, b4⟩ := integrate_circle2_fields s
  subst hf
  refine ⟨?_, ?_, ?_, ?_, ?_, ?_⟩
  · split_ifs <;> simp [pairCoupling, a1]
  · split_ifs <;> simp [pairCoupling, a2]
  · split_ifs <;> simp [pairCoupling, b1]
  · split_ifs <;> simp [pairCoupling, b2]
  · intro h
    have hg : (!s.isDragging1 && !s.isDragging2) = false := by
      rcases h with h | h <;> simp [h]
    simp only [hg]
    exact ⟨a3, a4, b3, b4⟩
  · intro h1 h2
    simp only [h1, h2, Bool.not_false, Bool.and_self, if_true]
    simp only [pairCoupling, a1, a2, a3, a4, b1, b2, b3, b4]
    refine ⟨?_, ?_, ?_, ?_⟩ <;> trivial

/-- C11 (amended): boundary clamp in the circle engine. For every circle that is not dragging
and whose integrated position component, before the clamp, falls outside `[-0.95, 0.95]`,
the step ends with that component exactly at the bound it crossed. The velocity component is
neither reflected nor attenuated: integration leaves it at
`v + (-springK*p - damping*v)*timeStep`, and the step ends with that value when the other
circle is dragging, and with that value plus (circle 1) or minus (circle 2) the pair-coupling
term when neither circle is dragging. -/
theorem circle_boundary_clamp_keeps_velocity (sqrtf : ℚ → ℚ) (s : CircleState) :
    (s.isDragging1 = false → (preClamp1X s < -0.95 ∨ 0.95 < preClamp1X s) →
      (updateAnimation sqrtf s).circle1X = (if 0.95 < preClamp1X s then 0.95 else -0.95) ∧
      (integrateCircle1 s).circle1VX
        = s.circle1VX + (-springK * s.circle1X - damping * s.circle1VX) * timeStep ∧
      (s.isDragging2 = true → (updateAnimation sqrtf s).circle1VX = (integrateCircle1 s).circle1VX) ∧
      (s.isDragging2 = false → (updateAnimation sqrtf s).circle1VX
        = (integrateCircle1 s).circle1VX + (-pairSpringK
              * ((integrateCircle1 s).circle1X - (integrateCircle2 s).circle2X)
            - pairDamping
              * ((integrateCircle1 s).circle1VX - (integrateCircle2 s).circle2VX))
            * timeStep)) ∧
    (s.isDragging1 = false → (preClamp1Y s < -0.95 ∨ 0.95 < preClamp1Y s) →
      (updateAnimation sqrtf s).circle1Y = (if 0.95 < preClamp1Y s then 0.95 else -0.95) ∧
      (integrateCircle1 s).circle1VY
        = s.circle1VY + (-springK * s.circle1Y - damping * s.circle1VY) * timeStep ∧
      (s.isDragging2 = true → (updateAnimation sqrtf s).circle1VY = (integrateCircle1 s).circle1VY) ∧
      (s.isDragging2 = false → (updateAnimation sqrtf s).circle1VY
        = (integrateCircle1 s).circle1VY + (-pairSpringK
              * ((integrateCircle1 s).circle1Y - (integrateCircle2 s).circle2Y)
            - pairDamping
              * ((integrateCircle1 s).circle1VY - (integrateCircle2 s).circle2VY))
            * timeStep)) ∧
    (s.isDragging2 = false → (preClamp2X s < -0.95 ∨ 0.95 < preClamp2X s) →
      (updateAnimation sqrtf s).circle2X = (if 0.95 < preClamp2X s then 0.95 else -0.95) ∧
      (integrateCircle2 s).circle2VX
        = s.circle2VX + (-springK * s.circle2X - damping * s.circle2VX) * timeStep ∧
      (s.isDragging1 = true → (updateAnimation sqrtf s).circle2VX = (integrateCircle2 s).circle2VX) ∧
      (s.isDragging1 = false → (updateAnimation sqrtf s).circle2VX
        = (integrateCircle2 s).circle2VX - (-pairSpringK
              * ((integrateCircle1 s).circle1X - (integrateCircle2 s).circle2X)
            - pairDamping
              * ((integrateCircle1 s).circle1VX - (integrateCircle2 s).circle2VX))
            * timeStep)) ∧
    (s.isDragging2 = false → (preClamp2Y s < -0.95 ∨ 0.95 < preClamp2Y s) →
      (updateAnimation sqrtf s).circle2Y = (if 0.95 < preClamp2Y s then 0.95 else -0.95) ∧
      (integrateCircle2 s).circle2VY
        = s.circle2VY + (-springK * s.circle2Y - damping * s.circle2VY) * timeStep ∧
      (s.isDragging1 = true → (updateAnimation sqrtf s).circle2VY = (integrateCircle2 s).circle2VY) ∧
      (s.isDragging1 = false → (updateAnimation sqrtf s).circle2VY
        = (integrateCircle2 s).circle2VY - (-pairSpringK
              * ((integrateCircle1 s).circle1Y - (integrateCircle2 s).circle2Y)
            - pairDamping
              * ((integrateCircle1 s).circle1VY - (integrateCircle2 s).circle2VY))
            * timeStep)) := by
  refine ⟨?_, ?_, ?_, ?_⟩
  · intro hd hx
    have hstep := circle1_clamped_step sqrtf s hd
      (by rcases hx with h | h; exact Or.inl h; exact Or.inr (Or.inl h))
    obtain ⟨f1, f2, f3, f4, fd, ff⟩ := off_center_final_fields s _ hstep
    obtain ⟨v1, v2, p1, p2⟩ := integrateCircle1_free s hd
    refine ⟨?_, v1, fun h => (fd (Or.inr h)).1, fun h => (ff hd h).1⟩
    rw [f1, p1]
    rcases hx with h | h
    · have : ¬ 0.95 < preClamp1X s := by linarith
      rw [if_neg this]; exact (clamp95_outside _).2 h
    · rw [if_pos h]; exact (clamp95_outside _).1 h
  · intro hd hx
    have hstep := circle1_clamped_step sqrtf s hd
      (by rcases hx with h | h; exact Or.inr (Or.inr (Or.inl h)); exact Or.inr (Or.inr (Or.inr h)))
    obtain ⟨f1, f2, f3, f4, fd, ff⟩ := off_center_final_fields s _ hstep
    obtain ⟨v1, v2, p1, p2⟩ := integrateCircle1_free s hd
    refine ⟨?_, v2, fun h => (fd (Or.inr h)).2.1, fun h => (ff hd h).2.1⟩
    rw [f2, p2]
    rcases hx with h | h
    · have : ¬ 0.95 < preClamp1Y s := by linarith
      rw [if_neg this]; exact (clamp95_outside _).2 h
    · rw [if_pos h]; exact (clamp95_outside _).1 h
  · intro hd hx
    have hstep := circle2_clamped_step sqrtf s hd
      (by rcases hx with h | h; exact Or.inl h; exact Or.inr (Or.inl h))
    obtain ⟨f1, f2, f3, f4, fd, ff⟩ := off_center_final_fields s _ hstep
    obtain ⟨v1, v2, p1, p2⟩ := integrateCircle2_free s hd
    refine ⟨?_, v1, fun h => (fd (Or.inl h)).2.2.1, fun h => (ff h hd).2.2.1⟩
    rw [f3, p1]
    rcases hx with h | h
    · have : ¬ 0.95 < preClamp2X s := by linarith
      rw [if_neg this]; exact (clamp95_outside _).2 h
    · rw [if_pos h]; exact (clamp95_outside _).1 h
  · intro hd hx
    have hstep := circle2_clamped_step sqrtf s hd
      (by rcases hx with h | h; exact Or.inr (Or.inr (Or.inl h)); exact Or.inr (Or.inr (Or.inr h)))
    obtain ⟨f1, f2, f3, f4, fd, ff⟩ := off_center_final_fields s _ hstep
    obtain ⟨v1, v2, p1, p2⟩ := integrateCircle2_free s hd
    refine ⟨?_, v2, fun h => (fd (Or.inl h)).2.2.2, fun h => (ff h hd).2.2.2⟩
    rw [f4, p2]
    rcases hx with h | h
    · have : ¬ 0.95 < preClamp2Y s := by linarith
      rw [if_neg this]; exact (clamp95_outside _).2 h
    · rw [if_pos h]; exact (clamp95_outside _).1 h

/-- At `circleAtRightWall` the amended statement gives the clamp and the unreflected velocity. -/
theorem circle_boundary_clamp_keeps_velocity_witness :
    circleAtRightWall.isDragging1 = false ∧ 0.95 < preClamp1X circleAtRightWall ∧
    circleAtRightWall.isDragging2 = true ∧
    (updateAnimation sqrtQ circleAtRightWall).circle1X = 0.95 ∧
    (updateAnimation sqrtQ circleAtRightWall).circle1VX
      = (integrateCircle1 circleAtRightWall).circle1VX := by
  have hp : 0.95 < preClamp1X circleAtRightWall := by
    simp only [preClamp1X, integrateCircle1, circleAtRightWall, springK, damping, timeStep]
    norm_num
  have h := (circle_boundary_clamp_keeps_velocity sqrtQ circleAtRightWall).1 rfl (Or.inr hp)
  refine ⟨rfl, hp, rfl, ?_, h.2.2.1 rfl⟩
  rw [h.1, if_pos hp]

/-- Counterexample to reflection at the circle clamp: circle 1 of `circleAtRightWall` is free,
its integrated `x` exceeds
`0.95`, and the step ends with `x` clamped to `0.95` but with the integrated velocity
`0.9752` kept as it is: no factor `e` with `0 ≤ e < 1` turns it into `-e` times itself. -/
theorem circle_clamp_does_not_reflect :
    circleAtRightWall.isDragging1 = false ∧
    0.95 < circleAtRightWall.circle1X
      + (integrateCircle1 circleAtRightWall).circle1VX * timeStep ∧
    (integrateCircle1 circleAtRightWall).circle1VX = 0.9752 ∧
    (updateAnimation sqrtQ circleAtRightWall).circle1X = 0.95 ∧
    (updateAnimation sqrtQ circleAtRightWall).circle1VX = 0.9752 ∧
    ¬ ∃ e : ℚ, 0 ≤ e ∧ e < 1 ∧
      (updateAnimation sqrtQ circleAtRightWall).circle1VX
        = -e * (integrateCircle1 circleAtRightWall).circle1VX := by
  have hv : (integrateCircle1 circleAtRightWall).circle1VX = 0.9752 := by
    simp only [integrateCircle1, circleAtRightWall, springK, damping, timeStep]
    norm_num
  have hx : (integrateCircle1 circleAtRightWall).circle1X = 0.95 := by
    simp only [integrateCircle1, circleAtRightWall, springK, damping, timeStep, fmaxf, fminf]
    norm_num
  have hstep := updateAnimation_of_dragging sqrtQ circleAtRightWall (Or.inr rfl)
  obtain ⟨f1, -, f3, -⟩ := integrateCircle2_frame (integrateCircle1 circleAtRightWall)
  have hfx : (updateAnimation sqrtQ circleAtRightWall).circle1X = 0.95 := by
    rw [hstep]; exact f1.trans hx
  have hfv : (updateAnimation sqrtQ circleAtRightWall).circle1VX = 0.9752 := by
    rw [hstep]; exact f3.trans hv
  refine ⟨rfl, ?_, hv, hfx, hfv, ?_⟩
  · rw [hv]; norm_num [circleAtRightWall, timeStep]
  · rintro ⟨e, he0, -, he⟩
    rw [hfv, hv] at he
    nlinarith

/-! ## Circle engine: press, calm timer and pair coupling -/

/-- C12: press semantics. From a state with no circle dragging, with `(nx, ny)` the
normalised pointer of the `WM_LBUTTONDOWN` handler, after the handler at most one circle is
dragging; circle 1 is dragging iff `(nx-c1x)^2 + (ny-c1y)^2 ≤ radius^2`; circle 2 is dragging
iff circle 1 was not hit and `(nx-c2x)^2 + (ny-c2y)^2 ≤ radius^2`; and `userInteracted` is
true whether or not a circle was hit. The radius is `0.28`. -/
theorem press_grabs_first_hit (sqrtf : ℚ → ℚ) (s : CircleState) (width height mouseX mouseY : Int)
    (nx ny : ℚ) (hnx : nx = ndcX (clampPixel mouseX width) width)
    (hny : ny = ndcY (clampPixel mouseY height) height)
    (hd1 : s.isDragging1 = false) (hd2 : s.isDragging2 = false) :
    ¬ ((WindowProc sqrtf s (CircleEvent.lButtonDown width height mouseX mouseY)).isDragging1
          = true ∧
       (WindowProc sqrtf s (CircleEvent.lButtonDown width height mouseX mouseY)).isDragging2
          = true) ∧
    ((WindowProc sqrtf s (CircleEvent.lButtonDown width height mouseX mouseY)).isDragging1 = true
      ↔ (nx - s.circle1X) ^ 2 + (ny - s.circle1Y) ^ 2 ≤ circleRadius ^ 2) ∧
    ((WindowProc sqrtf s (CircleEvent.lButtonDown width height mouseX mouseY)).isDragging2 = true
      ↔ (¬ (nx - s.circle1X) ^ 2 + (ny - s.circle1Y) ^ 2 ≤ circleRadius ^ 2 ∧
          (nx - s.circle2X) ^ 2 + (ny - s.circle2Y) ^ 2 ≤ circleRadius ^ 2)) ∧
    (WindowProc sqrtf s (CircleEvent.lButtonDown width height mouseX mouseY)).userInteracted
      = true ∧
    circleRadius = 0.28 := by
  subst hnx hny
  simp only [WindowProc, isPointInCircle, decide_eq_true_eq]
  have e1 : ∀ a b c : ℚ, a * a + b * b ≤ c * c ↔ a ^ 2 + b ^ 2 ≤ c ^ 2 := by
    intro a b c; rw [pow_two, pow_two, pow_two]
  simp only [e1]
  refine ⟨?_, ?_, ?_, ?_, by norm_num [circleRadius]⟩
  · split_ifs <;> simp [hd1, hd2]
  · split_ifs with h1 h2 <;> simp [hd1, hd2, h1]
  · split_ifs <;> simp_all
  · trivial

/-- A press on the centre of circle 1 in its starting position grabs circle 1 only. -/
theorem press_grabs_first_hit_witness :
    (-0.5 : ℚ) = ndcX (clampPixel 200 800) 800 ∧ (0 : ℚ) = ndcY (clampPixel 300 600) 600 ∧
    circleInit.isDragging1 = false ∧ circleInit.isDragging2 = false ∧
    (WindowProc sqrtQ circleInit (CircleEvent.lButtonDown 800 600 200 300)).isDragging1 = true ∧
    (WindowProc sqrtQ circleInit (CircleEvent.lButtonDown 800 600 200 300)).userInteracted
      = true := by
  have hx : (-0.5 : ℚ) = ndcX (clampPixel 200 800) 800 := by
    rw [clampPixel_eq _ _ (by norm_num), ndcX_eq]; norm_num
  have hy : (0 : ℚ) = ndcY (clampPixel 300 600) 600 := by
    rw [clampPixel_eq _ _ (by norm_num), ndcY_eq]; norm_num
  have h := press_grabs_first_hit sqrtQ circleInit 800 600 200 300 (-0.5) 0 hx hy rfl rfl
  refine ⟨hx, hy, rfl, rfl, h.2.1.mpr ?_, h.2.2.2.1⟩
  norm_num [circleInit, circleRadius]

theorem idleResetFired_false_of_early (sqrtf : ℚ → ℚ) (s : CircleState)
    (h : s.calmTimer + timeStep < calmThreshold) : idleResetFired sqrtf s = false := by
  rw [idleResetFired_eq]
  have e3 := beforeCalm_calmTimer s
  generalize (beforeCalm s).1 = m at *
  have hc' : ¬ calmThreshold ≤ m.calmTimer + timeStep := by rw [e3]; exact not_le.mpr h
  unfold calmBlock
  dsimp only
  split_ifs <;> simp_all

theorem calmBlock_calmTimer (sqrtf : ℚ → ℚ) (m : CircleState) :
    ((m.isDragging1 = true ∨ m.isDragging2 = true) → (calmBlock sqrtf m).1.calmTimer = 0) ∧
    (isSettled sqrtf (calmBlock sqrtf m).1 = false → (calmBlock sqrtf m).1.calmTimer = 0) ∧
    ((calmBlock sqrtf m).2 = true → (calmBlock sqrtf m).1.calmTimer = 0) ∧
    (m.isDragging1 = false → m.isDragging2 = false →
      isSettled sqrtf (calmBlock sqrtf m).1 = true → (calmBlock sqrtf m).2 = false →
      (calmBlock sqrtf m).1.calmTimer = m.calmTimer + timeStep) ∧
    (0 ≤ m.calmTimer →
      0 ≤ (calmBlock sqrtf m).1.calmTimer ∧ (calmBlock sqrtf m).1.calmTimer < calmThreshold) := by
  have ht : (0 : ℚ) ≤ timeStep := by norm_num [timeStep]
  have hth : (0 : ℚ) < calmThreshold := by norm_num [calmThreshold]
  by_cases hd : (!m.isDragging1 && !m.isDragging2) = true
  · by_cases hs : isSettled sqrtf m = true
    · have hs' := hs
      unfold isSettled at hs'
      by_cases hc : m.calmTimer + timeStep ≥ calmThreshold
      · have e : calmBlock sqrtf m
            = ({ m with circle1X := initialCircle1X, circle1Y := initialCircle1Y,
                        circle2X := initialCircle2X, circle2Y := initialCircle2Y,
                        circle1VX := 0.0, circle1VY := 0.0,
                        circle2VX := 0.0, circle2VY := 0.0,
                        calmTimer := 0.0, mergeKickArmed := true }, true) := by
          unfold calmBlock
          simp only [hd, hs', hc, if_true]
        rw [e]
        refine ⟨fun _ => zero_lit, fun _ => zero_lit, fun _ => zero_lit, ?_, ?_⟩
        · intro _ _ _ h; cases h
        · intro _; exact ⟨by norm_num, by norm_num [calmThreshold]⟩
      · have e : calmBlock sqrtf m = ({ m with calmTimer := m.calmTimer + timeStep }, false) := by
          unfold calmBlock
          simp only [hd, hs', hc, if_true, if_false]
        rw [e]
        have hset : isSettled sqrtf { m with calmTimer := m.calmTimer + timeStep } = true := hs
        simp only [Bool.not_eq_true', Bool.and_eq_true, Bool.not_eq_eq_eq_not, Bool.not_true] at hd
        refine ⟨?_, ?_, ?_, ?_, ?_⟩
        · rintro (h | h)
          · rw [hd.1] at h; cases h
          · rw [hd.2] at h; cases h
        · intro h; rw [hset] at h; cases h
        · intro h; cases h
        · intro _ _ _ _; rfl
        · intro h0
          exact ⟨by show 0 ≤ m.calmTimer + timeStep; linarith, not_le.mp hc⟩
    · have hs' : (isAtCenter m.circle1X m.circle1Y && isAtCenter m.circle2X m.circle2Y
          && decide (sqrtf (m.circle1VX * m.circle1VX + m.circle1VY * m.circle1VY) < velocityEps)
          && decide (sqrtf (m.circle2VX * m.circle2VX + m.circle2VY * m.circle2VY) < velocityEps))
          = false := by
        simpa [isSettled] using hs
      have e : calmBlock sqrtf m = ({ m with calmTimer := 0.0 }, false) := by
        unfold calmBlock
        simp only [hd, if_true]
        rw [hs']
        rfl
      rw [e]
      have hset : isSettled sqrtf { m with calmTimer := 0.0 } = isSettled sqrtf m := rfl
      refine ⟨fun _ => zero_lit, fun _ => zero_lit, fun _ => zero_lit, ?_, ?_⟩
      · intro _ _ h _
        rw [hset] at h; exact absurd h hs
      · intro _; exact ⟨by norm_num, by norm_num [calmThreshold]⟩
  · have e : calmBlock sqrtf m = ({ m with calmTimer := 0.0 }, false) := by
      unfold calmBlock
      simp only [hd, if_false]
      rfl
    rw [e]
    refine ⟨fun _ => zero_lit, fun _ => zero_lit, fun _ => zero_lit, ?_, ?_⟩
    · intro h1 h2 _ _
      exact absurd (by simp [h1, h2]) hd
    · intro _; exact ⟨by norm_num, by norm_num [calmThreshold]⟩

/-- C14: the `calmTimer` update rule. After an `updateAnimation` step `calmTimer` is `0` if
either circle is dragging, `0` if the state after the step is not settled (some circle
farther than `0.01` from the origin on an axis, or some speed not below `0.003`), `0` if the
reset fired, and otherwise exactly the previous `calmTimer + 0.016`. Hence from any state
with `calmTimer ≥ 0` the step ends with `0 ≤ calmTimer < calmThreshold = 0.5`. -/
theorem calmTimer_update_rule (sqrtf : ℚ → ℚ) (s : CircleState) :
    ((s.isDragging1 = true ∨ s.isDragging2 = true) → (updateAnimation sqrtf s).calmTimer = 0) ∧
    (isSettled sqrtf (updateAnimation sqrtf s) = false →
      (updateAnimation sqrtf s).calmTimer = 0) ∧
    (idleResetFired sqrtf s = true → (updateAnimation sqrtf s).calmTimer = 0) ∧
    (s.isDragging1 = false → s.isDragging2 = false →
      isSettled sqrtf (updateAnimation sqrtf s) = true → idleResetFired sqrtf s = false →
      (updateAnimation sqrtf s).calmTimer = s.calmTimer + 0.016) ∧
    (0 ≤ s.calmTimer →
      0 ≤ (updateAnimation sqrtf s).calmTimer ∧
      (updateAnimation sqrtf s).calmTimer < calmThreshold) ∧
    calmThreshold = 0.5 := by
  have e1 := beforeCalm_isDragging1 s
  have e2 := beforeCalm_isDragging2 s
  have e3 := beforeCalm_calmTimer s
  obtain ⟨c1, c2, c3, c4, c5⟩ := calmBlock_calmTimer sqrtf (beforeCalm s).1
  rw [updateAnimation_eq, idleResetFired_eq]
  rw [e1, e2] at c1 c4
  rw [e3] at c4 c5
  refine ⟨c1, c2, c3, ?_, c5, by norm_num [calmThreshold]⟩
  intro h1 h2 h3 h4
  rw [c4 h1 h2 h3 h4]
  norm_num [timeStep]

theorem calmCounting_beforeCalm : beforeCalm calmCounting = (calmCounting, false) := by
  simp [beforeCalm, pairBlock, mergeKick, pairCoupling, integrateCircle1, integrateCircle2,
    calmCounting, fmaxf, fminf]
  norm_num

theorem calmCounting_step :
    updateAnimation sqrtQ calmCounting
      = { calmCounting with calmTimer := calmCounting.calmTimer + timeStep } := by
  rw [updateAnimation_eq, calmCounting_beforeCalm]
  simp [calmBlock, calmCounting, isAtCenter, fabsf, sqrtQ_zero, velocityEps, timeStep,
    calmThreshold]
  norm_num

theorem restingAtOrigin_reset : idleResetFired sqrtQ restingAtOrigin = true := by
  have hb : (beforeCalm restingAtOrigin).1 = restingAtOrigin := by
    simp [beforeCalm, pairBlock, mergeKick, pairCoupling, integrateCircle1, integrateCircle2,
      restingAtOrigin, fmaxf, fminf]
    norm_num
  rw [idleResetFired_eq, hb]
  simp [calmBlock, restingAtOrigin, isAtCenter, fabsf, sqrtQ_zero, velocityEps, timeStep,
    calmThreshold]
  norm_num

theorem mergeAtThreshold_unsettled :
    isSettled sqrtQ (updateAnimation sqrtQ mergeAtThreshold) = false := by
  have hcalm : calmBlock sqrtQ (beforeCalm mergeAtThreshold).1
      = ({ (beforeCalm mergeAtThreshold).1 with calmTimer := 0.0 }, false) :=
    mergeAtThreshold_calmBlock
  rw [updateAnimation_eq, hcalm, mergeAtThreshold_beforeCalm]
  unfold isSettled
  have h1 : sqrtQ (0 * 0 + (0 + 0.25) * (0 + 0.25)) = 0.25 := by
    rw [zero_add]; exact sqrtQ_quarter
  have h2 : ¬ ((0.25 : ℚ) < velocityEps) := by norm_num [velocityEps]
  simp only [mergeAtThreshold, h1, h2, decide_False, Bool.and_false, Bool.false_and]

/-- Each case of the rule at a concrete state. Accumulating: from `calmCounting` nothing is
dragged, the state after the step is settled and the reset does not fire, so the timer goes
from `0.016` to `0.016 + 0.016` and stays inside `[0, calmThreshold)`. Dragging: circle 2 of
`circleAtRightWall` is held and the timer ends at `0`. Unsettled: the step from
`mergeAtThreshold` ends with speeds `0.25` and the timer at `0`. Reset: the step from
`restingAtOrigin` takes the reset branch and the timer ends at `0`. -/
theorem calmTimer_update_rule_witness :
    calmCounting.isDragging1 = false ∧ calmCounting.isDragging2 = false ∧
    isSettled sqrtQ (updateAnimation sqrtQ calmCounting) = true ∧
    idleResetFired sqrtQ calmCounting = false ∧
    calmCounting.calmTimer = 0.016 ∧
    (updateAnimation sqrtQ calmCounting).calmTimer = calmCounting.calmTimer + 0.016 ∧
    0 ≤ calmCounting.calmTimer ∧
    0 ≤ (updateAnimation sqrtQ calmCounting).calmTimer ∧
    (updateAnimation sqrtQ calmCounting).calmTimer < calmThreshold ∧
    circleAtRightWall.isDragging2 = true ∧
    (updateAnimation sqrtQ circleAtRightWall).calmTimer = 0 ∧
    isSettled sqrtQ (updateAnimation sqrtQ mergeAtThreshold) = false ∧
    (updateAnimation sqrtQ mergeAtThreshold).calmTimer = 0 ∧
    idleResetFired sqrtQ restingAtOrigin = true ∧
    (updateAnimation sqrtQ restingAtOrigin).calmTimer = 0 := by
  have hs : isSettled sqrtQ (updateAnimation sqrtQ calmCounting) = true := by
    rw [calmCounting_step]
    simp [isSettled, calmCounting, isAtCenter, fabsf, sqrtQ_zero, velocityEps]
    norm_num
  have hr : idleResetFired sqrtQ calmCounting = false :=
    idleResetFired_false_of_early sqrtQ calmCounting
      (by norm_num [calmCounting, timeStep, calmThreshold])
  have h0 : 0 ≤ calmCounting.calmTimer := by norm_num [calmCounting]
  have h := calmTimer_update_rule sqrtQ calmCounting
  obtain ⟨h5, h6⟩ := h.2.2.2.2.1 h0
  exact ⟨rfl, rfl, hs, hr, rfl, h.2.2.2.1 rfl rfl hs hr, h0, h5, h6, rfl,
    (calmTimer_update_rule sqrtQ circleAtRightWall).1 (Or.inr rfl),
    mergeAtThreshold_unsettled,
    (calmTimer_update_rule sqrtQ mergeAtThreshold).2.1 mergeAtThreshold_unsettled,
    restingAtOrigin_reset,
    (calmTimer_update_rule sqrtQ restingAtOrigin).2.2.1 restingAtOrigin_reset⟩

theorem pairBlock_velocity_sum (i : CircleState) (h1 : i.isDragging1 = false)
    (h2 : i.isDragging2 = false) :
    (pairBlock i).1.circle1VX + (pairBlock i).1.circle2VX = i.circle1VX + i.circle2VX ∧
    (pairBlock i).1.circle1VY + (pairBlock i).1.circle2VY = i.circle1VY + i.circle2VY := by
  unfold pairBlock mergeKick
  simp only [h1, h2, Bool.not_false, Bool.and_self, if_true]
  split_ifs <;> simp only [pairCoupling] <;> constructor <;> ring

/-- C15: pair coupling is equal and opposite. With neither circle dragging, in a step that
does not perform the idle reset, the sum of the two velocities after `updateAnimation` equals
the sum of the centre-pull-only velocities `(v1 + a1*dt) + (v2 + a2*dt)` on each axis, with
`ai = -springK*pi - damping*vi`: what the pair spring-damper and the merge kick add to circle 1
is exactly the opposite of what they add to circle 2. -/
theorem pair_coupling_preserves_velocity_sum (sqrtf : ℚ → ℚ) (s : CircleState)
    (hd1 : s.isDragging1 = false) (hd2 : s.isDragging2 = false)
    (hr : idleResetFired sqrtf s = false) :
    (updateAnimation sqrtf s).circle1VX + (updateAnimation sqrtf s).circle2VX
      = (s.circle1VX + (-springK * s.circle1X - damping * s.circle1VX) * timeStep)
        + (s.circle2VX + (-springK * s.circle2X - damping * s.circle2VX) * timeStep) ∧
    (updateAnimation sqrtf s).circle1VY + (updateAnimation sqrtf s).circle2VY
      = (s.circle1VY + (-springK * s.circle1Y - damping * s.circle1VY) * timeStep)
        + (s.circle2VY + (-springK * s.circle2Y - damping * s.circle2VY) * timeStep) ∧
    (updateAnimation sqrtf s).circle1VX
        - (s.circle1VX + (-springK * s.circle1X - damping * s.circle1VX) * timeStep)
      = -((updateAnimation sqrtf s).circle2VX
        - (s.circle2VX + (-springK * s.circle2X - damping * s.circle2VX) * timeStep)) ∧
    (updateAnimation sqrtf s).circle1VY
        - (s.circle1VY + (-springK * s.circle1Y - damping * s.circle1VY) * timeStep)
      = -((updateAnimation sqrtf s).circle2VY
        - (s.circle2VY + (-springK * s.circle2Y - damping * s.circle2VY) * timeStep)) := by
  rw [idleResetFired_eq] at hr
  obtain ⟨-, -, -, -, c5, c6, c7, c8, -⟩ := calmBlock_no_reset sqrtf _ hr
  obtain ⟨f1, f2, -⟩ := integrate_flags s
  obtain ⟨px, py⟩ := pairBlock_velocity_sum (integrateCircle2 (integrateCircle1 s))
    (f1.trans hd1) (f2.trans hd2)
  obtain ⟨-, -, a3, a4⟩ := integrate_circle1_fields s
  obtain ⟨-, -, b3, b4⟩ := integrate_circle2_fields s
  obtain ⟨v1, v2, -, -⟩ := integrateCircle1_free s hd1
  obtain ⟨w1, w2, -, -⟩ := integrateCircle2_free s hd2
  rw [a3, b3, v1, w1] at px
  rw [a4, b4, v2, w2] at py
  rw [updateAnimation_eq, c5, c6, c7, c8]
  change (pairBlock (integrateCircle2 (integrateCircle1 s))).1.circle1VX
      + (pairBlock (integrateCircle2 (integrateCircle1 s))).1.circle2VX = _ ∧
    (pairBlock (integrateCircle2 (integrateCircle1 s))).1.circle1VY
      + (pairBlock (integrateCircle2 (integrateCircle1 s))).1.circle2VY = _ ∧
    (pairBlock (integrateCircle2 (integrateCircle1 s))).1.circle1VX - _
      = -((pairBlock (integrateCircle2 (integrateCircle1 s))).1.circle2VX - _) ∧
    (pairBlock (integrateCircle2 (integrateCircle1 s))).1.circle1VY - _
      = -((pairBlock (integrateCircle2 (integrateCircle1 s))).1.circle2VY - _)
  refine ⟨px, py, ?_, ?_⟩
  · linarith
  · linarith

/-- One tick from the starting state: no reset, and the velocity sum is the centre-pull sum. -/
theorem pair_coupling_preserves_velocity_sum_witness :
    circleInit.isDragging1 = false ∧ circleInit.isDragging2 = false ∧
    idleResetFired sqrtQ circleInit = false ∧
    (updateAnimation sqrtQ circleInit).circle1VX + (updateAnimation sqrtQ circleInit).circle2VX
      = 0 := by
  have hr : idleResetFired sqrtQ circleInit = false :=
    idleResetFired_false_of_early sqrtQ circleInit
      (by norm_num [circleInit, timeStep, calmThreshold])
  have h := (pair_coupling_preserves_velocity_sum sqrtQ circleInit rfl rfl hr).1
  refine ⟨rfl, rfl, hr, ?_⟩
  rw [h]
  norm_num [circleInit, springK, damping, timeStep]

/-! ## Rectangle engine: pair term -/

theorem r_pairTerm_close (sqrtf : ℚ → ℚ) (R : Fin 4 → Body) (i j : Fin 4) (a : ℚ × ℚ)
    (hij : i ≠ j)
    (hclose : ((R i).x - (R j).x) * ((R i).x - (R j).x)
      + ((R i).y - (R j).y) * ((R i).y - (R j).y) < 0.05) :
    r_pairTerm sqrtf R i j a
      = (a.1 + (-r_pairK * 0.1 * ((R i).x - (R j).x)
            - r_pairC * 3.0 * ((R i).vx - (R j).vx)) * 0.2,
         a.2 + (-r_pairK * 0.1 * ((R i).y - (R j).y)
            - r_pairC * 3.0 * ((R i).vy - (R j).vy)) * 0.2) := by
  unfold r_pairTerm
  simp only [hij, ne_eq, not_false_eq_true, if_true, hclose]

theorem r_pairTerm_far (sqrtf : ℚ → ℚ) (R : Fin 4 → Body) (i j : Fin 4) (a : ℚ × ℚ)
    (hfar : 0.05 ≤ ((R i).x - (R j).x) * ((R i).x - (R j).x)
      + ((R i).y - (R j).y) * ((R i).y - (R j).y)) :
    r_pairTerm sqrtf R i j a = a := by
  unfold r_pairTerm
  have h : ¬ ((R i).x - (R j).x) * ((R i).x - (R j).x)
      + ((R i).y - (R j).y) * ((R i).y - (R j).y) < 0.05 := not_lt.mpr hfar
  simp only [h, if_false]
  split_ifs <;> rfl

/-- With equal velocities the pair term on rectangle `i` is `-0.002` times the offset from
rectangle `j`: it pulls `i` towards `j`. -/
theorem r_pairTerm_attracts (sqrtf : ℚ → ℚ) (R : Fin 4 → Body) (i j : Fin 4) (hij : i ≠ j)
    (hpos : 0 < ((R i).x - (R j).x) * ((R i).x - (R j).x)
      + ((R i).y - (R j).y) * ((R i).y - (R j).y))
    (hclose : ((R i).x - (R j).x) * ((R i).x - (R j).x)
      + ((R i).y - (R j).y) * ((R i).y - (R j).y) < 0.05)
    (hvx : (R i).vx = (R j).vx) (hvy : (R i).vy = (R j).vy) :
    (r_pairTerm sqrtf R i j (0, 0)).1 * ((R i).x - (R j).x)
      + (r_pairTerm sqrtf R i j (0, 0)).2 * ((R i).y - (R j).y) < 0 := by
  rw [r_pairTerm_close sqrtf R i j (0, 0) hij hclose, hvx, hvy]
  simp only [r_pairK, r_pairC]
  norm_num
  nlinarith

/-- C16: evaluation at the failing input. In `rectClosePair` nothing is dragged, rectangles 0
and 1 are at rest with squared separation `0.01`, strictly between `0` and `0.05`; the term
that rectangle 1 adds to the acceleration of rectangle 0 is `(-0.0002, 0)`, whose dot product
with the offset `(x0 - x1, y0 - y1)` is `-0.00002`: it points towards rectangle 1. The
acceleration `r_update` uses for rectangle 0 is the centre pull `-0.08` plus that term. -/
theorem r_pair_term_points_towards_neighbour :
    r_anyDragging rectClosePair = false ∧
    (0 : ℚ) < ((rectClosePair.R 0).x - (rectClosePair.R 1).x)
        * ((rectClosePair.R 0).x - (rectClosePair.R 1).x)
      + ((rectClosePair.R 0).y - (rectClosePair.R 1).y)
        * ((rectClosePair.R 0).y - (rectClosePair.R 1).y) ∧
    ((rectClosePair.R 0).x - (rectClosePair.R 1).x)
        * ((rectClosePair.R 0).x - (rectClosePair.R 1).x)
      + ((rectClosePair.R 0).y - (rectClosePair.R 1).y)
        * ((rectClosePair.R 0).y - (rectClosePair.R 1).y) < 0.05 ∧
    r_pairTerm sqrtQ rectClosePair.R 0 1 (0, 0) = (-0.0002, 0) ∧
    (r_pairTerm sqrtQ rectClosePair.R 0 1 (0, 0)).1
        * ((rectClosePair.R 0).x - (rectClosePair.R 1).x)
      + (r_pairTerm sqrtQ rectClosePair.R 0 1 (0, 0)).2
        * ((rectClosePair.R 0).y - (rectClosePair.R 1).y) = -0.00002 ∧
    r_accel sqrtQ (r_anyDragging rectClosePair) rectClosePair.R 0 = (-0.08 + -0.0002, 0) := by
  have hpt : r_pairTerm sqrtQ rectClosePair.R 0 1 (0, 0) = (-0.0002, 0) := by
    simp only [r_pairTerm, rectClosePair, Matrix.cons_val_zero, Matrix.cons_val_one,
      Matrix.head_cons, r_pairK, r_pairC]
    norm_num
  have hd : r_distFromCenter sqrtQ (rectClosePair.R 0) = 0.1 := by
    simp only [r_distFromCenter, rectClosePair, Matrix.cons_val_zero, mul_zero, add_zero,
      sqrtQ_mul_self]
    norm_num [abs_of_pos]
  refine ⟨rfl, ?_, ?_, hpt, ?_, ?_⟩
  · simp only [rectClosePair, Matrix.cons_val_zero, Matrix.cons_val_one, Matrix.head_cons]
    norm_num
  · simp only [rectClosePair, Matrix.cons_val_zero, Matrix.cons_val_one, Matrix.head_cons]
    norm_num
  · rw [hpt]
    simp only [rectClosePair, Matrix.cons_val_zero, Matrix.cons_val_one, Matrix.head_cons]
    norm_num
  · change r_accel sqrtQ false rectClosePair.R 0 = _
    unfold r_accel
    rw [hd]
    simp only [List.foldl, r_pairTerm, rectClosePair, Matrix.cons_val_zero,
      Matrix.cons_val_one, Matrix.head_cons, Matrix.cons_val_two, Matrix.tail_cons,
      Matrix.cons_val_three]
    norm_num [r_k, r_c, r_pairK, r_pairC]

/-! ## Rectangle engine: speed cap -/

namespace AnyField

variable {K : Type} [LinearOrderedField K]

theorem r_bodyLoop_untouched_any (sqrtf : K → K) (any_dragging : Bool) (R : Fin 4 → Body K)
    (i : Fin 4) : ∀ n : Nat, n ≤ i.val → r_bodyLoop sqrtf any_dragging R n i = R i := by
  intro n
  induction n with
  | zero => intro _; rfl
  | succ n ih =>
    intro hn
    have hlt : n < 4 := by omega
    have hne : i ≠ ⟨n, hlt⟩ := by
      intro h; rw [h] at hn; simp at hn
    simp only [r_bodyLoop, hlt, dite_true]
    rw [Function.update_noteq hne]
    exact ih (by omega)

theorem r_bodyLoop_done_any (sqrtf : K → K) (any_dragging : Bool) (R : Fin 4 → Body K)
    (i : Fin 4) : ∀ n : Nat, i.val < n → n ≤ 4 →
      r_bodyLoop sqrtf any_dragging R n i
        = r_bodyStep sqrtf any_dragging (r_bodyLoop sqrtf any_dragging R i.val) i := by
  intro n
  induction n with
  | zero => intro h; omega
  | succ n ih =>
    intro hi hn
    have hlt : n < 4 := by omega
    simp only [r_bodyLoop, hlt, dite_true]
    by_cases hin : i.val = n
    · subst hin
      simp only [Fin.eta, Function.update_same]
    · have hne : i ≠ ⟨n, hlt⟩ := fun h => hin (by rw [h])
      rw [Function.update_noteq hne]
      exact ih (by omega) (by omega)

theorem r_loopEntry_self_any (sqrtf : K → K) (s : RectState K) (i : Fin 4) :
    r_loopEntry sqrtf s i i = s.R i :=
  r_bodyLoop_untouched_any sqrtf (r_anyDragging s) s.R i i.val (le_refl _)

theorem r_bodyLoop_four_of_free_any (sqrtf : K → K) (s : RectState K) (i : Fin 4)
    (hnd : (s.R i).dragging = false) :
    r_bodyLoop sqrtf (r_anyDragging s) s.R 4 i = r_keepInBounds (r_capped sqrtf s i) := by
  rw [r_bodyLoop_done_any sqrtf (r_anyDragging s) s.R i 4 i.isLt (le_refl 4)]
  unfold r_bodyStep
  have hd : (r_bodyLoop sqrtf (r_anyDragging s) s.R i.val i).dragging = false := by
    rw [show r_bodyLoop sqrtf (r_anyDragging s) s.R i.val i = s.R i from
      r_loopEntry_self_any sqrtf s i]
    exact hnd
  simp only [hd, Bool.not_false, if_true]
  rfl

theorem r_keepInBounds_eq_any (b : Body K) :
    r_keepInBounds b =
      { x := if b.x < -0.95 then -0.95 else if b.x > 0.95 then 0.95 else b.x,
        y := if b.y < -0.95 then -0.95 else if b.y > 0.95 then 0.95 else b.y,
        vx := if b.x < -0.95 then -b.vx * 0.5 else if b.x > 0.95 then -b.vx * 0.5 else b.vx,
        vy := if b.y < -0.95 then -b.vy * 0.5 else if b.y > 0.95 then -b.vy * 0.5 else b.vy,
        dragging := b.dragging } := by
  obtain ⟨x, y, vx, vy, d⟩ := b
  unfold r_keepInBounds
  dsimp only
  have h2 : ((-0.95 : K) > 0.95) = False := by norm_num
  by_cases hx1 : x < -0.95 <;> by_cases hx2 : x > 0.95 <;>
    by_cases hy1 : y < -0.95 <;> by_cases hy2 : y > 0.95 <;>
    first
    | (exfalso; linarith)
    | simp only [hx1, hx2, hy1, hy2, h2, if_true, if_false]

theorem r_maxSpeed_ge_any (d : K) (hd : 0 ≤ d) : 0.3 ≤ r_maxSpeed d := by
  unfold r_maxSpeed
  split_ifs
  · nlinarith
  · norm_num

theorem r_maxSpeed_le_one_any (d : K) : r_maxSpeed d ≤ 1 := by
  unfold r_maxSpeed
  split_ifs with h
  · nlinarith
  · norm_num

theorem r_keepInBounds_speed_any (b : Body K) :
    (r_keepInBounds b).vx * (r_keepInBounds b).vx ≤ b.vx * b.vx ∧
    (r_keepInBounds b).vy * (r_keepInBounds b).vy ≤ b.vy * b.vy := by
  rw [r_keepInBounds_eq_any]
  dsimp only
  constructor
  · split_ifs <;> nlinarith [mul_self_nonneg b.vx]
  · split_ifs <;> nlinarith [mul_self_nonneg b.vy]

theorem r_settleBody_speed_any (b : Body K) :
    (r_settleBody b).vx * (r_settleBody b).vx ≤ b.vx * b.vx ∧
    (r_settleBody b).vy * (r_settleBody b).vy ≤ b.vy * b.vy := by
  unfold r_settleBody
  dsimp only
  split_ifs <;> dsimp only <;> constructor <;>
    first
    | exact le_refl _
    | nlinarith [mul_self_nonneg b.vx, mul_self_nonneg b.vy]

theorem r_settle_speed_any (sqrtf : K → K) (R : Fin 4 → Body K) (i : Fin 4) :
    (r_settle sqrtf R i).vx * (r_settle sqrtf R i).vx ≤ (R i).vx * (R i).vx ∧
    (r_settle sqrtf R i).vy * (r_settle sqrtf R i).vy ≤ (R i).vy * (R i).vy := by
  unfold r_settle
  dsimp only
  split_ifs
  · exact r_settleBody_speed_any _
  · exact ⟨le_refl _, le_refl _⟩
  · exact ⟨le_refl _, le_refl _⟩

theorem r_update_speed_le_capped_any (sqrtf : K → K) (s : RectState K) (i : Fin 4)
    (hnd : (s.R i).dragging = false) :
    ((r_update sqrtf s).R i).vx * ((r_update sqrtf s).R i).vx
        ≤ (r_capped sqrtf s i).vx * (r_capped sqrtf s i).vx ∧
    ((r_update sqrtf s).R i).vy * ((r_update sqrtf s).R i).vy
        ≤ (r_capped sqrtf s i).vy * (r_capped sqrtf s i).vy := by
  obtain ⟨k1, k2⟩ := r_keepInBounds_speed_any (r_capped sqrtf s i)
  obtain ⟨s1, s2⟩ := r_settle_speed_any sqrtf (r_bodyLoop sqrtf (r_anyDragging s) s.R 4) i
  rw [r_bodyLoop_four_of_free_any sqrtf s i hnd] at s1 s2
  exact ⟨le_trans s1 k1, le_trans s2 k2⟩

theorem r_capped_eq_any (sqrtf : K → K) (s : RectState K) (i : Fin 4) :
    r_capped sqrtf s i =
      if r_speed sqrtf s i > r_cap sqrtf s i then
        { r_integrated sqrtf s i with
          vx := (r_integrated sqrtf s i).vx / r_speed sqrtf s i * r_cap sqrtf s i,
          vy := (r_integrated sqrtf s i).vy / r_speed sqrtf s i * r_cap sqrtf s i }
      else r_integrated sqrtf s i := rfl

end AnyField

/-! At `K = ℚ` the step over any ordered field is the step of the `ℚ` engine. -/

theorem r_pairTerm_toField (sqrtf : ℚ → ℚ) (R : Fin 4 → Body) (i j : Fin 4) (a : ℚ × ℚ) :
    AnyField.r_pairTerm sqrtf (fun k => (R k).toField) i j a = r_pairTerm sqrtf R i j a := rfl

theorem r_accel_toField (sqrtf : ℚ → ℚ) (d : Bool) (R : Fin 4 → Body) (i : Fin 4) :
    AnyField.r_accel sqrtf d (fun k => (R k).toField) i = r_accel sqrtf d R i := rfl

theorem r_integrate_toField (sqrtf : ℚ → ℚ) (d : Bool) (R : Fin 4 → Body) (i : Fin 4) :
    AnyField.r_integrate sqrtf d (fun k => (R k).toField) i
      = (r_integrate sqrtf d R i).toField := rfl

theorem r_limitSpeed_toField (sqrtf : ℚ → ℚ) (d : ℚ) (b : Body) :
    AnyField.r_limitSpeed sqrtf d b.toField = (r_limitSpeed sqrtf d b).toField := by
  by_cases h : sqrtf (b.vx * b.vx + b.vy * b.vy) > r_maxSpeed d
  · have e1 : r_limitSpeed sqrtf d b
        = { b with vx := b.vx / sqrtf (b.vx * b.vx + b.vy * b.vy) * r_maxSpeed d,
                   vy := b.vy / sqrtf (b.vx * b.vx + b.vy * b.vy) * r_maxSpeed d } := if_pos h
    have e2 : AnyField.r_limitSpeed sqrtf d b.toField
        = { b.toField with
            vx := b.vx / sqrtf (b.vx * b.vx + b.vy * b.vy) * r_maxSpeed d,
            vy := b.vy / sqrtf (b.vx * b.vx + b.vy * b.vy) * r_maxSpeed d } := if_pos h
    rw [e1, e2]; rfl
  · have e1 : r_limitSpeed sqrtf d b = b := if_neg h
    have e2 : AnyField.r_limitSpeed sqrtf d b.toField = b.toField := if_neg h
    rw [e1, e2]

theorem r_keepInBounds_toField (b : Body) :
    AnyField.r_keepInBounds b.toField = (r_keepInBounds b).toField := by
  rw [AnyField.r_keepInBounds_eq_any, r_keepInBounds_eq]
  rfl

theorem r_bodyStep_toField (sqrtf : ℚ → ℚ) (d : Bool) (R : Fin 4 → Body) (i : Fin 4) :
    AnyField.r_bodyStep sqrtf d (fun k => (R k).toField) i = (r_bodyStep sqrtf d R i).toField := by
  cases hd : (R i).dragging
  · have e1 : r_bodyStep sqrtf d R i = r_keepInBounds
        (r_limitSpeed sqrtf (r_distFromCenter sqrtf (R i)) (r_integrate sqrtf d R i)) := by
      unfold r_bodyStep; simp only [hd, Bool.not_false, if_true]
    have hd2 : ((fun k => (R k).toField) i).dragging = false := hd
    have e2 : AnyField.r_bodyStep sqrtf d (fun k => (R k).toField) i = AnyField.r_keepInBounds
        (AnyField.r_limitSpeed sqrtf (AnyField.r_distFromCenter sqrtf ((fun k => (R k).toField) i))
          (AnyField.r_integrate sqrtf d (fun k => (R k).toField) i)) := by
      unfold AnyField.r_bodyStep; simp only [hd2, Bool.not_false, if_true]
    rw [e1, e2, r_integrate_toField]
    have e3 : AnyField.r_distFromCenter sqrtf ((fun k => (R k).toField) i)
        = r_distFromCenter sqrtf (R i) := rfl
    rw [e3, r_limitSpeed_toField, r_keepInBounds_toField]
  · have e1 : r_bodyStep sqrtf d R i = { R i with vx := 0.0, vy := 0.0 } := by
      unfold r_bodyStep; simp only [hd, Bool.not_true, if_false]; rfl
    have hd2 : ((fun k => (R k).toField) i).dragging = true := hd
    have e2 : AnyField.r_bodyStep sqrtf d (fun k => (R k).toField) i
        = { (R i).toField with vx := 0.0, vy := 0.0 } := by
      unfold AnyField.r_bodyStep; simp only [hd2, Bool.not_true, if_false]; rfl
    rw [e1, e2]; rfl

theorem r_bodyLoop_toField (sqrtf : ℚ → ℚ) (d : Bool) (R : Fin 4 → Body) :
    ∀ n : Nat, AnyField.r_bodyLoop sqrtf d (fun k => (R k).toField) n
      = fun k => (r_bodyLoop sqrtf d R n k).toField := by
  intro n
  induction n with
  | zero => rfl
  | succ n ih =>
    by_cases hlt : n < 4
    · simp only [AnyField.r_bodyLoop, r_bodyLoop, hlt, dite_true]
      rw [ih]
      funext k
      by_cases hk : k = ⟨n, hlt⟩
      · subst hk
        simp only [Function.update_same]
        exact r_bodyStep_toField sqrtf d (r_bodyLoop sqrtf d R n) _
      · simp only [Function.update_noteq hk]
    · simp only [AnyField.r_bodyLoop, r_bodyLoop, hlt, dite_false]
      exact ih

theorem r_settleBody_toField (b : Body) :
    AnyField.r_settleBody b.toField = (r_settleBody b).toField := by
  unfold AnyField.r_settleBody r_settleBody
  dsimp only
  by_cases h1 : b.x * b.x + b.y * b.y < 0.05 <;>
    by_cases h2 : b.x * b.x + b.y * b.y < 0.0001
  all_goals
    have g1 : (b.toField.x * b.toField.x + b.toField.y * b.toField.y < 0.05)
        = (b.x * b.x + b.y * b.y < 0.05) := rfl
    have g2 : (b.toField.x * b.toField.x + b.toField.y * b.toField.y < 0.0001)
        = (b.x * b.x + b.y * b.y < 0.0001) := rfl
    simp only [g1, g2, h1, h2, if_true, if_false]
    rfl

theorem r_settle_toField (sqrtf : ℚ → ℚ) (R : Fin 4 → Body) :
    AnyField.r_settle sqrtf (fun k => (R k).toField) = fun k => (r_settle sqrtf R k).toField := by
  have hc : AnyField.r_settle sqrtf (fun k => (R k).toField)
      = if !(R 0).dragging && !(R 1).dragging && !(R 2).dragging && !(R 3).dragging then
          if (([0, 1, 2, 3] : List (Fin 4)).all fun i =>
                !(decide (fabsf (R i).x > 0.1) || decide (fabsf (R i).y > 0.1)))
              && (([0, 1, 2, 3] : List (Fin 4)).all fun i =>
                !decide (sqrtf ((R i).vx * (R i).vx + (R i).vy * (R i).vy) ≥ 0.01))
          then fun i => AnyField.r_settleBody (R i).toField
          else fun k => (R k).toField
        else fun k => (R k).toField := rfl
  rw [hc]
  unfold r_settle
  dsimp only
  split_ifs
  · funext k; exact r_settleBody_toField _
  · rfl
  · rfl

theorem r_update_toField (sqrtf : ℚ → ℚ) (s : RectState) :
    AnyField.r_update sqrtf s.toField = (r_update sqrtf s).toField := by
  have ha : AnyField.r_anyDragging s.toField = r_anyDragging s := rfl
  unfold AnyField.r_update r_update
  dsimp only
  rw [ha]
  have hl : AnyField.r_bodyLoop sqrtf (r_anyDragging s) s.toField.R 4
      = fun k => (r_bodyLoop sqrtf (r_anyDragging s) s.R 4 k).toField :=
    r_bodyLoop_toField sqrtf (r_anyDragging s) s.R 4
  rw [hl, r_settle_toField]
  rfl

theorem r_integrated_toField (sqrtf : ℚ → ℚ) (s : RectState) (i : Fin 4) :
    AnyField.r_integrated sqrtf s.toField i = (r_integrated sqrtf s i).toField := by
  have ha : AnyField.r_anyDragging s.toField = r_anyDragging s := rfl
  unfold AnyField.r_integrated r_integrated AnyField.r_loopEntry r_loopEntry
  rw [ha]
  have hl : AnyField.r_bodyLoop sqrtf (r_anyDragging s) s.toField.R i.val
      = fun k => (r_bodyLoop sqrtf (r_anyDragging s) s.R i.val k).toField :=
    r_bodyLoop_toField sqrtf (r_anyDragging s) s.R i.val
  rw [hl]
  exact r_integrate_toField sqrtf _ _ i

theorem r_capped_toField (sqrtf : ℚ → ℚ) (s : RectState) (i : Fin 4) :
    AnyField.r_capped sqrtf s.toField i = (r_capped sqrtf s i).toField := by
  have ha : AnyField.r_anyDragging s.toField = r_anyDragging s := rfl
  have hl : AnyField.r_loopEntry sqrtf s.toField i
      = fun k => (r_loopEntry sqrtf s i k).toField := by
    unfold AnyField.r_loopEntry r_loopEntry
    rw [ha]
    exact r_bodyLoop_toField sqrtf (r_anyDragging s) s.R i.val
  unfold AnyField.r_capped r_capped
  rw [r_integrated_toField, hl]
  exact r_limitSpeed_toField sqrtf _ _

/-- C13: speed cap in the rectangle engine, over any ordered field `K` for the floats and any
non-negative `sqrtf`. For a rectangle that is not dragging, with `d` its distance from the
origin before integration, the cap is `1.0` if `d ≥ 0.3` and `0.3 + 2.33*d` otherwise, and lies
in `[0.3, 1.0]`. The rescale changes the velocity only when `speed > cap`, so the divisor is
positive; after it the velocity is the positive multiple `cap/speed` of the velocity before the
cap, and the rescale never increases a component at the end of the step: each squared velocity
component of the result is at most that of the capped velocity. Wherever `sqrtf` returns the
exact root of the squared speed it is applied to (as the real square root does everywhere),
the rescaled velocity has magnitude exactly `cap`, and at the end of the step the squared speed
is at most `cap^2`, so the speed is at most `cap`, hence at most `1.0`. -/
theorem r_update_speed_cap {K : Type} [LinearOrderedField K] (sqrtf : K → K)
    (hsqrt : ∀ q : K, 0 ≤ sqrtf q)
    (s : AnyField.RectState K) (i : Fin 4) (hnd : (s.R i).dragging = false) :
    AnyField.r_cap sqrtf s i
      = (if AnyField.r_distFromCenter sqrtf (s.R i) ≥ 0.3 then 1.0
         else 0.3 + 2.33 * AnyField.r_distFromCenter sqrtf (s.R i)) ∧
    0.3 ≤ AnyField.r_cap sqrtf s i ∧ AnyField.r_cap sqrtf s i ≤ 1.0 ∧
    (AnyField.r_capped sqrtf s i ≠ AnyField.r_integrated sqrtf s i →
      AnyField.r_speed sqrtf s i > AnyField.r_cap sqrtf s i) ∧
    (AnyField.r_speed sqrtf s i > AnyField.r_cap sqrtf s i →
      0 < AnyField.r_speed sqrtf s i ∧
      0 < AnyField.r_cap sqrtf s i / AnyField.r_speed sqrtf s i ∧
      (AnyField.r_capped sqrtf s i).vx
        = (AnyField.r_integrated sqrtf s i).vx / AnyField.r_speed sqrtf s i
          * AnyField.r_cap sqrtf s i ∧
      (AnyField.r_capped sqrtf s i).vy
        = (AnyField.r_integrated sqrtf s i).vy / AnyField.r_speed sqrtf s i
          * AnyField.r_cap sqrtf s i ∧
      (AnyField.r_capped sqrtf s i).vx
        = AnyField.r_cap sqrtf s i / AnyField.r_speed sqrtf s i
          * (AnyField.r_integrated sqrtf s i).vx ∧
      (AnyField.r_capped sqrtf s i).vy
        = AnyField.r_cap sqrtf s i / AnyField.r_speed sqrtf s i
          * (AnyField.r_integrated sqrtf s i).vy) ∧
    (¬ AnyField.r_speed sqrtf s i > AnyField.r_cap sqrtf s i →
      AnyField.r_capped sqrtf s i = AnyField.r_integrated sqrtf s i) ∧
    ((AnyField.r_update sqrtf s).R i).vx * ((AnyField.r_update sqrtf s).R i).vx
      ≤ (AnyField.r_capped sqrtf s i).vx * (AnyField.r_capped sqrtf s i).vx ∧
    ((AnyField.r_update sqrtf s).R i).vy * ((AnyField.r_update sqrtf s).R i).vy
      ≤ (AnyField.r_capped sqrtf s i).vy * (AnyField.r_capped sqrtf s i).vy ∧
    (AnyField.r_speed sqrtf s i * AnyField.r_speed sqrtf s i
        = (AnyField.r_integrated sqrtf s i).vx * (AnyField.r_integrated sqrtf s i).vx
          + (AnyField.r_integrated sqrtf s i).vy * (AnyField.r_integrated sqrtf s i).vy →
      (AnyField.r_speed sqrtf s i > AnyField.r_cap sqrtf s i →
        (AnyField.r_capped sqrtf s i).vx * (AnyField.r_capped sqrtf s i).vx
          + (AnyField.r_capped sqrtf s i).vy * (AnyField.r_capped sqrtf s i).vy
          = AnyField.r_cap sqrtf s i * AnyField.r_cap sqrtf s i) ∧
      ((AnyField.r_update sqrtf s).R i).vx * ((AnyField.r_update sqrtf s).R i).vx
          + ((AnyField.r_update sqrtf s).R i).vy * ((AnyField.r_update sqrtf s).R i).vy
        ≤ AnyField.r_cap sqrtf s i * AnyField.r_cap sqrtf s i ∧
      (∀ r : K, 0 ≤ r →
        r * r = ((AnyField.r_update sqrtf s).R i).vx * ((AnyField.r_update sqrtf s).R i).vx
          + ((AnyField.r_update sqrtf s).R i).vy * ((AnyField.r_update sqrtf s).R i).vy →
        r ≤ AnyField.r_cap sqrtf s i ∧ r ≤ 1.0)) := by
  have hself := AnyField.r_loopEntry_self_any sqrtf s i
  have hcap3 : 0.3 ≤ AnyField.r_cap sqrtf s i := AnyField.r_maxSpeed_ge_any _ (hsqrt _)
  have hcap1 : AnyField.r_cap sqrtf s i ≤ 1 := AnyField.r_maxSpeed_le_one_any _
  have hcap0 : 0 < AnyField.r_cap sqrtf s i := by
    have : (0 : K) < 0.3 := by norm_num
    exact lt_of_lt_of_le this hcap3
  have hceq := AnyField.r_capped_eq_any sqrtf s i
  have hbig : AnyField.r_speed sqrtf s i > AnyField.r_cap sqrtf s i →
      0 < AnyField.r_speed sqrtf s i ∧
      0 < AnyField.r_cap sqrtf s i / AnyField.r_speed sqrtf s i ∧
      (AnyField.r_capped sqrtf s i).vx
        = (AnyField.r_integrated sqrtf s i).vx / AnyField.r_speed sqrtf s i
          * AnyField.r_cap sqrtf s i ∧
      (AnyField.r_capped sqrtf s i).vy
        = (AnyField.r_integrated sqrtf s i).vy / AnyField.r_speed sqrtf s i
          * AnyField.r_cap sqrtf s i ∧
      (AnyField.r_capped sqrtf s i).vx
        = AnyField.r_cap sqrtf s i / AnyField.r_speed sqrtf s i
          * (AnyField.r_integrated sqrtf s i).vx ∧
      (AnyField.r_capped sqrtf s i).vy
        = AnyField.r_cap sqrtf s i / AnyField.r_speed sqrtf s i
          * (AnyField.r_integrated sqrtf s i).vy := by
    intro h
    have hs0 : 0 < AnyField.r_speed sqrtf s i := lt_trans hcap0 h
    have hne : AnyField.r_speed sqrtf s i ≠ 0 := ne_of_gt hs0
    rw [hceq, if_pos h]
    dsimp only
    exact ⟨hs0, div_pos hcap0 hs0, rfl, rfl, by field_simp; ring, by field_simp; ring⟩
  have hsmall : ¬ AnyField.r_speed sqrtf s i > AnyField.r_cap sqrtf s i →
      AnyField.r_capped sqrtf s i = AnyField.r_integrated sqrtf s i := by
    intro h; rw [hceq, if_neg h]
  obtain ⟨u1, u2⟩ := AnyField.r_update_speed_le_capped_any sqrtf s i hnd
  refine ⟨?_, by norm_num at hcap3 ⊢; exact hcap3, by norm_num; exact hcap1, ?_, hbig, hsmall,
    u1, u2, ?_⟩
  · unfold AnyField.r_cap AnyField.r_maxSpeed
    rw [hself]
    by_cases hd : AnyField.r_distFromCenter sqrtf (s.R i) < 0.3
    · rw [if_pos hd, if_neg (not_le.mpr hd)]; ring
    · rw [if_neg hd, if_pos (not_lt.mp hd)]
  · intro hne
    by_contra h
    exact hne (hsmall h)
  · intro hexact
    have hexactCap : AnyField.r_speed sqrtf s i > AnyField.r_cap sqrtf s i →
        (AnyField.r_capped sqrtf s i).vx * (AnyField.r_capped sqrtf s i).vx
          + (AnyField.r_capped sqrtf s i).vy * (AnyField.r_capped sqrtf s i).vy
          = AnyField.r_cap sqrtf s i * AnyField.r_cap sqrtf s i := by
      intro h
      obtain ⟨hs0, _, e1, e2, _, _⟩ := hbig h
      have hne : AnyField.r_speed sqrtf s i ≠ 0 := ne_of_gt hs0
      rw [e1, e2]
      have e : ∀ a b sp c : K, sp ≠ 0 → sp * sp = a * a + b * b →
          a / sp * c * (a / sp * c) + b / sp * c * (b / sp * c) = c * c := by
        intro a b sp c hsp hq
        have h2 : a / sp * c * (a / sp * c) + b / sp * c * (b / sp * c)
            = (a * a + b * b) / (sp * sp) * (c * c) := by field_simp; ring
        rw [h2, ← hq, div_self (mul_ne_zero hsp hsp), one_mul]
      exact e _ _ _ _ hne hexact
    have hcsq : (AnyField.r_capped sqrtf s i).vx * (AnyField.r_capped sqrtf s i).vx
        + (AnyField.r_capped sqrtf s i).vy * (AnyField.r_capped sqrtf s i).vy
        ≤ AnyField.r_cap sqrtf s i * AnyField.r_cap sqrtf s i := by
      by_cases h : AnyField.r_speed sqrtf s i > AnyField.r_cap sqrtf s i
      · exact le_of_eq (hexactCap h)
      · rw [hsmall h, ← hexact]
        have h1 : AnyField.r_speed sqrtf s i ≤ AnyField.r_cap sqrtf s i := not_lt.mp h
        have h0 : 0 ≤ AnyField.r_speed sqrtf s i := hsqrt _
        exact mul_le_mul h1 h1 h0 (le_of_lt hcap0)
    have hfin : ((AnyField.r_update sqrtf s).R i).vx * ((AnyField.r_update sqrtf s).R i).vx
        + ((AnyField.r_update sqrtf s).R i).vy * ((AnyField.r_update sqrtf s).R i).vy
        ≤ AnyField.r_cap sqrtf s i * AnyField.r_cap sqrtf s i := by linarith
    refine ⟨hexactCap, hfin, ?_⟩
    intro r hr0 hrr
    have hle : r ≤ AnyField.r_cap sqrtf s i := by
      by_contra hgt
      have hgt2 : AnyField.r_cap sqrtf s i < r := not_le.mp hgt
      have : AnyField.r_cap sqrtf s i * AnyField.r_cap sqrtf s i < r * r :=
        mul_lt_mul'' hgt2 hgt2 (le_of_lt hcap0) (le_of_lt hcap0)
      linarith
    exact ⟨hle, by norm_num; linarith⟩

/-- Rectangle 0 of `rectDiagonal` over the reals is at distance at least `0.7` from the
origin. -/
theorem rectDiagonal_dist_any :
    (0.7 : ℝ) ≤ AnyField.r_distFromCenter Real.sqrt ((AnyField.rectDiagonal : AnyField.RectState ℝ).R 0) := by
  simp only [AnyField.r_distFromCenter, AnyField.rectDiagonal, Matrix.cons_val_zero]
  apply Real.le_sqrt_of_sq_le
  norm_num

/-- The integrated rectangle 0 of `rectDiagonal` over the reals. -/
theorem rectDiagonal_integrated_any :
    (AnyField.r_integrated Real.sqrt (AnyField.rectDiagonal : AnyField.RectState ℝ) 0).vx = 1.94432
    ∧ (AnyField.r_integrated Real.sqrt (AnyField.rectDiagonal : AnyField.RectState ℝ) 0).vy
      = 1.94432 := by
  have hd := rectDiagonal_dist_any
  have hd2 : ¬ AnyField.r_distFromCenter Real.sqrt
      ((AnyField.rectDiagonal : AnyField.RectState ℝ).R 0) < 0.7 := not_lt.mpr hd
  have ha : AnyField.r_accel Real.sqrt false (AnyField.rectDiagonal : AnyField.RectState ℝ).R 0
      = (-3.48, -3.48) := by
    unfold AnyField.r_accel
    simp only [hd2, if_false]
    simp only [List.foldl, AnyField.r_pairTerm, AnyField.rectDiagonal, Matrix.cons_val_zero,
      Matrix.cons_val_one, Matrix.head_cons, Matrix.cons_val_two, Matrix.tail_cons,
      Matrix.cons_val_three]
    norm_num [AnyField.r_k, AnyField.r_c]
  change (AnyField.r_integrate Real.sqrt false
      (AnyField.rectDiagonal : AnyField.RectState ℝ).R 0).vx = 1.94432
    ∧ (AnyField.r_integrate Real.sqrt false
      (AnyField.rectDiagonal : AnyField.RectState ℝ).R 0).vy = 1.94432
  unfold AnyField.r_integrate
  rw [ha]
  simp only [AnyField.rectDiagonal, Matrix.cons_val_zero, AnyField.r_dt]
  norm_num

/-- Over the reals with the real square root, rectangle 0 of `rectDiagonal` moves diagonally
faster than the cap: the rescale branch is entered, its divisor is positive, and the rescaled
velocity has magnitude exactly the cap `1.0`. -/
theorem r_update_speed_cap_witness :
    (∀ q : ℝ, 0 ≤ Real.sqrt q) ∧
    ((AnyField.rectDiagonal : AnyField.RectState ℝ).R 0).dragging = false ∧
    AnyField.r_speed Real.sqrt (AnyField.rectDiagonal : AnyField.RectState ℝ) 0
        * AnyField.r_speed Real.sqrt (AnyField.rectDiagonal : AnyField.RectState ℝ) 0
      = (AnyField.r_integrated Real.sqrt (AnyField.rectDiagonal : AnyField.RectState ℝ) 0).vx
          * (AnyField.r_integrated Real.sqrt (AnyField.rectDiagonal : AnyField.RectState ℝ) 0).vx
        + (AnyField.r_integrated Real.sqrt (AnyField.rectDiagonal : AnyField.RectState ℝ) 0).vy
          * (AnyField.r_integrated Real.sqrt (AnyField.rectDiagonal : AnyField.RectState ℝ) 0).vy ∧
    AnyField.r_cap Real.sqrt (AnyField.rectDiagonal : AnyField.RectState ℝ) 0 = 1.0 ∧
    AnyField.r_speed Real.sqrt (AnyField.rectDiagonal : AnyField.RectState ℝ) 0
      > AnyField.r_cap Real.sqrt (AnyField.rectDiagonal : AnyField.RectState ℝ) 0 ∧
    0 < AnyField.r_speed Real.sqrt (AnyField.rectDiagonal : AnyField.RectState ℝ) 0 ∧
    (AnyField.r_capped Real.sqrt (AnyField.rectDiagonal : AnyField.RectState ℝ) 0).vx
        * (AnyField.r_capped Real.sqrt (AnyField.rectDiagonal : AnyField.RectState ℝ) 0).vx
      + (AnyField.r_capped Real.sqrt (AnyField.rectDiagonal : AnyField.RectState ℝ) 0).vy
        * (AnyField.r_capped Real.sqrt (AnyField.rectDiagonal : AnyField.RectState ℝ) 0).vy
      = AnyField.r_cap Real.sqrt (AnyField.rectDiagonal : AnyField.RectState ℝ) 0
        * AnyField.r_cap Real.sqrt (AnyField.rectDiagonal : AnyField.RectState ℝ) 0 ∧
    ((AnyField.r_update Real.sqrt (AnyField.rectDiagonal : AnyField.RectState ℝ)).R 0).vx
        * ((AnyField.r_update Real.sqrt (AnyField.rectDiagonal : AnyField.RectState ℝ)).R 0).vx
      + ((AnyField.r_update Real.sqrt (AnyField.rectDiagonal : AnyField.RectState ℝ)).R 0).vy
        * ((AnyField.r_update Real.sqrt (AnyField.rectDiagonal : AnyField.RectState ℝ)).R 0).vy
      ≤ AnyField.r_cap Real.sqrt (AnyField.rectDiagonal : AnyField.RectState ℝ) 0
        * AnyField.r_cap Real.sqrt (AnyField.rectDiagonal : AnyField.RectState ℝ) 0 := by
  obtain ⟨hvx, hvy⟩ := rectDiagonal_integrated_any
  have hex : AnyField.r_speed Real.sqrt (AnyField.rectDiagonal : AnyField.RectState ℝ) 0
        * AnyField.r_speed Real.sqrt (AnyField.rectDiagonal : AnyField.RectState ℝ) 0
      = (AnyField.r_integrated Real.sqrt (AnyField.rectDiagonal : AnyField.RectState ℝ) 0).vx
          * (AnyField.r_integrated Real.sqrt (AnyField.rectDiagonal : AnyField.RectState ℝ) 0).vx
        + (AnyField.r_integrated Real.sqrt (AnyField.rectDiagonal : AnyField.RectState ℝ) 0).vy
          * (AnyField.r_integrated Real.sqrt (AnyField.rectDiagonal : AnyField.RectState ℝ) 0).vy :=
    Real.mul_self_sqrt (add_nonneg (mul_self_nonneg _) (mul_self_nonneg _))
  have h := r_update_speed_cap Real.sqrt Real.sqrt_nonneg
    (AnyField.rectDiagonal : AnyField.RectState ℝ) 0 rfl
  have hcap : AnyField.r_cap Real.sqrt (AnyField.rectDiagonal : AnyField.RectState ℝ) 0 = 1.0 := by
    rw [h.1, if_pos (le_trans (by norm_num) rectDiagonal_dist_any)]
  have hgt : AnyField.r_speed Real.sqrt (AnyField.rectDiagonal : AnyField.RectState ℝ) 0
      > AnyField.r_cap Real.sqrt (AnyField.rectDiagonal : AnyField.RectState ℝ) 0 := by
    rw [hcap]
    unfold AnyField.r_speed
    rw [hvx, hvy]
    apply Real.lt_sqrt_of_sq_lt
    norm_num
  obtain ⟨h1, h2, _⟩ := h.2.2.2.2.2.2.2.2 hex
  exact ⟨Real.sqrt_nonneg, rfl, hex, hcap, hgt, (h.2.2.2.2.1 hgt).1, h1 hgt, h2⟩

end Sdf
